import Mathlib

set_option maxRecDepth 10000
set_option maxHeartbeats 8000000

/-!
Verification development for the C++ syntax-diagram viewer.

The repository ships two near-duplicate grammar catalogs built from the
railroad-diagram primitives of `@prantlf/railroad-diagrams`, an EBNF text
table, a name filter used by the React shell, and a defensive
diagram-to-SVG serializer.  This file embeds those pieces shallowly:

* `DiagramNode` models the closed set of diagram primitives that the two
  catalogs actually construct (`Terminal`, `NonTerminal`, `Sequence`,
  `Choice`, `Optional`, `ZeroOrMore`, `OneOrMore`, `Stack`, `Comment`,
  and the `Diagram` root).
* `Grammar1` embeds `src/unnamed/part_001` (cpp-syntax-diagrams.ts): its
  `rules` map, `SECTION_RULES` table, and `createRuleDiagram`.
* `Grammar2` embeds the grammar catalog inside
  `src/features/grammar/ebnfDefinitions.ts`: its `rules` map,
  `SECTION_RULES`, `createRuleDiagram` (returning `undefined`, modelled
  as `none`), `getRuleNames`, plus the `EBNF_DEFINITIONS` table with
  `getEbnfDefinition` and `getEbnfRuleNames`.
* `App.filterNames` embeds the search filter of `App.tsx`.
* `Svg.diagramToSvgString` embeds the export helper of
  `diagramToSvgString.ts`, with the dynamic shapes a JavaScript value can
  take at that boundary reified as the inductive `Svg.JsDiagram`.
-/

namespace SyntaxDiagrams

/-- Diagram primitives used by the catalogs.  Each constructor mirrors one
of the wrapped `@prantlf/railroad-diagrams` constructors that the source
files call (`T`/`K` are `Terminal`, `NT` is `NonTerminal`). -/
inductive DiagramNode where
  | terminal (text : String)
  | nonTerminal (name : String)
  | sequence (children : List DiagramNode)
  | choice (defaultIndex : Nat) (alternatives : List DiagramNode)
  | optional (inner : DiagramNode)
  | zeroOrMore (inner : DiagramNode)
  | oneOrMore (inner : DiagramNode)
  | stack (rows : List DiagramNode)
  | comment (text : String)
  | diagram (items : List DiagramNode)

/-- `Map.get` for the insertion-ordered association lists that model the
JavaScript `Map`s.  `Map.set` overwrites an existing key, so `get` returns
the most recent binding: we search the reversed list. -/
def mapGet {α : Type} (m : List (String × α)) (k : String) : Option α :=
  (m.reverse.find? (fun p => p.1 == k)).map (fun p => p.2)

/-- A key is absent from the map iff no binding carries it. -/
theorem mapGet_eq_none_iff {α : Type} (m : List (String × α)) (k : String) :
    mapGet m k = none ↔ ∀ v, (k, v) ∉ m := by
  unfold mapGet
  rw [Option.map_eq_none', List.find?_eq_none]
  constructor
  · intro h v hv
    have hv' : (k, v) ∈ m.reverse := List.mem_reverse.2 hv
    have := h _ hv'
    simp at this
  · intro h p hp
    obtain ⟨a, b⟩ := p
    simp only [beq_iff_eq]
    intro hk
    subst hk
    exact h b (List.mem_reverse.1 hp)

/-- If `mapGet` finds a value, that binding occurs in the list. -/
theorem mapGet_eq_some_mem {α : Type} (m : List (String × α)) (k : String)
    (v : α) (h : mapGet m k = some v) : (k, v) ∈ m := by
  unfold mapGet at h
  rw [Option.map_eq_some'] at h
  obtain ⟨p, hp, hv⟩ := h
  have hmem := List.mem_reverse.1 (List.mem_of_find?_eq_some hp)
  have hk := List.find?_some hp
  simp only [beq_iff_eq] at hk
  cases p
  simp_all

/-- With no duplicate keys, `mapGet` returns exactly the listed binding. -/
theorem mapGet_of_mem_nodup {α : Type} (m : List (String × α))
    (hnd : (m.map Prod.fst).Nodup) (k : String) (v : α)
    (h : (k, v) ∈ m) : mapGet m k = some v := by
  cases hv : mapGet m k with
  | none => exact absurd h ((mapGet_eq_none_iff m k).1 hv v)
  | some w =>
    have hw := mapGet_eq_some_mem m k w hv
    have heq : (k, v) = (k, w) := List.inj_on_of_nodup_map hnd h hw rfl
    exact congrArg some (congrArg Prod.snd heq.symm)

namespace Grammar1

/-!
Embedding of `src/unnamed/part_001` (cpp-syntax-diagrams.ts / cppGrammar.ts):
the `rules` map of diagram factories, `SECTION_RULES`, and the exported
accessors `getRuleFactory` and `createRuleDiagram`.
-/

def rulesChunk0 : List (String × (Unit → DiagramNode)) := [
  ("typedef-name", fun _ => .diagram [.choice 0 [.nonTerminal "identifier", .nonTerminal "simple-template-id"]]),
  ("namespace-name", fun _ => .diagram [.choice 0 [.nonTerminal "identifier", .nonTerminal "namespace-alias"]]),
  ("namespace-alias", fun _ => .diagram [.nonTerminal "identifier"]),
  ("class-name", fun _ => .diagram [.choice 0 [.nonTerminal "identifier", .nonTerminal "simple-template-id"]]),
  ("enum-name", fun _ => .diagram [.nonTerminal "identifier"]),
  ("template-name", fun _ => .diagram [.nonTerminal "identifier"]),
  ("n-char", fun _ => .diagram [.comment "any char except \x7d or new-line"]),
  ("n-char-sequence", fun _ => .diagram [.oneOrMore (.nonTerminal "n-char")]),
  ("named-universal-character", fun _ => .diagram [.sequence [.terminal "\\N\x7b", .nonTerminal "n-char-sequence", .terminal "\x7d"]]),
  ("hex-quad", fun _ => .diagram [.sequence [.nonTerminal "hexadecimal-digit", .nonTerminal "hexadecimal-digit", .nonTerminal "hexadecimal-digit", .nonTerminal "hexadecimal-digit"]]),
  ("simple-hexadecimal-digit-sequence", fun _ => .diagram [.oneOrMore (.nonTerminal "hexadecimal-digit")]),
  ("universal-character-name", fun _ => .diagram [.choice 0 [.sequence [.terminal "\\u", .nonTerminal "hex-quad"], .sequence [.terminal "\\U", .nonTerminal "hex-quad", .nonTerminal "hex-quad"], .sequence [.terminal "\\u\x7b", .nonTerminal "simple-hexadecimal-digit-sequence", .terminal "\x7d"], .nonTerminal "named-universal-character"]]),
  ("preprocessing-token", fun _ => .diagram [.choice 0 [.nonTerminal "header-name", .nonTerminal "import-keyword", .nonTerminal "module-keyword", .nonTerminal "export-keyword", .nonTerminal "identifier", .nonTerminal "pp-number", .nonTerminal "character-literal", .nonTerminal "user-defined-character-literal", .nonTerminal "string-literal", .nonTerminal "user-defined-string-literal", .nonTerminal "preprocessing-op-or-punc", .comment "non-whitespace char"]]),
  ("token", fun _ => .diagram [.choice 0 [.nonTerminal "identifier", .nonTerminal "keyword", .nonTerminal "literal", .nonTerminal "operator-or-punctuator"]]),
  ("header-name", fun _ => .diagram [.choice 0 [.sequence [.terminal "<", .nonTerminal "h-char-sequence", .terminal ">"], .sequence [.terminal "\"", .nonTerminal "q-char-sequence", .terminal "\""]]]),
  ("h-char-sequence", fun _ => .diagram [.oneOrMore (.nonTerminal "h-char")]),
  ("h-char", fun _ => .diagram [.comment "any char except new-line or >"]),
  ("q-char-sequence", fun _ => .diagram [.oneOrMore (.nonTerminal "q-char")]),
  ("q-char", fun _ => .diagram [.comment "any char except new-line or \""]),
  ("pp-number", fun _ => .diagram [.sequence [.choice 0 [.nonTerminal "digit", .sequence [.terminal ".", .nonTerminal "digit"]], .zeroOrMore (.choice 0 [.nonTerminal "identifier-continue", .sequence [.terminal "\x27", .nonTerminal "digit"], .sequence [.terminal "\x27", .nonTerminal "nondigit"], .sequence [.choice 0 [.terminal "e", .terminal "E", .terminal "p", .terminal "P"], .nonTerminal "sign"], .terminal "."])]]),
  ("identifier", fun _ => .diagram [.sequence [.nonTerminal "identifier-start", .zeroOrMore (.nonTerminal "identifier-continue")]]),
  ("identifier-start", fun _ => .diagram [.choice 0 [.nonTerminal "nondigit", .comment "Unicode XID_Start"]]),
  ("identifier-continue", fun _ => .diagram [.choice 0 [.nonTerminal "digit", .nonTerminal "nondigit", .comment "Unicode XID_Continue"]]),
  ("nondigit", fun _ => .diagram [.choice 0 [.terminal "a-z", .terminal "A-Z", .terminal "_"]]),
  ("digit", fun _ => .diagram [.choice 0 [.terminal "0", .terminal "1", .terminal "2", .terminal "3", .terminal "4", .terminal "5", .terminal "6", .terminal "7", .terminal "8", .terminal "9"]]),
  ("keyword", fun _ => .diagram [.choice 0 [.comment "any identifier in Table 5", .nonTerminal "import-keyword", .nonTerminal "module-keyword", .nonTerminal "export-keyword"]]),
  ("preprocessing-op-or-punc", fun _ => .diagram [.choice 0 [.nonTerminal "preprocessing-operator", .nonTerminal "operator-or-punctuator"]]),
  ("preprocessing-operator", fun _ => .diagram [.choice 0 [.terminal "#", .terminal "##", .terminal "%:", .terminal "%:%:"]]),
  ("operator-or-punctuator", fun _ => .diagram [.choice 0 [.terminal "\x7b", .terminal "\x7d", .terminal "[", .terminal "]", .terminal "(", .terminal ")", .terminal "<:", .terminal ":>", .terminal "<%", .terminal "%>", .terminal ";", .terminal ":", .terminal "...", .terminal "?", .terminal "::", .terminal ".", .terminal ".*", .terminal "->", .terminal "->*", .terminal "~", .terminal "!", .terminal "+", .terminal "-", .terminal "*", .terminal "/", .terminal "%", .terminal "^", .terminal "&", .terminal "|", .terminal "=", .terminal "+=", .terminal "-=", .terminal "*=", .terminal "/=", .terminal "%=", .terminal "^=", .terminal "&=", .terminal "|=", .terminal "==", .terminal "!=", .terminal "<", .terminal ">", .terminal "<=", .terminal ">=", .terminal "<=>", .terminal "&&", .terminal "||", .terminal "<<", .terminal ">>", .terminal "<<=", .terminal ">>=", .terminal "++", .terminal "--", .terminal ",", .terminal "and", .terminal "or", .terminal "xor", .terminal "not", .terminal "bitand", .terminal "bitor", .terminal "compl", .terminal "and_eq", .terminal "or_eq", .terminal "xor_eq", .terminal "not_eq"]]),
  ("literal", fun _ => .diagram [.choice 0 [.nonTerminal "integer-literal", .nonTerminal "character-literal", .nonTerminal "floating-point-literal", .nonTerminal "string-literal", .nonTerminal "boolean-literal", .nonTerminal "pointer-literal", .nonTerminal "user-defined-literal"]]),
  ("integer-literal", fun _ => .diagram [.sequence [.choice 0 [.nonTerminal "binary-literal", .nonTerminal "octal-literal", .nonTerminal "decimal-literal", .nonTerminal "hexadecimal-literal"], .optional (.nonTerminal "integer-suffix")]]),
  ("binary-literal", fun _ => .diagram [.sequence [.choice 0 [.terminal "0b", .terminal "0B"], .nonTerminal "binary-digit", .zeroOrMore (.sequence [.optional (.terminal "\x27"), .nonTerminal "binary-digit"])]]),
  ("octal-literal", fun _ => .diagram [.choice 0 [.terminal "0", .sequence [.terminal "0", .oneOrMore (.sequence [.optional (.terminal "\x27"), .nonTerminal "octal-digit"])]]]),
  ("decimal-literal", fun _ => .diagram [.sequence [.nonTerminal "nonzero-digit", .zeroOrMore (.sequence [.optional (.terminal "\x27"), .nonTerminal "digit"])]]),
  ("hexadecimal-literal", fun _ => .diagram [.sequence [.nonTerminal "hexadecimal-prefix", .nonTerminal "hexadecimal-digit-sequence"]]),
  ("binary-digit", fun _ => .diagram [.choice 0 [.terminal "0", .terminal "1"]]),
  ("octal-digit", fun _ => .diagram [.choice 0 [.terminal "0", .terminal "1", .terminal "2", .terminal "3", .terminal "4", .terminal "5", .terminal "6", .terminal "7"]]),
  ("nonzero-digit", fun _ => .diagram [.choice 0 [.terminal "1", .terminal "2", .terminal "3", .terminal "4", .terminal "5", .terminal "6", .terminal "7", .terminal "8", .terminal "9"]]),
  ("hexadecimal-prefix", fun _ => .diagram [.choice 0 [.terminal "0x", .terminal "0X"]]),
  ("hexadecimal-digit-sequence", fun _ => .diagram [.sequence [.nonTerminal "hexadecimal-digit", .zeroOrMore (.sequence [.optional (.terminal "\x27"), .nonTerminal "hexadecimal-digit"])]])
]

def rulesChunk1 : List (String × (Unit → DiagramNode)) := [
  ("hexadecimal-digit", fun _ => .diagram [.choice 0 [.terminal "0", .terminal "1", .terminal "2", .terminal "3", .terminal "4", .terminal "5", .terminal "6", .terminal "7", .terminal "8", .terminal "9", .terminal "a", .terminal "b", .terminal "c", .terminal "d", .terminal "e", .terminal "f", .terminal "A", .terminal "B", .terminal "C", .terminal "D", .terminal "E", .terminal "F"]]),
  ("integer-suffix", fun _ => .diagram [.choice 0 [.sequence [.nonTerminal "unsigned-suffix", .optional (.choice 0 [.nonTerminal "long-suffix", .nonTerminal "long-long-suffix", .nonTerminal "size-suffix"])], .sequence [.nonTerminal "long-suffix", .optional (.nonTerminal "unsigned-suffix")], .sequence [.nonTerminal "long-long-suffix", .optional (.nonTerminal "unsigned-suffix")], .sequence [.nonTerminal "size-suffix", .optional (.nonTerminal "unsigned-suffix")]]]),
  ("unsigned-suffix", fun _ => .diagram [.choice 0 [.terminal "u", .terminal "U"]]),
  ("long-suffix", fun _ => .diagram [.choice 0 [.terminal "l", .terminal "L"]]),
  ("long-long-suffix", fun _ => .diagram [.choice 0 [.terminal "ll", .terminal "LL"]]),
  ("size-suffix", fun _ => .diagram [.choice 0 [.terminal "z", .terminal "Z"]]),
  ("character-literal", fun _ => .diagram [.sequence [.optional (.nonTerminal "encoding-prefix"), .terminal "\x27", .nonTerminal "c-char-sequence", .terminal "\x27"]]),
  ("encoding-prefix", fun _ => .diagram [.choice 0 [.terminal "u8", .terminal "u", .terminal "U", .terminal "L"]]),
  ("c-char-sequence", fun _ => .diagram [.oneOrMore (.nonTerminal "c-char")]),
  ("c-char", fun _ => .diagram [.choice 0 [.nonTerminal "basic-c-char", .nonTerminal "escape-sequence", .nonTerminal "universal-character-name"]]),
  ("basic-c-char", fun _ => .diagram [.comment "any char except \x27, \\, or new-line"]),
  ("escape-sequence", fun _ => .diagram [.choice 0 [.nonTerminal "simple-escape-sequence", .nonTerminal "numeric-escape-sequence", .nonTerminal "conditional-escape-sequence"]]),
  ("simple-escape-sequence", fun _ => .diagram [.sequence [.terminal "\\", .nonTerminal "simple-escape-sequence-char"]]),
  ("simple-escape-sequence-char", fun _ => .diagram [.choice 0 [.terminal "\x27", .terminal "\"", .terminal "?", .terminal "\\", .terminal "a", .terminal "b", .terminal "f", .terminal "n", .terminal "r", .terminal "t", .terminal "v"]]),
  ("numeric-escape-sequence", fun _ => .diagram [.choice 0 [.nonTerminal "octal-escape-sequence", .nonTerminal "hexadecimal-escape-sequence"]]),
  ("simple-octal-digit-sequence", fun _ => .diagram [.oneOrMore (.nonTerminal "octal-digit")]),
  ("octal-escape-sequence", fun _ => .diagram [.choice 0 [.sequence [.terminal "\\", .nonTerminal "octal-digit"], .sequence [.terminal "\\", .nonTerminal "octal-digit", .nonTerminal "octal-digit"], .sequence [.terminal "\\", .nonTerminal "octal-digit", .nonTerminal "octal-digit", .nonTerminal "octal-digit"], .sequence [.terminal "\\o\x7b", .nonTerminal "simple-octal-digit-sequence", .terminal "\x7d"]]]),
  ("hexadecimal-escape-sequence", fun _ => .diagram [.choice 0 [.sequence [.terminal "\\x", .nonTerminal "simple-hexadecimal-digit-sequence"], .sequence [.terminal "\\x\x7b", .nonTerminal "simple-hexadecimal-digit-sequence", .terminal "\x7d"]]]),
  ("conditional-escape-sequence", fun _ => .diagram [.sequence [.terminal "\\", .nonTerminal "conditional-escape-sequence-char"]]),
  ("conditional-escape-sequence-char", fun _ => .diagram [.comment "basic char not octal/escape/N/o/u/U/x"]),
  ("floating-point-literal", fun _ => .diagram [.choice 0 [.nonTerminal "decimal-floating-point-literal", .nonTerminal "hexadecimal-floating-point-literal"]]),
  ("decimal-floating-point-literal", fun _ => .diagram [.choice 0 [.sequence [.nonTerminal "fractional-constant", .optional (.nonTerminal "exponent-part"), .optional (.nonTerminal "floating-point-suffix")], .sequence [.nonTerminal "digit-sequence", .nonTerminal "exponent-part", .optional (.nonTerminal "floating-point-suffix")]]]),
  ("hexadecimal-floating-point-literal", fun _ => .diagram [.choice 0 [.sequence [.nonTerminal "hexadecimal-prefix", .nonTerminal "hexadecimal-fractional-constant", .nonTerminal "binary-exponent-part", .optional (.nonTerminal "floating-point-suffix")], .sequence [.nonTerminal "hexadecimal-prefix", .nonTerminal "hexadecimal-digit-sequence", .nonTerminal "binary-exponent-part", .optional (.nonTerminal "floating-point-suffix")]]]),
  ("fractional-constant", fun _ => .diagram [.choice 0 [.sequence [.optional (.nonTerminal "digit-sequence"), .terminal ".", .nonTerminal "digit-sequence"], .sequence [.nonTerminal "digit-sequence", .terminal "."]]]),
  ("hexadecimal-fractional-constant", fun _ => .diagram [.choice 0 [.sequence [.optional (.nonTerminal "hexadecimal-digit-sequence"), .terminal ".", .nonTerminal "hexadecimal-digit-sequence"], .sequence [.nonTerminal "hexadecimal-digit-sequence", .terminal "."]]]),
  ("exponent-part", fun _ => .diagram [.sequence [.choice 0 [.terminal "e", .terminal "E"], .optional (.nonTerminal "sign"), .nonTerminal "digit-sequence"]]),
  ("binary-exponent-part", fun _ => .diagram [.sequence [.choice 0 [.terminal "p", .terminal "P"], .optional (.nonTerminal "sign"), .nonTerminal "digit-sequence"]]),
  ("sign", fun _ => .diagram [.choice 0 [.terminal "+", .terminal "-"]]),
  ("digit-sequence", fun _ => .diagram [.sequence [.nonTerminal "digit", .zeroOrMore (.sequence [.optional (.terminal "\x27"), .nonTerminal "digit"])]]),
  ("floating-point-suffix", fun _ => .diagram [.choice 0 [.terminal "f", .terminal "l", .terminal "f16", .terminal "f32", .terminal "f64", .terminal "f128", .terminal "bf16", .terminal "F", .terminal "L", .terminal "F16", .terminal "F32", .terminal "F64", .terminal "F128", .terminal "BF16"]]),
  ("string-literal", fun _ => .diagram [.choice 0 [.sequence [.optional (.nonTerminal "encoding-prefix"), .terminal "\"", .optional (.nonTerminal "s-char-sequence"), .terminal "\""], .sequence [.optional (.nonTerminal "encoding-prefix"), .terminal "R", .nonTerminal "raw-string"]]]),
  ("s-char-sequence", fun _ => .diagram [.oneOrMore (.nonTerminal "s-char")]),
  ("s-char", fun _ => .diagram [.choice 0 [.nonTerminal "basic-s-char", .nonTerminal "escape-sequence", .nonTerminal "universal-character-name"]]),
  ("basic-s-char", fun _ => .diagram [.comment "any char except \", \\, or new-line"]),
  ("raw-string", fun _ => .diagram [.sequence [.terminal "\"", .optional (.nonTerminal "d-char-sequence"), .terminal "(", .optional (.nonTerminal "r-char-sequence"), .terminal ")", .optional (.nonTerminal "d-char-sequence"), .terminal "\""]]),
  ("r-char-sequence", fun _ => .diagram [.oneOrMore (.nonTerminal "r-char")]),
  ("r-char", fun _ => .diagram [.comment "any char except ) + d-char-seq + \""]),
  ("d-char-sequence", fun _ => .diagram [.oneOrMore (.nonTerminal "d-char")]),
  ("d-char", fun _ => .diagram [.comment "basic char except space/parens/\\/tabs/newline"]),
  ("boolean-literal", fun _ => .diagram [.choice 0 [.terminal "false", .terminal "true"]])
]

def rulesChunk2 : List (String × (Unit → DiagramNode)) := [
  ("pointer-literal", fun _ => .diagram [.terminal "nullptr"]),
  ("user-defined-literal", fun _ => .diagram [.choice 0 [.nonTerminal "user-defined-integer-literal", .nonTerminal "user-defined-floating-point-literal", .nonTerminal "user-defined-string-literal", .nonTerminal "user-defined-character-literal"]]),
  ("user-defined-integer-literal", fun _ => .diagram [.sequence [.choice 0 [.nonTerminal "decimal-literal", .nonTerminal "octal-literal", .nonTerminal "hexadecimal-literal", .nonTerminal "binary-literal"], .nonTerminal "ud-suffix"]]),
  ("user-defined-floating-point-literal", fun _ => .diagram [.choice 0 [.sequence [.nonTerminal "fractional-constant", .optional (.nonTerminal "exponent-part"), .nonTerminal "ud-suffix"], .sequence [.nonTerminal "digit-sequence", .nonTerminal "exponent-part", .nonTerminal "ud-suffix"], .sequence [.nonTerminal "hexadecimal-prefix", .nonTerminal "hexadecimal-fractional-constant", .nonTerminal "binary-exponent-part", .nonTerminal "ud-suffix"], .sequence [.nonTerminal "hexadecimal-prefix", .nonTerminal "hexadecimal-digit-sequence", .nonTerminal "binary-exponent-part", .nonTerminal "ud-suffix"]]]),
  ("user-defined-string-literal", fun _ => .diagram [.sequence [.nonTerminal "string-literal", .nonTerminal "ud-suffix"]]),
  ("user-defined-character-literal", fun _ => .diagram [.sequence [.nonTerminal "character-literal", .nonTerminal "ud-suffix"]]),
  ("ud-suffix", fun _ => .diagram [.nonTerminal "identifier"]),
  ("translation-unit", fun _ => .diagram [.choice 0 [.optional (.nonTerminal "declaration-seq"), .sequence [.optional (.nonTerminal "global-module-fragment"), .nonTerminal "module-declaration", .optional (.nonTerminal "declaration-seq"), .optional (.nonTerminal "private-module-fragment")]]]),
  ("primary-expression", fun _ => .diagram [.choice 0 [.nonTerminal "literal", .terminal "this", .sequence [.terminal "(", .nonTerminal "expression", .terminal ")"], .nonTerminal "id-expression", .nonTerminal "lambda-expression", .nonTerminal "fold-expression", .nonTerminal "requires-expression"]]),
  ("id-expression", fun _ => .diagram [.choice 0 [.nonTerminal "unqualified-id", .nonTerminal "qualified-id"]]),
  ("unqualified-id", fun _ => .diagram [.choice 0 [.nonTerminal "identifier", .nonTerminal "operator-function-id", .nonTerminal "conversion-function-id", .nonTerminal "literal-operator-id", .sequence [.terminal "~", .nonTerminal "type-name"], .sequence [.terminal "~", .nonTerminal "decltype-specifier"], .nonTerminal "template-id"]]),
  ("qualified-id", fun _ => .diagram [.sequence [.nonTerminal "nested-name-specifier", .optional (.terminal "template"), .nonTerminal "unqualified-id"]]),
  ("nested-name-specifier", fun _ => .diagram [.sequence [.choice 0 [.terminal "::", .sequence [.nonTerminal "type-name", .terminal "::"], .sequence [.nonTerminal "namespace-name", .terminal "::"], .sequence [.nonTerminal "decltype-specifier", .terminal "::"]], .zeroOrMore (.choice 0 [.sequence [.nonTerminal "identifier", .terminal "::"], .sequence [.optional (.terminal "template"), .nonTerminal "simple-template-id", .terminal "::"]])]]),
  ("lambda-expression", fun _ => .diagram [.choice 0 [.sequence [.nonTerminal "lambda-introducer", .optional (.nonTerminal "attribute-specifier-seq"), .nonTerminal "lambda-declarator", .nonTerminal "compound-statement"], .sequence [.nonTerminal "lambda-introducer", .terminal "<", .nonTerminal "template-parameter-list", .terminal ">", .optional (.nonTerminal "requires-clause"), .optional (.nonTerminal "attribute-specifier-seq"), .nonTerminal "lambda-declarator", .nonTerminal "compound-statement"]]]),
  ("lambda-introducer", fun _ => .diagram [.sequence [.terminal "[", .optional (.nonTerminal "lambda-capture"), .terminal "]"]]),
  ("lambda-declarator", fun _ => .diagram [.choice 0 [.sequence [.nonTerminal "lambda-specifier-seq", .optional (.nonTerminal "noexcept-specifier"), .optional (.nonTerminal "attribute-specifier-seq"), .optional (.nonTerminal "trailing-return-type")], .sequence [.nonTerminal "noexcept-specifier", .optional (.nonTerminal "attribute-specifier-seq"), .optional (.nonTerminal "trailing-return-type")], .optional (.nonTerminal "trailing-return-type"), .sequence [.terminal "(", .nonTerminal "parameter-declaration-clause", .terminal ")", .optional (.nonTerminal "lambda-specifier-seq"), .optional (.nonTerminal "noexcept-specifier"), .optional (.nonTerminal "attribute-specifier-seq"), .optional (.nonTerminal "trailing-return-type"), .optional (.nonTerminal "requires-clause")]]]),
  ("lambda-specifier", fun _ => .diagram [.choice 0 [.terminal "consteval", .terminal "constexpr", .terminal "mutable", .terminal "static"]]),
  ("lambda-specifier-seq", fun _ => .diagram [.oneOrMore (.nonTerminal "lambda-specifier")]),
  ("lambda-capture", fun _ => .diagram [.choice 0 [.nonTerminal "capture-default", .nonTerminal "capture-list", .sequence [.nonTerminal "capture-default", .terminal ",", .nonTerminal "capture-list"]]]),
  ("capture-default", fun _ => .diagram [.choice 0 [.terminal "&", .terminal "="]]),
  ("capture-list", fun _ => .diagram [.sequence [.nonTerminal "capture", .zeroOrMore (.sequence [.terminal ",", .nonTerminal "capture"])]]),
  ("capture", fun _ => .diagram [.choice 0 [.nonTerminal "simple-capture", .nonTerminal "init-capture"]]),
  ("simple-capture", fun _ => .diagram [.choice 0 [.sequence [.nonTerminal "identifier", .optional (.terminal "...")], .sequence [.terminal "&", .nonTerminal "identifier", .optional (.terminal "...")], .terminal "this", .sequence [.terminal "*", .terminal "this"]]]),
  ("init-capture", fun _ => .diagram [.choice 0 [.sequence [.optional (.terminal "..."), .nonTerminal "identifier", .nonTerminal "initializer"], .sequence [.terminal "&", .optional (.terminal "..."), .nonTerminal "identifier", .nonTerminal "initializer"]]]),
  ("fold-expression", fun _ => .diagram [.choice 0 [.sequence [.terminal "(", .nonTerminal "cast-expression", .nonTerminal "fold-operator", .terminal "...", .terminal ")"], .sequence [.terminal "(", .terminal "...", .nonTerminal "fold-operator", .nonTerminal "cast-expression", .terminal ")"], .sequence [.terminal "(", .nonTerminal "cast-expression", .nonTerminal "fold-operator", .terminal "...", .nonTerminal "fold-operator", .nonTerminal "cast-expression", .terminal ")"]]]),
  ("fold-operator", fun _ => .diagram [.choice 0 [.terminal "+", .terminal "-", .terminal "*", .terminal "/", .terminal "%", .terminal "^", .terminal "&", .terminal "|", .terminal "<<", .terminal ">>", .terminal "+=", .terminal "-=", .terminal "*=", .terminal "/=", .terminal "%=", .terminal "^=", .terminal "&=", .terminal "|=", .terminal "<<=", .terminal ">>=", .terminal "=", .terminal "==", .terminal "!=", .terminal "<", .terminal ">", .terminal "<=", .terminal ">=", .terminal "&&", .terminal "||", .terminal ",", .terminal ".*", .terminal "->*"]]),
  ("requires-expression", fun _ => .diagram [.sequence [.terminal "requires", .optional (.nonTerminal "requirement-parameter-list"), .nonTerminal "requirement-body"]]),
  ("requirement-parameter-list", fun _ => .diagram [.sequence [.terminal "(", .nonTerminal "parameter-declaration-clause", .terminal ")"]]),
  ("requirement-body", fun _ => .diagram [.sequence [.terminal "\x7b", .nonTerminal "requirement-seq", .terminal "\x7d"]]),
  ("requirement-seq", fun _ => .diagram [.oneOrMore (.nonTerminal "requirement")]),
  ("requirement", fun _ => .diagram [.choice 0 [.nonTerminal "simple-requirement", .nonTerminal "type-requirement", .nonTerminal "compound-requirement", .nonTerminal "nested-requirement"]]),
  ("simple-requirement", fun _ => .diagram [.sequence [.nonTerminal "expression", .terminal ";"]]),
  ("type-requirement", fun _ => .diagram [.sequence [.terminal "typename", .optional (.nonTerminal "nested-name-specifier"), .nonTerminal "type-name", .terminal ";"]]),
  ("compound-requirement", fun _ => .diagram [.sequence [.terminal "\x7b", .nonTerminal "expression", .terminal "\x7d", .optional (.terminal "noexcept"), .optional (.nonTerminal "return-type-requirement"), .terminal ";"]]),
  ("return-type-requirement", fun _ => .diagram [.sequence [.terminal "->", .nonTerminal "type-constraint"]]),
  ("nested-requirement", fun _ => .diagram [.sequence [.terminal "requires", .nonTerminal "constraint-expression", .terminal ";"]]),
  ("postfix-expression", fun _ => .diagram [.choice 0 [.nonTerminal "primary-expression", .sequence [.nonTerminal "postfix-expression", .terminal "[", .optional (.nonTerminal "expression-list"), .terminal "]"], .sequence [.nonTerminal "postfix-expression", .terminal "(", .optional (.nonTerminal "expression-list"), .terminal ")"], .sequence [.nonTerminal "simple-type-specifier", .terminal "(", .optional (.nonTerminal "expression-list"), .terminal ")"], .sequence [.nonTerminal "typename-specifier", .terminal "(", .optional (.nonTerminal "expression-list"), .terminal ")"], .sequence [.nonTerminal "simple-type-specifier", .nonTerminal "braced-init-list"], .sequence [.nonTerminal "typename-specifier", .nonTerminal "braced-init-list"], .sequence [.nonTerminal "postfix-expression", .terminal ".", .optional (.terminal "template"), .nonTerminal "id-expression"], .sequence [.nonTerminal "postfix-expression", .terminal "->", .optional (.terminal "template"), .nonTerminal "id-expression"], .sequence [.nonTerminal "postfix-expression", .terminal "++"], .sequence [.nonTerminal "postfix-expression", .terminal "--"], .sequence [.terminal "dynamic_cast", .terminal "<", .nonTerminal "type-id", .terminal ">", .terminal "(", .nonTerminal "expression", .terminal ")"], .sequence [.terminal "static_cast", .terminal "<", .nonTerminal "type-id", .terminal ">", .terminal "(", .nonTerminal "expression", .terminal ")"], .sequence [.terminal "reinterpret_cast", .terminal "<", .nonTerminal "type-id", .terminal ">", .terminal "(", .nonTerminal "expression", .terminal ")"], .sequence [.terminal "const_cast", .terminal "<", .nonTerminal "type-id", .terminal ">", .terminal "(", .nonTerminal "expression", .terminal ")"], .sequence [.terminal "typeid", .terminal "(", .nonTerminal "expression", .terminal ")"], .sequence [.terminal "typeid", .terminal "(", .nonTerminal "type-id", .terminal ")"]]]),
  ("expression-list", fun _ => .diagram [.nonTerminal "initializer-list"]),
  ("unary-expression", fun _ => .diagram [.choice 0 [.nonTerminal "postfix-expression", .sequence [.nonTerminal "unary-operator", .nonTerminal "cast-expression"], .sequence [.terminal "++", .nonTerminal "cast-expression"], .sequence [.terminal "--", .nonTerminal "cast-expression"], .nonTerminal "await-expression", .sequence [.terminal "sizeof", .nonTerminal "unary-expression"], .sequence [.terminal "sizeof", .terminal "(", .nonTerminal "type-id", .terminal ")"], .sequence [.terminal "sizeof", .terminal "...", .terminal "(", .nonTerminal "identifier", .terminal ")"], .sequence [.terminal "alignof", .terminal "(", .nonTerminal "type-id", .terminal ")"], .nonTerminal "noexcept-expression", .nonTerminal "new-expression", .nonTerminal "delete-expression"]]),
  ("unary-operator", fun _ => .diagram [.choice 0 [.terminal "*", .terminal "&", .terminal "+", .terminal "-", .terminal "!", .terminal "~"]])
]

def rulesChunk3 : List (String × (Unit → DiagramNode)) := [
  ("await-expression", fun _ => .diagram [.sequence [.terminal "co_await", .nonTerminal "cast-expression"]]),
  ("noexcept-expression", fun _ => .diagram [.sequence [.terminal "noexcept", .terminal "(", .nonTerminal "expression", .terminal ")"]]),
  ("new-expression", fun _ => .diagram [.sequence [.optional (.terminal "::"), .terminal "new", .optional (.nonTerminal "new-placement"), .choice 0 [.nonTerminal "new-type-id", .sequence [.terminal "(", .nonTerminal "type-id", .terminal ")"]], .optional (.nonTerminal "new-initializer")]]),
  ("new-placement", fun _ => .diagram [.sequence [.terminal "(", .nonTerminal "expression-list", .terminal ")"]]),
  ("new-type-id", fun _ => .diagram [.sequence [.nonTerminal "type-specifier-seq", .optional (.nonTerminal "new-declarator")]]),
  ("new-declarator", fun _ => .diagram [.choice 0 [.sequence [.nonTerminal "ptr-operator", .optional (.nonTerminal "new-declarator")], .nonTerminal "noptr-new-declarator"]]),
  ("noptr-new-declarator", fun _ => .diagram [.sequence [.terminal "[", .optional (.nonTerminal "expression"), .terminal "]", .optional (.nonTerminal "attribute-specifier-seq"), .zeroOrMore (.sequence [.terminal "[", .nonTerminal "constant-expression", .terminal "]", .optional (.nonTerminal "attribute-specifier-seq")])]]),
  ("new-initializer", fun _ => .diagram [.choice 0 [.sequence [.terminal "(", .optional (.nonTerminal "expression-list"), .terminal ")"], .nonTerminal "braced-init-list"]]),
  ("delete-expression", fun _ => .diagram [.sequence [.optional (.terminal "::"), .terminal "delete", .optional (.sequence [.terminal "[", .terminal "]"]), .nonTerminal "cast-expression"]]),
  ("cast-expression", fun _ => .diagram [.choice 0 [.nonTerminal "unary-expression", .sequence [.terminal "(", .nonTerminal "type-id", .terminal ")", .nonTerminal "cast-expression"]]]),
  ("pm-expression", fun _ => .diagram [.sequence [.nonTerminal "cast-expression", .zeroOrMore (.sequence [.choice 0 [.terminal ".*", .terminal "->*"], .nonTerminal "cast-expression"])]]),
  ("multiplicative-expression", fun _ => .diagram [.sequence [.nonTerminal "pm-expression", .zeroOrMore (.sequence [.choice 0 [.terminal "*", .terminal "/", .terminal "%"], .nonTerminal "pm-expression"])]]),
  ("additive-expression", fun _ => .diagram [.sequence [.nonTerminal "multiplicative-expression", .zeroOrMore (.sequence [.choice 0 [.terminal "+", .terminal "-"], .nonTerminal "multiplicative-expression"])]]),
  ("shift-expression", fun _ => .diagram [.sequence [.nonTerminal "additive-expression", .zeroOrMore (.sequence [.choice 0 [.terminal "<<", .terminal ">>"], .nonTerminal "additive-expression"])]]),
  ("compare-expression", fun _ => .diagram [.sequence [.nonTerminal "shift-expression", .zeroOrMore (.sequence [.terminal "<=>", .nonTerminal "shift-expression"])]]),
  ("relational-expression", fun _ => .diagram [.sequence [.nonTerminal "compare-expression", .zeroOrMore (.sequence [.choice 0 [.terminal "<", .terminal ">", .terminal "<=", .terminal ">="], .nonTerminal "compare-expression"])]]),
  ("equality-expression", fun _ => .diagram [.sequence [.nonTerminal "relational-expression", .zeroOrMore (.sequence [.choice 0 [.terminal "==", .terminal "!="], .nonTerminal "relational-expression"])]]),
  ("and-expression", fun _ => .diagram [.sequence [.nonTerminal "equality-expression", .zeroOrMore (.sequence [.terminal "&", .nonTerminal "equality-expression"])]]),
  ("exclusive-or-expression", fun _ => .diagram [.sequence [.nonTerminal "and-expression", .zeroOrMore (.sequence [.terminal "^", .nonTerminal "and-expression"])]]),
  ("inclusive-or-expression", fun _ => .diagram [.sequence [.nonTerminal "exclusive-or-expression", .zeroOrMore (.sequence [.terminal "|", .nonTerminal "exclusive-or-expression"])]]),
  ("logical-and-expression", fun _ => .diagram [.sequence [.nonTerminal "inclusive-or-expression", .zeroOrMore (.sequence [.terminal "&&", .nonTerminal "inclusive-or-expression"])]]),
  ("logical-or-expression", fun _ => .diagram [.sequence [.nonTerminal "logical-and-expression", .zeroOrMore (.sequence [.terminal "||", .nonTerminal "logical-and-expression"])]]),
  ("conditional-expression", fun _ => .diagram [.choice 0 [.nonTerminal "logical-or-expression", .sequence [.nonTerminal "logical-or-expression", .terminal "?", .nonTerminal "expression", .terminal ":", .nonTerminal "assignment-expression"]]]),
  ("yield-expression", fun _ => .diagram [.choice 0 [.sequence [.terminal "co_yield", .nonTerminal "assignment-expression"], .sequence [.terminal "co_yield", .nonTerminal "braced-init-list"]]]),
  ("throw-expression", fun _ => .diagram [.sequence [.terminal "throw", .optional (.nonTerminal "assignment-expression")]]),
  ("assignment-expression", fun _ => .diagram [.choice 0 [.nonTerminal "conditional-expression", .nonTerminal "yield-expression", .nonTerminal "throw-expression", .sequence [.nonTerminal "logical-or-expression", .nonTerminal "assignment-operator", .nonTerminal "initializer-clause"]]]),
  ("assignment-operator", fun _ => .diagram [.choice 0 [.terminal "=", .terminal "*=", .terminal "/=", .terminal "%=", .terminal "+=", .terminal "-=", .terminal ">>=", .terminal "<<=", .terminal "&=", .terminal "^=", .terminal "|="]]),
  ("expression", fun _ => .diagram [.sequence [.nonTerminal "assignment-expression", .zeroOrMore (.sequence [.terminal ",", .nonTerminal "assignment-expression"])]]),
  ("constant-expression", fun _ => .diagram [.nonTerminal "conditional-expression"]),
  ("statement", fun _ => .diagram [.choice 0 [.nonTerminal "labeled-statement", .sequence [.optional (.nonTerminal "attribute-specifier-seq"), .nonTerminal "expression-statement"], .sequence [.optional (.nonTerminal "attribute-specifier-seq"), .nonTerminal "compound-statement"], .sequence [.optional (.nonTerminal "attribute-specifier-seq"), .nonTerminal "selection-statement"], .sequence [.optional (.nonTerminal "attribute-specifier-seq"), .nonTerminal "iteration-statement"], .sequence [.optional (.nonTerminal "attribute-specifier-seq"), .nonTerminal "jump-statement"], .nonTerminal "declaration-statement", .sequence [.optional (.nonTerminal "attribute-specifier-seq"), .nonTerminal "try-block"]]]),
  ("init-statement", fun _ => .diagram [.choice 0 [.nonTerminal "expression-statement", .nonTerminal "simple-declaration", .nonTerminal "alias-declaration"]]),
  ("condition", fun _ => .diagram [.choice 0 [.nonTerminal "expression", .sequence [.optional (.nonTerminal "attribute-specifier-seq"), .nonTerminal "decl-specifier-seq", .nonTerminal "declarator", .nonTerminal "brace-or-equal-initializer"]]]),
  ("label", fun _ => .diagram [.sequence [.optional (.nonTerminal "attribute-specifier-seq"), .choice 0 [.sequence [.nonTerminal "identifier", .terminal ":"], .sequence [.terminal "case", .nonTerminal "constant-expression", .terminal ":"], .sequence [.terminal "default", .terminal ":"]]]]),
  ("labeled-statement", fun _ => .diagram [.sequence [.nonTerminal "label", .nonTerminal "statement"]]),
  ("expression-statement", fun _ => .diagram [.sequence [.optional (.nonTerminal "expression"), .terminal ";"]]),
  ("compound-statement", fun _ => .diagram [.sequence [.terminal "\x7b", .optional (.nonTerminal "statement-seq"), .optional (.nonTerminal "label-seq"), .terminal "\x7d"]]),
  ("statement-seq", fun _ => .diagram [.oneOrMore (.nonTerminal "statement")]),
  ("label-seq", fun _ => .diagram [.oneOrMore (.nonTerminal "label")]),
  ("selection-statement", fun _ => .diagram [.choice 0 [.sequence [.terminal "if", .optional (.terminal "constexpr"), .terminal "(", .optional (.nonTerminal "init-statement"), .nonTerminal "condition", .terminal ")", .nonTerminal "statement"], .sequence [.terminal "if", .optional (.terminal "constexpr"), .terminal "(", .optional (.nonTerminal "init-statement"), .nonTerminal "condition", .terminal ")", .nonTerminal "statement", .terminal "else", .nonTerminal "statement"], .sequence [.terminal "if", .optional (.terminal "!"), .terminal "consteval", .nonTerminal "compound-statement"], .sequence [.terminal "if", .optional (.terminal "!"), .terminal "consteval", .nonTerminal "compound-statement", .terminal "else", .nonTerminal "statement"], .sequence [.terminal "switch", .terminal "(", .optional (.nonTerminal "init-statement"), .nonTerminal "condition", .terminal ")", .nonTerminal "statement"]]]),
  ("iteration-statement", fun _ => .diagram [.choice 0 [.sequence [.terminal "while", .terminal "(", .nonTerminal "condition", .terminal ")", .nonTerminal "statement"], .sequence [.terminal "do", .nonTerminal "statement", .terminal "while", .terminal "(", .nonTerminal "expression", .terminal ")", .terminal ";"], .sequence [.terminal "for", .terminal "(", .nonTerminal "init-statement", .optional (.nonTerminal "condition"), .terminal ";", .optional (.nonTerminal "expression"), .terminal ")", .nonTerminal "statement"], .sequence [.terminal "for", .terminal "(", .optional (.nonTerminal "init-statement"), .nonTerminal "for-range-declaration", .terminal ":", .nonTerminal "for-range-initializer", .terminal ")", .nonTerminal "statement"]]])
]

def rulesChunk4 : List (String × (Unit → DiagramNode)) := [
  ("for-range-declaration", fun _ => .diagram [.choice 0 [.sequence [.optional (.nonTerminal "attribute-specifier-seq"), .nonTerminal "decl-specifier-seq", .nonTerminal "declarator"], .sequence [.optional (.nonTerminal "attribute-specifier-seq"), .nonTerminal "decl-specifier-seq", .optional (.nonTerminal "ref-qualifier"), .terminal "[", .nonTerminal "identifier-list", .terminal "]"]]]),
  ("for-range-initializer", fun _ => .diagram [.nonTerminal "expr-or-braced-init-list"]),
  ("jump-statement", fun _ => .diagram [.choice 0 [.sequence [.terminal "break", .terminal ";"], .sequence [.terminal "continue", .terminal ";"], .sequence [.terminal "return", .optional (.nonTerminal "expr-or-braced-init-list"), .terminal ";"], .nonTerminal "coroutine-return-statement", .sequence [.terminal "goto", .nonTerminal "identifier", .terminal ";"]]]),
  ("coroutine-return-statement", fun _ => .diagram [.sequence [.terminal "co_return", .optional (.nonTerminal "expr-or-braced-init-list"), .terminal ";"]]),
  ("declaration-statement", fun _ => .diagram [.nonTerminal "block-declaration"]),
  ("declaration-seq", fun _ => .diagram [.oneOrMore (.nonTerminal "declaration")]),
  ("declaration", fun _ => .diagram [.choice 0 [.nonTerminal "name-declaration", .nonTerminal "special-declaration"]]),
  ("name-declaration", fun _ => .diagram [.choice 0 [.nonTerminal "block-declaration", .nonTerminal "nodeclspec-function-declaration", .nonTerminal "function-definition", .nonTerminal "template-declaration", .nonTerminal "deduction-guide", .nonTerminal "linkage-specification", .nonTerminal "namespace-definition", .nonTerminal "empty-declaration", .nonTerminal "attribute-declaration", .nonTerminal "module-import-declaration"]]),
  ("special-declaration", fun _ => .diagram [.choice 0 [.nonTerminal "explicit-instantiation", .nonTerminal "explicit-specialization", .nonTerminal "export-declaration"]]),
  ("block-declaration", fun _ => .diagram [.choice 0 [.nonTerminal "simple-declaration", .nonTerminal "asm-declaration", .nonTerminal "namespace-alias-definition", .nonTerminal "using-declaration", .nonTerminal "using-enum-declaration", .nonTerminal "using-directive", .nonTerminal "static_assert-declaration", .nonTerminal "alias-declaration", .nonTerminal "opaque-enum-declaration"]]),
  ("nodeclspec-function-declaration", fun _ => .diagram [.sequence [.optional (.nonTerminal "attribute-specifier-seq"), .nonTerminal "declarator", .terminal ";"]]),
  ("alias-declaration", fun _ => .diagram [.sequence [.terminal "using", .nonTerminal "identifier", .optional (.nonTerminal "attribute-specifier-seq"), .terminal "=", .nonTerminal "defining-type-id", .terminal ";"]]),
  ("simple-declaration", fun _ => .diagram [.choice 0 [.sequence [.nonTerminal "decl-specifier-seq", .optional (.nonTerminal "init-declarator-list"), .terminal ";"], .sequence [.nonTerminal "attribute-specifier-seq", .nonTerminal "decl-specifier-seq", .nonTerminal "init-declarator-list", .terminal ";"], .sequence [.optional (.nonTerminal "attribute-specifier-seq"), .nonTerminal "decl-specifier-seq", .optional (.nonTerminal "ref-qualifier"), .terminal "[", .nonTerminal "identifier-list", .terminal "]", .nonTerminal "initializer", .terminal ";"]]]),
  ("static_assert-declaration", fun _ => .diagram [.choice 0 [.sequence [.terminal "static_assert", .terminal "(", .nonTerminal "constant-expression", .terminal ")", .terminal ";"], .sequence [.terminal "static_assert", .terminal "(", .nonTerminal "constant-expression", .terminal ",", .nonTerminal "string-literal", .terminal ")", .terminal ";"]]]),
  ("empty-declaration", fun _ => .diagram [.terminal ";"]),
  ("attribute-declaration", fun _ => .diagram [.sequence [.nonTerminal "attribute-specifier-seq", .terminal ";"]]),
  ("decl-specifier", fun _ => .diagram [.choice 0 [.nonTerminal "storage-class-specifier", .nonTerminal "defining-type-specifier", .nonTerminal "function-specifier", .terminal "friend", .terminal "typedef", .terminal "constexpr", .terminal "consteval", .terminal "constinit", .terminal "inline"]]),
  ("decl-specifier-seq", fun _ => .diagram [.oneOrMore (.sequence [.nonTerminal "decl-specifier", .optional (.nonTerminal "attribute-specifier-seq")])]),
  ("storage-class-specifier", fun _ => .diagram [.choice 0 [.terminal "static", .terminal "thread_local", .terminal "extern", .terminal "mutable"]]),
  ("function-specifier", fun _ => .diagram [.choice 0 [.terminal "virtual", .nonTerminal "explicit-specifier"]]),
  ("explicit-specifier", fun _ => .diagram [.choice 0 [.sequence [.terminal "explicit", .terminal "(", .nonTerminal "constant-expression", .terminal ")"], .terminal "explicit"]]),
  ("type-specifier", fun _ => .diagram [.choice 0 [.nonTerminal "simple-type-specifier", .nonTerminal "elaborated-type-specifier", .nonTerminal "typename-specifier", .nonTerminal "cv-qualifier"]]),
  ("type-specifier-seq", fun _ => .diagram [.oneOrMore (.sequence [.nonTerminal "type-specifier", .optional (.nonTerminal "attribute-specifier-seq")])]),
  ("defining-type-specifier", fun _ => .diagram [.choice 0 [.nonTerminal "type-specifier", .nonTerminal "class-specifier", .nonTerminal "enum-specifier"]]),
  ("defining-type-specifier-seq", fun _ => .diagram [.oneOrMore (.sequence [.nonTerminal "defining-type-specifier", .optional (.nonTerminal "attribute-specifier-seq")])]),
  ("simple-type-specifier", fun _ => .diagram [.choice 0 [.sequence [.optional (.nonTerminal "nested-name-specifier"), .nonTerminal "type-name"], .sequence [.nonTerminal "nested-name-specifier", .terminal "template", .nonTerminal "simple-template-id"], .nonTerminal "decltype-specifier", .nonTerminal "placeholder-type-specifier", .sequence [.optional (.nonTerminal "nested-name-specifier"), .nonTerminal "template-name"], .terminal "char", .terminal "char8_t", .terminal "char16_t", .terminal "char32_t", .terminal "wchar_t", .terminal "bool", .terminal "short", .terminal "int", .terminal "long", .terminal "signed", .terminal "unsigned", .terminal "float", .terminal "double", .terminal "void"]]),
  ("type-name", fun _ => .diagram [.choice 0 [.nonTerminal "class-name", .nonTerminal "enum-name", .nonTerminal "typedef-name"]]),
  ("elaborated-type-specifier", fun _ => .diagram [.choice 0 [.sequence [.nonTerminal "class-key", .optional (.nonTerminal "attribute-specifier-seq"), .optional (.nonTerminal "nested-name-specifier"), .nonTerminal "identifier"], .sequence [.nonTerminal "class-key", .nonTerminal "simple-template-id"], .sequence [.nonTerminal "class-key", .nonTerminal "nested-name-specifier", .optional (.terminal "template"), .nonTerminal "simple-template-id"], .sequence [.terminal "enum", .optional (.nonTerminal "nested-name-specifier"), .nonTerminal "identifier"]]]),
  ("decltype-specifier", fun _ => .diagram [.sequence [.terminal "decltype", .terminal "(", .nonTerminal "expression", .terminal ")"]]),
  ("placeholder-type-specifier", fun _ => .diagram [.choice 0 [.sequence [.optional (.nonTerminal "type-constraint"), .terminal "auto"], .sequence [.optional (.nonTerminal "type-constraint"), .terminal "decltype", .terminal "(", .terminal "auto", .terminal ")"]]]),
  ("init-declarator-list", fun _ => .diagram [.sequence [.nonTerminal "init-declarator", .zeroOrMore (.sequence [.terminal ",", .nonTerminal "init-declarator"])]]),
  ("init-declarator", fun _ => .diagram [.choice 0 [.sequence [.nonTerminal "declarator", .optional (.nonTerminal "initializer")], .sequence [.nonTerminal "declarator", .nonTerminal "requires-clause"]]]),
  ("declarator", fun _ => .diagram [.choice 0 [.nonTerminal "ptr-declarator", .sequence [.nonTerminal "noptr-declarator", .nonTerminal "parameters-and-qualifiers", .nonTerminal "trailing-return-type"]]]),
  ("ptr-declarator", fun _ => .diagram [.choice 0 [.nonTerminal "noptr-declarator", .sequence [.nonTerminal "ptr-operator", .nonTerminal "ptr-declarator"]]]),
  ("noptr-declarator", fun _ => .diagram [.sequence [.choice 0 [.sequence [.nonTerminal "declarator-id", .optional (.nonTerminal "attribute-specifier-seq")], .sequence [.terminal "(", .nonTerminal "ptr-declarator", .terminal ")"]], .zeroOrMore (.choice 0 [.nonTerminal "parameters-and-qualifiers", .sequence [.terminal "[", .optional (.nonTerminal "constant-expression"), .terminal "]", .optional (.nonTerminal "attribute-specifier-seq")]])]]),
  ("parameters-and-qualifiers", fun _ => .diagram [.sequence [.terminal "(", .nonTerminal "parameter-declaration-clause", .terminal ")", .optional (.nonTerminal "cv-qualifier-seq"), .optional (.nonTerminal "ref-qualifier"), .optional (.nonTerminal "noexcept-specifier"), .optional (.nonTerminal "attribute-specifier-seq")]]),
  ("trailing-return-type", fun _ => .diagram [.sequence [.terminal "->", .nonTerminal "type-id"]]),
  ("ptr-operator", fun _ => .diagram [.choice 0 [.sequence [.terminal "*", .optional (.nonTerminal "attribute-specifier-seq"), .optional (.nonTerminal "cv-qualifier-seq")], .sequence [.terminal "&", .optional (.nonTerminal "attribute-specifier-seq")], .sequence [.terminal "&&", .optional (.nonTerminal "attribute-specifier-seq")], .sequence [.nonTerminal "nested-name-specifier", .terminal "*", .optional (.nonTerminal "attribute-specifier-seq"), .optional (.nonTerminal "cv-qualifier-seq")]]]),
  ("cv-qualifier-seq", fun _ => .diagram [.oneOrMore (.nonTerminal "cv-qualifier")]),
  ("cv-qualifier", fun _ => .diagram [.choice 0 [.terminal "const", .terminal "volatile"]])
]

def rulesChunk5 : List (String × (Unit → DiagramNode)) := [
  ("ref-qualifier", fun _ => .diagram [.choice 0 [.terminal "&", .terminal "&&"]]),
  ("declarator-id", fun _ => .diagram [.sequence [.optional (.terminal "..."), .nonTerminal "id-expression"]]),
  ("type-id", fun _ => .diagram [.sequence [.nonTerminal "type-specifier-seq", .optional (.nonTerminal "abstract-declarator")]]),
  ("defining-type-id", fun _ => .diagram [.sequence [.nonTerminal "defining-type-specifier-seq", .optional (.nonTerminal "abstract-declarator")]]),
  ("abstract-declarator", fun _ => .diagram [.choice 0 [.nonTerminal "ptr-abstract-declarator", .sequence [.optional (.nonTerminal "noptr-abstract-declarator"), .nonTerminal "parameters-and-qualifiers", .nonTerminal "trailing-return-type"], .nonTerminal "abstract-pack-declarator"]]),
  ("ptr-abstract-declarator", fun _ => .diagram [.choice 0 [.nonTerminal "noptr-abstract-declarator", .sequence [.nonTerminal "ptr-operator", .optional (.nonTerminal "ptr-abstract-declarator")]]]),
  ("noptr-abstract-declarator", fun _ => .diagram [.sequence [.optional (.sequence [.terminal "(", .nonTerminal "ptr-abstract-declarator", .terminal ")"]), .zeroOrMore (.choice 0 [.nonTerminal "parameters-and-qualifiers", .sequence [.terminal "[", .optional (.nonTerminal "constant-expression"), .terminal "]", .optional (.nonTerminal "attribute-specifier-seq")]])]]),
  ("abstract-pack-declarator", fun _ => .diagram [.choice 0 [.nonTerminal "noptr-abstract-pack-declarator", .sequence [.nonTerminal "ptr-operator", .nonTerminal "abstract-pack-declarator"]]]),
  ("noptr-abstract-pack-declarator", fun _ => .diagram [.sequence [.terminal "...", .zeroOrMore (.choice 0 [.nonTerminal "parameters-and-qualifiers", .sequence [.terminal "[", .optional (.nonTerminal "constant-expression"), .terminal "]", .optional (.nonTerminal "attribute-specifier-seq")]])]]),
  ("parameter-declaration-clause", fun _ => .diagram [.choice 0 [.sequence [.optional (.nonTerminal "parameter-declaration-list"), .optional (.terminal "...")], .sequence [.nonTerminal "parameter-declaration-list", .terminal ",", .terminal "..."]]]),
  ("parameter-declaration-list", fun _ => .diagram [.sequence [.nonTerminal "parameter-declaration", .zeroOrMore (.sequence [.terminal ",", .nonTerminal "parameter-declaration"])]]),
  ("parameter-declaration", fun _ => .diagram [.choice 0 [.sequence [.optional (.nonTerminal "attribute-specifier-seq"), .optional (.terminal "this"), .nonTerminal "decl-specifier-seq", .nonTerminal "declarator"], .sequence [.optional (.nonTerminal "attribute-specifier-seq"), .nonTerminal "decl-specifier-seq", .nonTerminal "declarator", .terminal "=", .nonTerminal "initializer-clause"], .sequence [.optional (.nonTerminal "attribute-specifier-seq"), .optional (.terminal "this"), .nonTerminal "decl-specifier-seq", .optional (.nonTerminal "abstract-declarator")], .sequence [.optional (.nonTerminal "attribute-specifier-seq"), .nonTerminal "decl-specifier-seq", .optional (.nonTerminal "abstract-declarator"), .terminal "=", .nonTerminal "initializer-clause"]]]),
  ("initializer", fun _ => .diagram [.choice 0 [.nonTerminal "brace-or-equal-initializer", .sequence [.terminal "(", .nonTerminal "expression-list", .terminal ")"]]]),
  ("brace-or-equal-initializer", fun _ => .diagram [.choice 0 [.sequence [.terminal "=", .nonTerminal "initializer-clause"], .nonTerminal "braced-init-list"]]),
  ("initializer-clause", fun _ => .diagram [.choice 0 [.nonTerminal "assignment-expression", .nonTerminal "braced-init-list"]]),
  ("braced-init-list", fun _ => .diagram [.choice 0 [.sequence [.terminal "\x7b", .nonTerminal "initializer-list", .optional (.terminal ","), .terminal "\x7d"], .sequence [.terminal "\x7b", .nonTerminal "designated-initializer-list", .optional (.terminal ","), .terminal "\x7d"], .sequence [.terminal "\x7b", .terminal "\x7d"]]]),
  ("initializer-list", fun _ => .diagram [.sequence [.nonTerminal "initializer-clause", .optional (.terminal "..."), .zeroOrMore (.sequence [.terminal ",", .nonTerminal "initializer-clause", .optional (.terminal "...")])]]),
  ("designated-initializer-list", fun _ => .diagram [.sequence [.nonTerminal "designated-initializer-clause", .zeroOrMore (.sequence [.terminal ",", .nonTerminal "designated-initializer-clause"])]]),
  ("designated-initializer-clause", fun _ => .diagram [.sequence [.nonTerminal "designator", .nonTerminal "brace-or-equal-initializer"]]),
  ("designator", fun _ => .diagram [.sequence [.terminal ".", .nonTerminal "identifier"]]),
  ("expr-or-braced-init-list", fun _ => .diagram [.choice 0 [.nonTerminal "expression", .nonTerminal "braced-init-list"]]),
  ("function-definition", fun _ => .diagram [.choice 0 [.sequence [.optional (.nonTerminal "attribute-specifier-seq"), .optional (.nonTerminal "decl-specifier-seq"), .nonTerminal "declarator", .optional (.nonTerminal "virt-specifier-seq"), .nonTerminal "function-body"], .sequence [.optional (.nonTerminal "attribute-specifier-seq"), .optional (.nonTerminal "decl-specifier-seq"), .nonTerminal "declarator", .nonTerminal "requires-clause", .nonTerminal "function-body"]]]),
  ("function-body", fun _ => .diagram [.choice 0 [.sequence [.optional (.nonTerminal "ctor-initializer"), .nonTerminal "compound-statement"], .nonTerminal "function-try-block", .sequence [.terminal "=", .terminal "default", .terminal ";"], .sequence [.terminal "=", .terminal "delete", .terminal ";"]]]),
  ("enum-specifier", fun _ => .diagram [.choice 0 [.sequence [.nonTerminal "enum-head", .terminal "\x7b", .optional (.nonTerminal "enumerator-list"), .terminal "\x7d"], .sequence [.nonTerminal "enum-head", .terminal "\x7b", .nonTerminal "enumerator-list", .terminal ",", .terminal "\x7d"]]]),
  ("enum-head", fun _ => .diagram [.sequence [.nonTerminal "enum-key", .optional (.nonTerminal "attribute-specifier-seq"), .optional (.nonTerminal "enum-head-name"), .optional (.nonTerminal "enum-base")]]),
  ("enum-head-name", fun _ => .diagram [.sequence [.optional (.nonTerminal "nested-name-specifier"), .nonTerminal "identifier"]]),
  ("opaque-enum-declaration", fun _ => .diagram [.sequence [.nonTerminal "enum-key", .optional (.nonTerminal "attribute-specifier-seq"), .nonTerminal "enum-head-name", .optional (.nonTerminal "enum-base"), .terminal ";"]]),
  ("enum-key", fun _ => .diagram [.choice 0 [.terminal "enum", .sequence [.terminal "enum", .terminal "class"], .sequence [.terminal "enum", .terminal "struct"]]]),
  ("enum-base", fun _ => .diagram [.sequence [.terminal ":", .nonTerminal "type-specifier-seq"]]),
  ("enumerator-list", fun _ => .diagram [.sequence [.nonTerminal "enumerator-definition", .zeroOrMore (.sequence [.terminal ",", .nonTerminal "enumerator-definition"])]]),
  ("enumerator-definition", fun _ => .diagram [.choice 0 [.nonTerminal "enumerator", .sequence [.nonTerminal "enumerator", .terminal "=", .nonTerminal "constant-expression"]]]),
  ("enumerator", fun _ => .diagram [.sequence [.nonTerminal "identifier", .optional (.nonTerminal "attribute-specifier-seq")]]),
  ("using-enum-declaration", fun _ => .diagram [.sequence [.terminal "using", .terminal "enum", .nonTerminal "using-enum-declarator", .terminal ";"]]),
  ("using-enum-declarator", fun _ => .diagram [.choice 0 [.sequence [.optional (.nonTerminal "nested-name-specifier"), .nonTerminal "identifier"], .sequence [.optional (.nonTerminal "nested-name-specifier"), .nonTerminal "simple-template-id"]]]),
  ("namespace-definition", fun _ => .diagram [.choice 0 [.nonTerminal "named-namespace-definition", .nonTerminal "unnamed-namespace-definition", .nonTerminal "nested-namespace-definition"]]),
  ("named-namespace-definition", fun _ => .diagram [.sequence [.optional (.terminal "inline"), .terminal "namespace", .optional (.nonTerminal "attribute-specifier-seq"), .nonTerminal "identifier", .terminal "\x7b", .nonTerminal "namespace-body", .terminal "\x7d"]]),
  ("unnamed-namespace-definition", fun _ => .diagram [.sequence [.optional (.terminal "inline"), .terminal "namespace", .optional (.nonTerminal "attribute-specifier-seq"), .terminal "\x7b", .nonTerminal "namespace-body", .terminal "\x7d"]]),
  ("nested-namespace-definition", fun _ => .diagram [.sequence [.terminal "namespace", .nonTerminal "enclosing-namespace-specifier", .terminal "::", .optional (.terminal "inline"), .nonTerminal "identifier", .terminal "\x7b", .nonTerminal "namespace-body", .terminal "\x7d"]]),
  ("enclosing-namespace-specifier", fun _ => .diagram [.sequence [.nonTerminal "identifier", .zeroOrMore (.sequence [.terminal "::", .optional (.terminal "inline"), .nonTerminal "identifier"])]]),
  ("namespace-body", fun _ => .diagram [.optional (.nonTerminal "declaration-seq")])
]

def rulesChunk6 : List (String × (Unit → DiagramNode)) := [
  ("namespace-alias-definition", fun _ => .diagram [.sequence [.terminal "namespace", .nonTerminal "identifier", .terminal "=", .nonTerminal "qualified-namespace-specifier", .terminal ";"]]),
  ("qualified-namespace-specifier", fun _ => .diagram [.sequence [.optional (.nonTerminal "nested-name-specifier"), .nonTerminal "namespace-name"]]),
  ("using-directive", fun _ => .diagram [.sequence [.optional (.nonTerminal "attribute-specifier-seq"), .terminal "using", .terminal "namespace", .optional (.nonTerminal "nested-name-specifier"), .nonTerminal "namespace-name", .terminal ";"]]),
  ("using-declaration", fun _ => .diagram [.sequence [.terminal "using", .nonTerminal "using-declarator-list", .terminal ";"]]),
  ("using-declarator-list", fun _ => .diagram [.sequence [.nonTerminal "using-declarator", .optional (.terminal "..."), .zeroOrMore (.sequence [.terminal ",", .nonTerminal "using-declarator", .optional (.terminal "...")])]]),
  ("using-declarator", fun _ => .diagram [.sequence [.optional (.terminal "typename"), .nonTerminal "nested-name-specifier", .nonTerminal "unqualified-id"]]),
  ("asm-declaration", fun _ => .diagram [.sequence [.optional (.nonTerminal "attribute-specifier-seq"), .terminal "asm", .terminal "(", .nonTerminal "string-literal", .terminal ")", .terminal ";"]]),
  ("linkage-specification", fun _ => .diagram [.choice 0 [.sequence [.terminal "extern", .nonTerminal "string-literal", .terminal "\x7b", .optional (.nonTerminal "declaration-seq"), .terminal "\x7d"], .sequence [.terminal "extern", .nonTerminal "string-literal", .nonTerminal "name-declaration"]]]),
  ("attribute-specifier-seq", fun _ => .diagram [.oneOrMore (.nonTerminal "attribute-specifier")]),
  ("attribute-specifier", fun _ => .diagram [.choice 0 [.sequence [.terminal "[[", .optional (.nonTerminal "attribute-using-prefix"), .nonTerminal "attribute-list", .terminal "]]"], .nonTerminal "alignment-specifier"]]),
  ("alignment-specifier", fun _ => .diagram [.choice 0 [.sequence [.terminal "alignas", .terminal "(", .nonTerminal "type-id", .optional (.terminal "..."), .terminal ")"], .sequence [.terminal "alignas", .terminal "(", .nonTerminal "constant-expression", .optional (.terminal "..."), .terminal ")"]]]),
  ("attribute-using-prefix", fun _ => .diagram [.sequence [.terminal "using", .nonTerminal "attribute-namespace", .terminal ":"]]),
  ("attribute-list", fun _ => .diagram [.sequence [.optional (.nonTerminal "attribute"), .zeroOrMore (.sequence [.terminal ",", .optional (.nonTerminal "attribute")]), .zeroOrMore (.sequence [.nonTerminal "attribute", .terminal "..."])]]),
  ("attribute", fun _ => .diagram [.sequence [.nonTerminal "attribute-token", .optional (.nonTerminal "attribute-argument-clause")]]),
  ("attribute-token", fun _ => .diagram [.choice 0 [.nonTerminal "identifier", .nonTerminal "attribute-scoped-token"]]),
  ("attribute-scoped-token", fun _ => .diagram [.sequence [.nonTerminal "attribute-namespace", .terminal "::", .nonTerminal "identifier"]]),
  ("attribute-namespace", fun _ => .diagram [.nonTerminal "identifier"]),
  ("attribute-argument-clause", fun _ => .diagram [.sequence [.terminal "(", .optional (.nonTerminal "balanced-token-seq"), .terminal ")"]]),
  ("balanced-token-seq", fun _ => .diagram [.oneOrMore (.nonTerminal "balanced-token")]),
  ("balanced-token", fun _ => .diagram [.choice 0 [.sequence [.terminal "(", .optional (.nonTerminal "balanced-token-seq"), .terminal ")"], .sequence [.terminal "[", .optional (.nonTerminal "balanced-token-seq"), .terminal "]"], .sequence [.terminal "\x7b", .optional (.nonTerminal "balanced-token-seq"), .terminal "\x7d"], .comment "any token except ( ) [ ] \x7b \x7d"]]),
  ("module-declaration", fun _ => .diagram [.sequence [.optional (.nonTerminal "export-keyword"), .nonTerminal "module-keyword", .nonTerminal "module-name", .optional (.nonTerminal "module-partition"), .optional (.nonTerminal "attribute-specifier-seq"), .terminal ";"]]),
  ("module-name", fun _ => .diagram [.sequence [.optional (.nonTerminal "module-name-qualifier"), .nonTerminal "identifier"]]),
  ("module-partition", fun _ => .diagram [.sequence [.terminal ":", .optional (.nonTerminal "module-name-qualifier"), .nonTerminal "identifier"]]),
  ("module-name-qualifier", fun _ => .diagram [.oneOrMore (.sequence [.nonTerminal "identifier", .terminal "."])]),
  ("export-declaration", fun _ => .diagram [.choice 0 [.sequence [.terminal "export", .nonTerminal "name-declaration"], .sequence [.terminal "export", .terminal "\x7b", .optional (.nonTerminal "declaration-seq"), .terminal "\x7d"], .sequence [.nonTerminal "export-keyword", .nonTerminal "module-import-declaration"]]]),
  ("module-import-declaration", fun _ => .diagram [.choice 0 [.sequence [.nonTerminal "import-keyword", .nonTerminal "module-name", .optional (.nonTerminal "attribute-specifier-seq"), .terminal ";"], .sequence [.nonTerminal "import-keyword", .nonTerminal "module-partition", .optional (.nonTerminal "attribute-specifier-seq"), .terminal ";"], .sequence [.nonTerminal "import-keyword", .nonTerminal "header-name", .optional (.nonTerminal "attribute-specifier-seq"), .terminal ";"]]]),
  ("global-module-fragment", fun _ => .diagram [.sequence [.nonTerminal "module-keyword", .terminal ";", .optional (.nonTerminal "declaration-seq")]]),
  ("private-module-fragment", fun _ => .diagram [.sequence [.nonTerminal "module-keyword", .terminal ":", .terminal "private", .terminal ";", .optional (.nonTerminal "declaration-seq")]]),
  ("import-keyword", fun _ => .diagram [.terminal "import"]),
  ("module-keyword", fun _ => .diagram [.terminal "module"]),
  ("export-keyword", fun _ => .diagram [.terminal "export"]),
  ("class-specifier", fun _ => .diagram [.sequence [.nonTerminal "class-head", .terminal "\x7b", .optional (.nonTerminal "member-specification"), .terminal "\x7d"]]),
  ("class-head", fun _ => .diagram [.choice 0 [.sequence [.nonTerminal "class-key", .optional (.nonTerminal "attribute-specifier-seq"), .nonTerminal "class-head-name", .optional (.nonTerminal "class-virt-specifier"), .optional (.nonTerminal "base-clause")], .sequence [.nonTerminal "class-key", .optional (.nonTerminal "attribute-specifier-seq"), .optional (.nonTerminal "base-clause")]]]),
  ("class-head-name", fun _ => .diagram [.sequence [.optional (.nonTerminal "nested-name-specifier"), .nonTerminal "class-name"]]),
  ("class-virt-specifier", fun _ => .diagram [.terminal "final"]),
  ("class-key", fun _ => .diagram [.choice 0 [.terminal "class", .terminal "struct", .terminal "union"]]),
  ("member-specification", fun _ => .diagram [.oneOrMore (.choice 0 [.nonTerminal "member-declaration", .sequence [.nonTerminal "access-specifier", .terminal ":"]])]),
  ("member-declaration", fun _ => .diagram [.choice 0 [.sequence [.optional (.nonTerminal "attribute-specifier-seq"), .optional (.nonTerminal "decl-specifier-seq"), .optional (.nonTerminal "member-declarator-list"), .terminal ";"], .nonTerminal "function-definition", .nonTerminal "using-declaration", .nonTerminal "using-enum-declaration", .nonTerminal "static_assert-declaration", .nonTerminal "template-declaration", .nonTerminal "explicit-specialization", .nonTerminal "deduction-guide", .nonTerminal "alias-declaration", .nonTerminal "opaque-enum-declaration", .nonTerminal "empty-declaration"]]),
  ("member-declarator-list", fun _ => .diagram [.sequence [.nonTerminal "member-declarator", .zeroOrMore (.sequence [.terminal ",", .nonTerminal "member-declarator"])]]),
  ("member-declarator", fun _ => .diagram [.choice 0 [.sequence [.nonTerminal "declarator", .optional (.nonTerminal "virt-specifier-seq"), .optional (.nonTerminal "pure-specifier")], .sequence [.nonTerminal "declarator", .nonTerminal "requires-clause"], .sequence [.nonTerminal "declarator", .optional (.nonTerminal "brace-or-equal-initializer")], .sequence [.optional (.nonTerminal "identifier"), .optional (.nonTerminal "attribute-specifier-seq"), .terminal ":", .nonTerminal "constant-expression", .optional (.nonTerminal "brace-or-equal-initializer")]]])
]

def rulesChunk7 : List (String × (Unit → DiagramNode)) := [
  ("virt-specifier-seq", fun _ => .diagram [.oneOrMore (.nonTerminal "virt-specifier")]),
  ("virt-specifier", fun _ => .diagram [.choice 0 [.terminal "override", .terminal "final"]]),
  ("pure-specifier", fun _ => .diagram [.sequence [.terminal "=", .terminal "0"]]),
  ("conversion-function-id", fun _ => .diagram [.sequence [.terminal "operator", .nonTerminal "conversion-type-id"]]),
  ("conversion-type-id", fun _ => .diagram [.sequence [.nonTerminal "type-specifier-seq", .optional (.nonTerminal "conversion-declarator")]]),
  ("conversion-declarator", fun _ => .diagram [.sequence [.nonTerminal "ptr-operator", .optional (.nonTerminal "conversion-declarator")]]),
  ("base-clause", fun _ => .diagram [.sequence [.terminal ":", .nonTerminal "base-specifier-list"]]),
  ("base-specifier-list", fun _ => .diagram [.sequence [.nonTerminal "base-specifier", .optional (.terminal "..."), .zeroOrMore (.sequence [.terminal ",", .nonTerminal "base-specifier", .optional (.terminal "...")])]]),
  ("base-specifier", fun _ => .diagram [.choice 0 [.sequence [.optional (.nonTerminal "attribute-specifier-seq"), .nonTerminal "class-or-decltype"], .sequence [.optional (.nonTerminal "attribute-specifier-seq"), .terminal "virtual", .optional (.nonTerminal "access-specifier"), .nonTerminal "class-or-decltype"], .sequence [.optional (.nonTerminal "attribute-specifier-seq"), .nonTerminal "access-specifier", .optional (.terminal "virtual"), .nonTerminal "class-or-decltype"]]]),
  ("class-or-decltype", fun _ => .diagram [.choice 0 [.sequence [.optional (.nonTerminal "nested-name-specifier"), .nonTerminal "type-name"], .sequence [.nonTerminal "nested-name-specifier", .terminal "template", .nonTerminal "simple-template-id"], .nonTerminal "decltype-specifier"]]),
  ("access-specifier", fun _ => .diagram [.choice 0 [.terminal "private", .terminal "protected", .terminal "public"]]),
  ("ctor-initializer", fun _ => .diagram [.sequence [.terminal ":", .nonTerminal "mem-initializer-list"]]),
  ("mem-initializer-list", fun _ => .diagram [.sequence [.nonTerminal "mem-initializer", .optional (.terminal "..."), .zeroOrMore (.sequence [.terminal ",", .nonTerminal "mem-initializer", .optional (.terminal "...")])]]),
  ("mem-initializer", fun _ => .diagram [.choice 0 [.sequence [.nonTerminal "mem-initializer-id", .terminal "(", .optional (.nonTerminal "expression-list"), .terminal ")"], .sequence [.nonTerminal "mem-initializer-id", .nonTerminal "braced-init-list"]]]),
  ("mem-initializer-id", fun _ => .diagram [.choice 0 [.nonTerminal "class-or-decltype", .nonTerminal "identifier"]]),
  ("operator-function-id", fun _ => .diagram [.sequence [.terminal "operator", .nonTerminal "operator"]]),
  ("operator", fun _ => .diagram [.choice 0 [.terminal "new", .terminal "delete", .terminal "new[]", .terminal "delete[]", .terminal "co_await", .terminal "()", .terminal "[]", .terminal "->", .terminal "->*", .terminal "~", .terminal "!", .terminal "+", .terminal "-", .terminal "*", .terminal "/", .terminal "%", .terminal "^", .terminal "&", .terminal "|", .terminal "=", .terminal "+=", .terminal "-=", .terminal "*=", .terminal "/=", .terminal "%=", .terminal "^=", .terminal "&=", .terminal "|=", .terminal "==", .terminal "!=", .terminal "<", .terminal ">", .terminal "<=", .terminal ">=", .terminal "<=>", .terminal "&&", .terminal "||", .terminal "<<", .terminal ">>", .terminal "<<=", .terminal ">>=", .terminal "++", .terminal "--", .terminal ","]]),
  ("literal-operator-id", fun _ => .diagram [.choice 0 [.sequence [.terminal "operator", .nonTerminal "string-literal", .nonTerminal "identifier"], .sequence [.terminal "operator", .nonTerminal "user-defined-string-literal"]]]),
  ("template-declaration", fun _ => .diagram [.choice 0 [.sequence [.nonTerminal "template-head", .nonTerminal "declaration"], .sequence [.nonTerminal "template-head", .nonTerminal "concept-definition"]]]),
  ("template-head", fun _ => .diagram [.sequence [.terminal "template", .terminal "<", .nonTerminal "template-parameter-list", .terminal ">", .optional (.nonTerminal "requires-clause")]]),
  ("template-parameter-list", fun _ => .diagram [.sequence [.nonTerminal "template-parameter", .zeroOrMore (.sequence [.terminal ",", .nonTerminal "template-parameter"])]]),
  ("requires-clause", fun _ => .diagram [.sequence [.terminal "requires", .nonTerminal "constraint-logical-or-expression"]]),
  ("constraint-logical-or-expression", fun _ => .diagram [.sequence [.nonTerminal "constraint-logical-and-expression", .zeroOrMore (.sequence [.terminal "||", .nonTerminal "constraint-logical-and-expression"])]]),
  ("constraint-logical-and-expression", fun _ => .diagram [.sequence [.nonTerminal "primary-expression", .zeroOrMore (.sequence [.terminal "&&", .nonTerminal "primary-expression"])]]),
  ("template-parameter", fun _ => .diagram [.choice 0 [.nonTerminal "type-parameter", .nonTerminal "parameter-declaration"]]),
  ("type-parameter", fun _ => .diagram [.choice 0 [.sequence [.nonTerminal "type-parameter-key", .optional (.terminal "..."), .optional (.nonTerminal "identifier")], .sequence [.nonTerminal "type-parameter-key", .optional (.nonTerminal "identifier"), .terminal "=", .nonTerminal "type-id"], .sequence [.nonTerminal "type-constraint", .optional (.terminal "..."), .optional (.nonTerminal "identifier")], .sequence [.nonTerminal "type-constraint", .optional (.nonTerminal "identifier"), .terminal "=", .nonTerminal "type-id"], .sequence [.nonTerminal "template-head", .nonTerminal "type-parameter-key", .optional (.terminal "..."), .optional (.nonTerminal "identifier")], .sequence [.nonTerminal "template-head", .nonTerminal "type-parameter-key", .optional (.nonTerminal "identifier"), .terminal "=", .nonTerminal "id-expression"]]]),
  ("type-parameter-key", fun _ => .diagram [.choice 0 [.terminal "class", .terminal "typename"]]),
  ("type-constraint", fun _ => .diagram [.choice 0 [.sequence [.optional (.nonTerminal "nested-name-specifier"), .nonTerminal "concept-name"], .sequence [.optional (.nonTerminal "nested-name-specifier"), .nonTerminal "concept-name", .terminal "<", .optional (.nonTerminal "template-argument-list"), .terminal ">"]]]),
  ("simple-template-id", fun _ => .diagram [.sequence [.nonTerminal "template-name", .terminal "<", .optional (.nonTerminal "template-argument-list"), .terminal ">"]]),
  ("template-id", fun _ => .diagram [.choice 0 [.nonTerminal "simple-template-id", .sequence [.nonTerminal "operator-function-id", .terminal "<", .optional (.nonTerminal "template-argument-list"), .terminal ">"], .sequence [.nonTerminal "literal-operator-id", .terminal "<", .optional (.nonTerminal "template-argument-list"), .terminal ">"]]]),
  ("template-argument-list", fun _ => .diagram [.sequence [.nonTerminal "template-argument", .optional (.terminal "..."), .zeroOrMore (.sequence [.terminal ",", .nonTerminal "template-argument", .optional (.terminal "...")])]]),
  ("template-argument", fun _ => .diagram [.choice 0 [.nonTerminal "constant-expression", .nonTerminal "type-id", .nonTerminal "id-expression"]]),
  ("constraint-expression", fun _ => .diagram [.nonTerminal "logical-or-expression"]),
  ("deduction-guide", fun _ => .diagram [.sequence [.optional (.nonTerminal "explicit-specifier"), .nonTerminal "template-name", .terminal "(", .nonTerminal "parameter-declaration-clause", .terminal ")", .terminal "->", .nonTerminal "simple-template-id", .terminal ";"]]),
  ("concept-definition", fun _ => .diagram [.sequence [.terminal "concept", .nonTerminal "concept-name", .optional (.nonTerminal "attribute-specifier-seq"), .terminal "=", .nonTerminal "constraint-expression", .terminal ";"]]),
  ("concept-name", fun _ => .diagram [.nonTerminal "identifier"]),
  ("typename-specifier", fun _ => .diagram [.choice 0 [.sequence [.terminal "typename", .nonTerminal "nested-name-specifier", .nonTerminal "identifier"], .sequence [.terminal "typename", .nonTerminal "nested-name-specifier", .optional (.terminal "template"), .nonTerminal "simple-template-id"]]]),
  ("explicit-instantiation", fun _ => .diagram [.sequence [.optional (.terminal "extern"), .terminal "template", .nonTerminal "declaration"]]),
  ("explicit-specialization", fun _ => .diagram [.sequence [.terminal "template", .terminal "<", .terminal ">", .nonTerminal "declaration"]]),
  ("try-block", fun _ => .diagram [.sequence [.terminal "try", .nonTerminal "compound-statement", .nonTerminal "handler-seq"]])
]

def rulesChunk8 : List (String × (Unit → DiagramNode)) := [
  ("function-try-block", fun _ => .diagram [.sequence [.terminal "try", .optional (.nonTerminal "ctor-initializer"), .nonTerminal "compound-statement", .nonTerminal "handler-seq"]]),
  ("handler-seq", fun _ => .diagram [.oneOrMore (.nonTerminal "handler")]),
  ("handler", fun _ => .diagram [.sequence [.terminal "catch", .terminal "(", .nonTerminal "exception-declaration", .terminal ")", .nonTerminal "compound-statement"]]),
  ("exception-declaration", fun _ => .diagram [.choice 0 [.sequence [.optional (.nonTerminal "attribute-specifier-seq"), .nonTerminal "type-specifier-seq", .nonTerminal "declarator"], .sequence [.optional (.nonTerminal "attribute-specifier-seq"), .nonTerminal "type-specifier-seq", .optional (.nonTerminal "abstract-declarator")], .terminal "..."]]),
  ("noexcept-specifier", fun _ => .diagram [.choice 0 [.sequence [.terminal "noexcept", .terminal "(", .nonTerminal "constant-expression", .terminal ")"], .terminal "noexcept"]]),
  ("preprocessing-file", fun _ => .diagram [.choice 0 [.optional (.nonTerminal "group"), .nonTerminal "module-file"]]),
  ("module-file", fun _ => .diagram [.sequence [.optional (.nonTerminal "pp-global-module-fragment"), .nonTerminal "pp-module", .optional (.nonTerminal "group"), .optional (.nonTerminal "pp-private-module-fragment")]]),
  ("pp-global-module-fragment", fun _ => .diagram [.sequence [.terminal "module", .terminal ";", .nonTerminal "new-line", .optional (.nonTerminal "group")]]),
  ("pp-private-module-fragment", fun _ => .diagram [.sequence [.terminal "module", .terminal ":", .terminal "private", .terminal ";", .nonTerminal "new-line", .optional (.nonTerminal "group")]]),
  ("group", fun _ => .diagram [.oneOrMore (.nonTerminal "group-part")]),
  ("group-part", fun _ => .diagram [.choice 0 [.nonTerminal "control-line", .nonTerminal "if-section", .nonTerminal "text-line", .sequence [.terminal "#", .nonTerminal "conditionally-supported-directive"]]]),
  ("control-line", fun _ => .diagram [.choice 0 [.sequence [.terminal "#", .terminal "include", .nonTerminal "pp-tokens", .nonTerminal "new-line"], .nonTerminal "pp-import", .sequence [.terminal "#", .terminal "define", .nonTerminal "identifier", .nonTerminal "replacement-list", .nonTerminal "new-line"], .sequence [.terminal "#", .terminal "define", .nonTerminal "identifier", .nonTerminal "lparen", .optional (.nonTerminal "identifier-list"), .terminal ")", .nonTerminal "replacement-list", .nonTerminal "new-line"], .sequence [.terminal "#", .terminal "define", .nonTerminal "identifier", .nonTerminal "lparen", .terminal "...", .terminal ")", .nonTerminal "replacement-list", .nonTerminal "new-line"], .sequence [.terminal "#", .terminal "define", .nonTerminal "identifier", .nonTerminal "lparen", .nonTerminal "identifier-list", .terminal ",", .terminal "...", .terminal ")", .nonTerminal "replacement-list", .nonTerminal "new-line"], .sequence [.terminal "#", .terminal "undef", .nonTerminal "identifier", .nonTerminal "new-line"], .sequence [.terminal "#", .terminal "line", .nonTerminal "pp-tokens", .nonTerminal "new-line"], .sequence [.terminal "#", .terminal "error", .optional (.nonTerminal "pp-tokens"), .nonTerminal "new-line"], .sequence [.terminal "#", .terminal "warning", .optional (.nonTerminal "pp-tokens"), .nonTerminal "new-line"], .sequence [.terminal "#", .terminal "pragma", .optional (.nonTerminal "pp-tokens"), .nonTerminal "new-line"], .sequence [.terminal "#", .nonTerminal "new-line"]]]),
  ("if-section", fun _ => .diagram [.sequence [.nonTerminal "if-group", .optional (.nonTerminal "elif-groups"), .optional (.nonTerminal "else-group"), .nonTerminal "endif-line"]]),
  ("if-group", fun _ => .diagram [.choice 0 [.sequence [.terminal "#", .terminal "if", .nonTerminal "constant-expression", .nonTerminal "new-line", .optional (.nonTerminal "group")], .sequence [.terminal "#", .terminal "ifdef", .nonTerminal "identifier", .nonTerminal "new-line", .optional (.nonTerminal "group")], .sequence [.terminal "#", .terminal "ifndef", .nonTerminal "identifier", .nonTerminal "new-line", .optional (.nonTerminal "group")]]]),
  ("elif-groups", fun _ => .diagram [.oneOrMore (.nonTerminal "elif-group")]),
  ("elif-group", fun _ => .diagram [.choice 0 [.sequence [.terminal "#", .terminal "elif", .nonTerminal "constant-expression", .nonTerminal "new-line", .optional (.nonTerminal "group")], .sequence [.terminal "#", .terminal "elifdef", .nonTerminal "identifier", .nonTerminal "new-line", .optional (.nonTerminal "group")], .sequence [.terminal "#", .terminal "elifndef", .nonTerminal "identifier", .nonTerminal "new-line", .optional (.nonTerminal "group")]]]),
  ("else-group", fun _ => .diagram [.sequence [.terminal "#", .terminal "else", .nonTerminal "new-line", .optional (.nonTerminal "group")]]),
  ("endif-line", fun _ => .diagram [.sequence [.terminal "#", .terminal "endif", .nonTerminal "new-line"]]),
  ("text-line", fun _ => .diagram [.sequence [.optional (.nonTerminal "pp-tokens"), .nonTerminal "new-line"]]),
  ("conditionally-supported-directive", fun _ => .diagram [.sequence [.nonTerminal "pp-tokens", .nonTerminal "new-line"]]),
  ("lparen", fun _ => .diagram [.comment "( not preceded by whitespace"]),
  ("identifier-list", fun _ => .diagram [.sequence [.nonTerminal "identifier", .zeroOrMore (.sequence [.terminal ",", .nonTerminal "identifier"])]]),
  ("replacement-list", fun _ => .diagram [.optional (.nonTerminal "pp-tokens")]),
  ("pp-tokens", fun _ => .diagram [.oneOrMore (.nonTerminal "preprocessing-token")]),
  ("new-line", fun _ => .diagram [.comment "new-line character"]),
  ("defined-macro-expression", fun _ => .diagram [.choice 0 [.sequence [.terminal "defined", .nonTerminal "identifier"], .sequence [.terminal "defined", .terminal "(", .nonTerminal "identifier", .terminal ")"]]]),
  ("h-preprocessing-token", fun _ => .diagram [.comment "any preprocessing-token except >"]),
  ("h-pp-tokens", fun _ => .diagram [.oneOrMore (.nonTerminal "h-preprocessing-token")]),
  ("header-name-tokens", fun _ => .diagram [.choice 0 [.nonTerminal "string-literal", .sequence [.terminal "<", .nonTerminal "h-pp-tokens", .terminal ">"]]]),
  ("has-include-expression", fun _ => .diagram [.choice 0 [.sequence [.terminal "__has_include", .terminal "(", .nonTerminal "header-name", .terminal ")"], .sequence [.terminal "__has_include", .terminal "(", .nonTerminal "header-name-tokens", .terminal ")"]]]),
  ("has-attribute-expression", fun _ => .diagram [.sequence [.terminal "__has_cpp_attribute", .terminal "(", .nonTerminal "pp-tokens", .terminal ")"]]),
  ("pp-module", fun _ => .diagram [.sequence [.optional (.terminal "export"), .terminal "module", .optional (.nonTerminal "pp-tokens"), .terminal ";", .nonTerminal "new-line"]]),
  ("pp-import", fun _ => .diagram [.choice 0 [.sequence [.optional (.terminal "export"), .terminal "import", .nonTerminal "header-name", .optional (.nonTerminal "pp-tokens"), .terminal ";", .nonTerminal "new-line"], .sequence [.optional (.terminal "export"), .terminal "import", .nonTerminal "header-name-tokens", .optional (.nonTerminal "pp-tokens"), .terminal ";", .nonTerminal "new-line"], .sequence [.optional (.terminal "export"), .terminal "import", .nonTerminal "pp-tokens", .terminal ";", .nonTerminal "new-line"]]]),
  ("va-opt-replacement", fun _ => .diagram [.sequence [.terminal "__VA_OPT__", .terminal "(", .optional (.nonTerminal "pp-tokens"), .terminal ")"]])
]

/-- The `rules` map of the catalog: insertion-ordered name/factory bindings. -/
def rules : List (String × (Unit → DiagramNode)) :=
  rulesChunk0 ++ rulesChunk1 ++ rulesChunk2 ++ rulesChunk3 ++ rulesChunk4 ++ rulesChunk5 ++ rulesChunk6 ++ rulesChunk7 ++ rulesChunk8

/-- SECTION_RULES: rule names listed per section, in source order. -/
def SECTION_RULES : List (String × List String) := [
  ("keywords", ["typedef-name", "namespace-name", "namespace-alias", "class-name", "enum-name", "template-name"]),
  ("lexical", ["n-char", "n-char-sequence", "named-universal-character", "hex-quad", "simple-hexadecimal-digit-sequence", "universal-character-name", "preprocessing-token", "token", "header-name", "h-char-sequence", "h-char", "q-char-sequence", "q-char", "pp-number", "identifier", "identifier-start", "identifier-continue", "nondigit", "digit", "keyword", "preprocessing-op-or-punc", "preprocessing-operator", "operator-or-punctuator"]),
  ("literals", ["literal", "integer-literal", "binary-literal", "octal-literal", "decimal-literal", "hexadecimal-literal", "binary-digit", "octal-digit", "nonzero-digit", "hexadecimal-prefix", "hexadecimal-digit-sequence", "hexadecimal-digit", "integer-suffix", "unsigned-suffix", "long-suffix", "long-long-suffix", "size-suffix", "character-literal", "encoding-prefix", "c-char-sequence", "c-char", "basic-c-char", "escape-sequence", "simple-escape-sequence", "simple-escape-sequence-char", "numeric-escape-sequence", "simple-octal-digit-sequence", "octal-escape-sequence", "hexadecimal-escape-sequence", "conditional-escape-sequence", "conditional-escape-sequence-char", "floating-point-literal", "decimal-floating-point-literal", "hexadecimal-floating-point-literal", "fractional-constant", "hexadecimal-fractional-constant", "exponent-part", "binary-exponent-part", "sign", "digit-sequence", "floating-point-suffix", "string-literal", "s-char-sequence", "s-char", "basic-s-char", "raw-string", "r-char-sequence", "r-char", "d-char-sequence", "d-char", "boolean-literal", "pointer-literal", "user-defined-literal", "user-defined-integer-literal", "user-defined-floating-point-literal", "user-defined-string-literal", "user-defined-character-literal", "ud-suffix"]),
  ("basics", ["translation-unit"]),
  ("expressions", ["primary-expression", "id-expression", "unqualified-id", "qualified-id", "nested-name-specifier", "lambda-expression", "lambda-introducer", "lambda-declarator", "lambda-specifier", "lambda-specifier-seq", "lambda-capture", "capture-default", "capture-list", "capture", "simple-capture", "init-capture", "fold-expression", "fold-operator", "requires-expression", "requirement-parameter-list", "requirement-body", "requirement-seq", "requirement", "simple-requirement", "type-requirement", "compound-requirement", "return-type-requirement", "nested-requirement", "postfix-expression", "expression-list", "unary-expression", "unary-operator", "await-expression", "noexcept-expression", "new-expression", "new-placement", "new-type-id", "new-declarator", "noptr-new-declarator", "new-initializer", "delete-expression", "cast-expression", "pm-expression", "multiplicative-expression", "additive-expression", "shift-expression", "compare-expression", "relational-expression", "equality-expression", "and-expression", "exclusive-or-expression", "inclusive-or-expression", "logical-and-expression", "logical-or-expression", "conditional-expression", "yield-expression", "throw-expression", "assignment-expression", "assignment-operator", "expression", "constant-expression"]),
  ("statements", ["statement", "init-statement", "condition", "label", "labeled-statement", "expression-statement", "compound-statement", "statement-seq", "label-seq", "selection-statement", "iteration-statement", "for-range-declaration", "for-range-initializer", "jump-statement", "coroutine-return-statement", "declaration-statement"]),
  ("declarations", ["declaration-seq", "declaration", "name-declaration", "special-declaration", "block-declaration", "nodeclspec-function-declaration", "alias-declaration", "simple-declaration", "static_assert-declaration", "empty-declaration", "attribute-declaration", "decl-specifier", "decl-specifier-seq", "storage-class-specifier", "function-specifier", "explicit-specifier", "type-specifier", "type-specifier-seq", "defining-type-specifier", "defining-type-specifier-seq", "simple-type-specifier", "type-name", "elaborated-type-specifier", "decltype-specifier", "placeholder-type-specifier", "init-declarator-list", "init-declarator", "declarator", "ptr-declarator", "noptr-declarator", "parameters-and-qualifiers", "trailing-return-type", "ptr-operator", "cv-qualifier-seq", "cv-qualifier", "ref-qualifier", "declarator-id", "type-id", "defining-type-id", "abstract-declarator", "ptr-abstract-declarator", "noptr-abstract-declarator", "abstract-pack-declarator", "noptr-abstract-pack-declarator", "parameter-declaration-clause", "parameter-declaration-list", "parameter-declaration", "initializer", "brace-or-equal-initializer", "initializer-clause", "braced-init-list", "initializer-list", "designated-initializer-list", "designated-initializer-clause", "designator", "expr-or-braced-init-list", "function-definition", "function-body", "enum-specifier", "enum-head", "enum-head-name", "opaque-enum-declaration", "enum-key", "enum-base", "enumerator-list", "enumerator-definition", "enumerator", "using-enum-declaration", "using-enum-declarator", "namespace-definition", "named-namespace-definition", "unnamed-namespace-definition", "nested-namespace-definition", "enclosing-namespace-specifier", "namespace-body", "namespace-alias-definition", "qualified-namespace-specifier", "using-directive", "using-declaration", "using-declarator-list", "using-declarator", "asm-declaration", "linkage-specification", "attribute-specifier-seq", "attribute-specifier", "alignment-specifier", "attribute-using-prefix", "attribute-list", "attribute", "attribute-token", "attribute-scoped-token", "attribute-namespace", "attribute-argument-clause", "balanced-token-seq", "balanced-token"]),
  ("modules", ["module-declaration", "module-name", "module-partition", "module-name-qualifier", "export-declaration", "module-import-declaration", "global-module-fragment", "private-module-fragment", "import-keyword", "module-keyword", "export-keyword"]),
  ("classes", ["class-specifier", "class-head", "class-head-name", "class-virt-specifier", "class-key", "member-specification", "member-declaration", "member-declarator-list", "member-declarator", "virt-specifier-seq", "virt-specifier", "pure-specifier", "conversion-function-id", "conversion-type-id", "conversion-declarator", "base-clause", "base-specifier-list", "base-specifier", "class-or-decltype", "access-specifier", "ctor-initializer", "mem-initializer-list", "mem-initializer", "mem-initializer-id"]),
  ("overloading", ["operator-function-id", "operator", "literal-operator-id"]),
  ("templates", ["template-declaration", "template-head", "template-parameter-list", "requires-clause", "constraint-logical-or-expression", "constraint-logical-and-expression", "template-parameter", "type-parameter", "type-parameter-key", "type-constraint", "simple-template-id", "template-id", "template-argument-list", "template-argument", "constraint-expression", "deduction-guide", "concept-definition", "concept-name", "typename-specifier", "explicit-instantiation", "explicit-specialization"]),
  ("exceptions", ["try-block", "function-try-block", "handler-seq", "handler", "exception-declaration", "noexcept-specifier"]),
  ("preprocessing", ["preprocessing-file", "module-file", "pp-global-module-fragment", "pp-private-module-fragment", "group", "group-part", "control-line", "if-section", "if-group", "elif-groups", "elif-group", "else-group", "endif-line", "text-line", "conditionally-supported-directive", "lparen", "identifier-list", "replacement-list", "pp-tokens", "new-line", "defined-macro-expression", "h-preprocessing-token", "h-pp-tokens", "header-name-tokens", "has-include-expression", "has-attribute-expression", "pp-module", "pp-import", "va-opt-replacement"])
]

/-- `getRuleFactory`: `rules.get(name)`. -/
def getRuleFactory (name : String) : Option (Unit → DiagramNode) :=
  mapGet rules name

/-- `createRuleDiagram`: invoke the factory, or build the
`No factory defined for ...` placeholder diagram when the name is absent. -/
def createRuleDiagram (name : String) : DiagramNode :=
  match mapGet rules name with
  | some factory => factory ()
  | none => .diagram [.comment ("No factory defined for " ++ name)]

end Grammar1

namespace Ebnf

/-!
Embedding of the `EBNF_DEFINITIONS` table and its accessors from
`src/features/grammar/ebnfDefinitions.ts`.
-/

def ebnfChunk0 : List (String × String) := [
  ("typedef-name", "typedef-name:\n    identifier\n    simple-template-id"),
  ("namespace-name", "namespace-name:\n    identifier\n    namespace-alias"),
  ("namespace-alias", "namespace-alias:\n    identifier"),
  ("class-name", "class-name:\n    identifier\n    simple-template-id"),
  ("enum-name", "enum-name:\n    identifier"),
  ("template-name", "template-name:\n    identifier"),
  ("n-char", "n-char:\n    any member of the translation character set except \x7d or new-line"),
  ("n-char-sequence", "n-char-sequence:\n    n-char\n    n-char-sequence n-char"),
  ("named-universal-character", "named-universal-character:\n    \\N\x7b n-char-sequence \x7d"),
  ("hex-quad", "hex-quad:\n    hexadecimal-digit hexadecimal-digit hexadecimal-digit hexadecimal-digit"),
  ("simple-hexadecimal-digit-sequence", "simple-hexadecimal-digit-sequence:\n    hexadecimal-digit\n    simple-hexadecimal-digit-sequence hexadecimal-digit"),
  ("universal-character-name", "universal-character-name:\n    \\u hex-quad\n    \\U hex-quad hex-quad\n    \\u\x7b simple-hexadecimal-digit-sequence \x7d\n    named-universal-character"),
  ("preprocessing-token", "preprocessing-token:\n    header-name\n    import-keyword\n    module-keyword\n    export-keyword\n    identifier\n    pp-number\n    character-literal\n    user-defined-character-literal\n    string-literal\n    user-defined-string-literal\n    preprocessing-op-or-punc\n    each non-whitespace character that cannot be one of the above"),
  ("token", "token:\n    identifier\n    keyword\n    literal\n    operator-or-punctuator"),
  ("header-name", "header-name:\n    < h-char-sequence >\n    \" q-char-sequence \""),
  ("h-char-sequence", "h-char-sequence:\n    h-char\n    h-char-sequence h-char"),
  ("h-char", "h-char:\n    any member of the translation character set except new-line and >"),
  ("q-char-sequence", "q-char-sequence:\n    q-char\n    q-char-sequence q-char"),
  ("q-char", "q-char:\n    any member of the translation character set except new-line and \""),
  ("pp-number", "pp-number:\n    digit\n    . digit\n    pp-number identifier-continue\n    pp-number \x27 digit\n    pp-number \x27 nondigit\n    pp-number e sign\n    pp-number E sign\n    pp-number p sign\n    pp-number P sign\n    pp-number ."),
  ("identifier", "identifier:\n    identifier-start\n    identifier identifier-continue"),
  ("identifier-start", "identifier-start:\n    nondigit\n    an element of the translation character set with the Unicode property XID_Start"),
  ("identifier-continue", "identifier-continue:\n    digit\n    nondigit\n    an element of the translation character set with the Unicode property XID_Continue"),
  ("nondigit", "nondigit: one of\n    a b c d e f g h i j k l m\n    n o p q r s t u v w x y z\n    A B C D E F G H I J K L M\n    N O P Q R S T U V W X Y Z _"),
  ("digit", "digit: one of\n    0 1 2 3 4 5 6 7 8 9"),
  ("keyword", "keyword:\n    any identifier listed in Table 5\n    import-keyword\n    module-keyword\n    export-keyword"),
  ("preprocessing-op-or-punc", "preprocessing-op-or-punc:\n    preprocessing-operator\n    operator-or-punctuator"),
  ("preprocessing-operator", "preprocessing-operator: one of\n    # ## %: %:%:"),
  ("operator-or-punctuator", "operator-or-punctuator: one of\n    \x7b \x7d [ ] ( )\n    <: :> <% %> ; : ...\n    ? :: . .* -> ->* ~\n    ! + - * / % ^ & |\n    = += -= *= /= %= ^= &= |=\n    == != < > <= >= <=> && ||\n    << >> <<= >>= ++ -- ,\n    and or xor not bitand bitor compl\n    and_eq or_eq xor_eq not_eq"),
  ("literal", "literal:\n    integer-literal\n    character-literal\n    floating-point-literal\n    string-literal\n    boolean-literal\n    pointer-literal\n    user-defined-literal"),
  ("integer-literal", "integer-literal:\n    binary-literal integer-suffix_opt\n    octal-literal integer-suffix_opt\n    decimal-literal integer-suffix_opt\n    hexadecimal-literal integer-suffix_opt"),
  ("binary-literal", "binary-literal:\n    0b binary-digit\n    0B binary-digit\n    binary-literal \x27_opt binary-digit"),
  ("octal-literal", "octal-literal:\n    0\n    octal-literal \x27_opt octal-digit"),
  ("decimal-literal", "decimal-literal:\n    nonzero-digit\n    decimal-literal \x27_opt digit"),
  ("hexadecimal-literal", "hexadecimal-literal:\n    hexadecimal-prefix hexadecimal-digit-sequence"),
  ("binary-digit", "binary-digit: one of\n    0 1"),
  ("octal-digit", "octal-digit: one of\n    0 1 2 3 4 5 6 7"),
  ("nonzero-digit", "nonzero-digit: one of\n    1 2 3 4 5 6 7 8 9"),
  ("hexadecimal-prefix", "hexadecimal-prefix: one of\n    0x 0X"),
  ("hexadecimal-digit-sequence", "hexadecimal-digit-sequence:\n    hexadecimal-digit\n    hexadecimal-digit-sequence \x27_opt hexadecimal-digit")
]

def ebnfChunk1 : List (String × String) := [
  ("hexadecimal-digit", "hexadecimal-digit: one of\n    0 1 2 3 4 5 6 7 8 9\n    a b c d e f\n    A B C D E F"),
  ("integer-suffix", "integer-suffix:\n    unsigned-suffix long-suffix_opt\n    unsigned-suffix long-long-suffix_opt\n    unsigned-suffix size-suffix_opt\n    long-suffix unsigned-suffix_opt\n    long-long-suffix unsigned-suffix_opt\n    size-suffix unsigned-suffix_opt"),
  ("unsigned-suffix", "unsigned-suffix: one of\n    u U"),
  ("long-suffix", "long-suffix: one of\n    l L"),
  ("long-long-suffix", "long-long-suffix: one of\n    ll LL"),
  ("size-suffix", "size-suffix: one of\n    z Z"),
  ("character-literal", "character-literal:\n    encoding-prefix_opt \x27 c-char-sequence \x27"),
  ("encoding-prefix", "encoding-prefix: one of\n    u8 u U L"),
  ("c-char-sequence", "c-char-sequence:\n    c-char\n    c-char-sequence c-char"),
  ("c-char", "c-char:\n    basic-c-char\n    escape-sequence\n    universal-character-name"),
  ("basic-c-char", "basic-c-char:\n    any member of the translation character set except \x27, \\, or new-line"),
  ("escape-sequence", "escape-sequence:\n    simple-escape-sequence\n    numeric-escape-sequence\n    conditional-escape-sequence"),
  ("simple-escape-sequence", "simple-escape-sequence:\n    \\ simple-escape-sequence-char"),
  ("simple-escape-sequence-char", "simple-escape-sequence-char: one of\n    \x27 \" ? \\ a b f n r t v"),
  ("numeric-escape-sequence", "numeric-escape-sequence:\n    octal-escape-sequence\n    hexadecimal-escape-sequence"),
  ("simple-octal-digit-sequence", "simple-octal-digit-sequence:\n    octal-digit\n    simple-octal-digit-sequence octal-digit"),
  ("octal-escape-sequence", "octal-escape-sequence:\n    \\ octal-digit\n    \\ octal-digit octal-digit\n    \\ octal-digit octal-digit octal-digit\n    \\o\x7b simple-octal-digit-sequence \x7d"),
  ("hexadecimal-escape-sequence", "hexadecimal-escape-sequence:\n    \\x simple-hexadecimal-digit-sequence\n    \\x\x7b simple-hexadecimal-digit-sequence \x7d"),
  ("conditional-escape-sequence", "conditional-escape-sequence:\n    \\ conditional-escape-sequence-char"),
  ("conditional-escape-sequence-char", "conditional-escape-sequence-char:\n    any member of the basic character set that is not an octal-digit,\n    a simple-escape-sequence-char, or the characters N, o, u, U, or x"),
  ("floating-point-literal", "floating-point-literal:\n    decimal-floating-point-literal\n    hexadecimal-floating-point-literal"),
  ("decimal-floating-point-literal", "decimal-floating-point-literal:\n    fractional-constant exponent-part_opt floating-point-suffix_opt\n    digit-sequence exponent-part floating-point-suffix_opt"),
  ("hexadecimal-floating-point-literal", "hexadecimal-floating-point-literal:\n    hexadecimal-prefix hexadecimal-fractional-constant binary-exponent-part floating-point-suffix_opt\n    hexadecimal-prefix hexadecimal-digit-sequence binary-exponent-part floating-point-suffix_opt"),
  ("fractional-constant", "fractional-constant:\n    digit-sequence_opt . digit-sequence\n    digit-sequence ."),
  ("hexadecimal-fractional-constant", "hexadecimal-fractional-constant:\n    hexadecimal-digit-sequence_opt . hexadecimal-digit-sequence\n    hexadecimal-digit-sequence ."),
  ("exponent-part", "exponent-part:\n    e sign_opt digit-sequence\n    E sign_opt digit-sequence"),
  ("binary-exponent-part", "binary-exponent-part:\n    p sign_opt digit-sequence\n    P sign_opt digit-sequence"),
  ("sign", "sign: one of\n    + -"),
  ("digit-sequence", "digit-sequence:\n    digit\n    digit-sequence \x27_opt digit"),
  ("floating-point-suffix", "floating-point-suffix: one of\n    f l f16 f32 f64 f128 bf16 F L F16 F32 F64 F128 BF16"),
  ("string-literal", "string-literal:\n    encoding-prefix_opt \" s-char-sequence_opt \"\n    encoding-prefix_opt R raw-string"),
  ("s-char-sequence", "s-char-sequence:\n    s-char\n    s-char-sequence s-char"),
  ("s-char", "s-char:\n    basic-s-char\n    escape-sequence\n    universal-character-name"),
  ("basic-s-char", "basic-s-char:\n    any member of the translation character set except \", \\, or new-line"),
  ("raw-string", "raw-string:\n    \" d-char-sequence_opt ( r-char-sequence_opt ) d-char-sequence_opt \""),
  ("r-char-sequence", "r-char-sequence:\n    r-char\n    r-char-sequence r-char"),
  ("r-char", "r-char:\n    any member of the translation character set, except ) followed by\n    the initial d-char-sequence followed by \""),
  ("d-char-sequence", "d-char-sequence:\n    d-char\n    d-char-sequence d-char"),
  ("d-char", "d-char:\n    any member of the basic character set except:\n    space, (, ), \\, horizontal tab, vertical tab, form feed, and new-line"),
  ("boolean-literal", "boolean-literal:\n    false\n    true")
]

def ebnfChunk2 : List (String × String) := [
  ("pointer-literal", "pointer-literal:\n    nullptr"),
  ("user-defined-literal", "user-defined-literal:\n    user-defined-integer-literal\n    user-defined-floating-point-literal\n    user-defined-string-literal\n    user-defined-character-literal"),
  ("user-defined-integer-literal", "user-defined-integer-literal:\n    decimal-literal ud-suffix\n    octal-literal ud-suffix\n    hexadecimal-literal ud-suffix\n    binary-literal ud-suffix"),
  ("user-defined-floating-point-literal", "user-defined-floating-point-literal:\n    fractional-constant exponent-part_opt ud-suffix\n    digit-sequence exponent-part ud-suffix\n    hexadecimal-prefix hexadecimal-fractional-constant binary-exponent-part ud-suffix\n    hexadecimal-prefix hexadecimal-digit-sequence binary-exponent-part ud-suffix"),
  ("user-defined-string-literal", "user-defined-string-literal:\n    string-literal ud-suffix"),
  ("user-defined-character-literal", "user-defined-character-literal:\n    character-literal ud-suffix"),
  ("ud-suffix", "ud-suffix:\n    identifier"),
  ("translation-unit", "translation-unit:\n    declaration-seq_opt\n    global-module-fragment_opt module-declaration declaration-seq_opt private-module-fragment_opt"),
  ("primary-expression", "primary-expression:\n    literal\n    this\n    ( expression )\n    id-expression\n    lambda-expression\n    fold-expression\n    requires-expression"),
  ("id-expression", "id-expression:\n    unqualified-id\n    qualified-id"),
  ("unqualified-id", "unqualified-id:\n    identifier\n    operator-function-id\n    conversion-function-id\n    literal-operator-id\n    ~ type-name\n    ~ decltype-specifier\n    template-id"),
  ("qualified-id", "qualified-id:\n    nested-name-specifier template_opt unqualified-id"),
  ("nested-name-specifier", "nested-name-specifier:\n    ::\n    type-name ::\n    namespace-name ::\n    decltype-specifier ::\n    nested-name-specifier identifier ::\n    nested-name-specifier template_opt simple-template-id ::"),
  ("lambda-expression", "lambda-expression:\n    lambda-introducer attribute-specifier-seq_opt lambda-declarator compound-statement\n    lambda-introducer < template-parameter-list > requires-clause_opt attribute-specifier-seq_opt\n        lambda-declarator compound-statement"),
  ("lambda-introducer", "lambda-introducer:\n    [ lambda-capture_opt ]"),
  ("lambda-declarator", "lambda-declarator:\n    lambda-specifier-seq noexcept-specifier_opt attribute-specifier-seq_opt trailing-return-type_opt\n    noexcept-specifier attribute-specifier-seq_opt trailing-return-type_opt\n    trailing-return-type_opt\n    ( parameter-declaration-clause ) lambda-specifier-seq_opt noexcept-specifier_opt\n        attribute-specifier-seq_opt trailing-return-type_opt requires-clause_opt"),
  ("lambda-specifier", "lambda-specifier:\n    consteval\n    constexpr\n    mutable\n    static"),
  ("lambda-specifier-seq", "lambda-specifier-seq:\n    lambda-specifier\n    lambda-specifier lambda-specifier-seq"),
  ("lambda-capture", "lambda-capture:\n    capture-default\n    capture-list\n    capture-default , capture-list"),
  ("capture-default", "capture-default:\n    &\n    ="),
  ("capture-list", "capture-list:\n    capture\n    capture-list , capture"),
  ("capture", "capture:\n    simple-capture\n    init-capture"),
  ("simple-capture", "simple-capture:\n    identifier ..._opt\n    & identifier ..._opt\n    this\n    * this"),
  ("init-capture", "init-capture:\n    ..._opt identifier initializer\n    & ..._opt identifier initializer"),
  ("fold-expression", "fold-expression:\n    ( cast-expression fold-operator ... )\n    ( ... fold-operator cast-expression )\n    ( cast-expression fold-operator ... fold-operator cast-expression )"),
  ("fold-operator", "fold-operator: one of\n    + - * / % ^ & | << >>\n    += -= *= /= %= ^= &= |= <<= >>= =\n    == != < > <= >= && || , .* ->*"),
  ("requires-expression", "requires-expression:\n    requires requirement-parameter-list_opt requirement-body"),
  ("requirement-parameter-list", "requirement-parameter-list:\n    ( parameter-declaration-clause )"),
  ("requirement-body", "requirement-body:\n    \x7b requirement-seq \x7d"),
  ("requirement-seq", "requirement-seq:\n    requirement\n    requirement requirement-seq"),
  ("requirement", "requirement:\n    simple-requirement\n    type-requirement\n    compound-requirement\n    nested-requirement"),
  ("simple-requirement", "simple-requirement:\n    expression ;"),
  ("type-requirement", "type-requirement:\n    typename nested-name-specifier_opt type-name ;"),
  ("compound-requirement", "compound-requirement:\n    \x7b expression \x7d noexcept_opt return-type-requirement_opt ;"),
  ("return-type-requirement", "return-type-requirement:\n    -> type-constraint"),
  ("nested-requirement", "nested-requirement:\n    requires constraint-expression ;"),
  ("postfix-expression", "postfix-expression:\n    primary-expression\n    postfix-expression [ expression-list_opt ]\n    postfix-expression ( expression-list_opt )\n    simple-type-specifier ( expression-list_opt )\n    typename-specifier ( expression-list_opt )\n    simple-type-specifier braced-init-list\n    typename-specifier braced-init-list\n    postfix-expression . template_opt id-expression\n    postfix-expression -> template_opt id-expression\n    postfix-expression ++\n    postfix-expression --\n    dynamic_cast < type-id > ( expression )\n    static_cast < type-id > ( expression )\n    reinterpret_cast < type-id > ( expression )\n    const_cast < type-id > ( expression )\n    typeid ( expression )\n    typeid ( type-id )"),
  ("expression-list", "expression-list:\n    initializer-list"),
  ("unary-expression", "unary-expression:\n    postfix-expression\n    unary-operator cast-expression\n    ++ cast-expression\n    -- cast-expression\n    await-expression\n    sizeof unary-expression\n    sizeof ( type-id )\n    sizeof ... ( identifier )\n    alignof ( type-id )\n    noexcept-expression\n    new-expression\n    delete-expression"),
  ("unary-operator", "unary-operator: one of\n    * & + - ! ~")
]

def ebnfChunk3 : List (String × String) := [
  ("await-expression", "await-expression:\n    co_await cast-expression"),
  ("noexcept-expression", "noexcept-expression:\n    noexcept ( expression )"),
  ("new-expression", "new-expression:\n    ::_opt new new-placement_opt new-type-id new-initializer_opt\n    ::_opt new new-placement_opt ( type-id ) new-initializer_opt"),
  ("new-placement", "new-placement:\n    ( expression-list )"),
  ("new-type-id", "new-type-id:\n    type-specifier-seq new-declarator_opt"),
  ("new-declarator", "new-declarator:\n    ptr-operator new-declarator_opt\n    noptr-new-declarator"),
  ("noptr-new-declarator", "noptr-new-declarator:\n    [ expression_opt ] attribute-specifier-seq_opt\n    noptr-new-declarator [ constant-expression ] attribute-specifier-seq_opt"),
  ("new-initializer", "new-initializer:\n    ( expression-list_opt )\n    braced-init-list"),
  ("delete-expression", "delete-expression:\n    ::_opt delete cast-expression\n    ::_opt delete [ ] cast-expression"),
  ("cast-expression", "cast-expression:\n    unary-expression\n    ( type-id ) cast-expression"),
  ("pm-expression", "pm-expression:\n    cast-expression\n    pm-expression .* cast-expression\n    pm-expression ->* cast-expression"),
  ("multiplicative-expression", "multiplicative-expression:\n    pm-expression\n    multiplicative-expression * pm-expression\n    multiplicative-expression / pm-expression\n    multiplicative-expression % pm-expression"),
  ("additive-expression", "additive-expression:\n    multiplicative-expression\n    additive-expression + multiplicative-expression\n    additive-expression - multiplicative-expression"),
  ("shift-expression", "shift-expression:\n    additive-expression\n    shift-expression << additive-expression\n    shift-expression >> additive-expression"),
  ("compare-expression", "compare-expression:\n    shift-expression\n    compare-expression <=> shift-expression"),
  ("relational-expression", "relational-expression:\n    compare-expression\n    relational-expression < compare-expression\n    relational-expression > compare-expression\n    relational-expression <= compare-expression\n    relational-expression >= compare-expression"),
  ("equality-expression", "equality-expression:\n    relational-expression\n    equality-expression == relational-expression\n    equality-expression != relational-expression"),
  ("and-expression", "and-expression:\n    equality-expression\n    and-expression & equality-expression"),
  ("exclusive-or-expression", "exclusive-or-expression:\n    and-expression\n    exclusive-or-expression ^ and-expression"),
  ("inclusive-or-expression", "inclusive-or-expression:\n    exclusive-or-expression\n    inclusive-or-expression | exclusive-or-expression"),
  ("logical-and-expression", "logical-and-expression:\n    inclusive-or-expression\n    logical-and-expression && inclusive-or-expression"),
  ("logical-or-expression", "logical-or-expression:\n    logical-and-expression\n    logical-or-expression || logical-and-expression"),
  ("conditional-expression", "conditional-expression:\n    logical-or-expression\n    logical-or-expression ? expression : assignment-expression"),
  ("yield-expression", "yield-expression:\n    co_yield assignment-expression\n    co_yield braced-init-list"),
  ("throw-expression", "throw-expression:\n    throw assignment-expression_opt"),
  ("assignment-expression", "assignment-expression:\n    conditional-expression\n    yield-expression\n    throw-expression\n    logical-or-expression assignment-operator initializer-clause"),
  ("assignment-operator", "assignment-operator: one of\n    = *= /= %= += -= >>= <<= &= ^= |="),
  ("expression", "expression:\n    assignment-expression\n    expression , assignment-expression"),
  ("constant-expression", "constant-expression:\n    conditional-expression"),
  ("statement", "statement:\n    labeled-statement\n    attribute-specifier-seq_opt expression-statement\n    attribute-specifier-seq_opt compound-statement\n    attribute-specifier-seq_opt selection-statement\n    attribute-specifier-seq_opt iteration-statement\n    attribute-specifier-seq_opt jump-statement\n    declaration-statement\n    attribute-specifier-seq_opt try-block"),
  ("init-statement", "init-statement:\n    expression-statement\n    simple-declaration\n    alias-declaration"),
  ("condition", "condition:\n    expression\n    attribute-specifier-seq_opt decl-specifier-seq declarator brace-or-equal-initializer"),
  ("label", "label:\n    attribute-specifier-seq_opt identifier :\n    attribute-specifier-seq_opt case constant-expression :\n    attribute-specifier-seq_opt default :"),
  ("labeled-statement", "labeled-statement:\n    label statement"),
  ("expression-statement", "expression-statement:\n    expression_opt ;"),
  ("compound-statement", "compound-statement:\n    \x7b statement-seq_opt label-seq_opt \x7d"),
  ("statement-seq", "statement-seq:\n    statement\n    statement-seq statement"),
  ("label-seq", "label-seq:\n    label\n    label-seq label"),
  ("selection-statement", "selection-statement:\n    if constexpr_opt ( init-statement_opt condition ) statement\n    if constexpr_opt ( init-statement_opt condition ) statement else statement\n    if !_opt consteval compound-statement\n    if !_opt consteval compound-statement else statement\n    switch ( init-statement_opt condition ) statement"),
  ("iteration-statement", "iteration-statement:\n    while ( condition ) statement\n    do statement while ( expression ) ;\n    for ( init-statement condition_opt ; expression_opt ) statement\n    for ( init-statement_opt for-range-declaration : for-range-initializer ) statement")
]

def ebnfChunk4 : List (String × String) := [
  ("for-range-declaration", "for-range-declaration:\n    attribute-specifier-seq_opt decl-specifier-seq declarator\n    attribute-specifier-seq_opt decl-specifier-seq ref-qualifier_opt [ identifier-list ]"),
  ("for-range-initializer", "for-range-initializer:\n    expr-or-braced-init-list"),
  ("jump-statement", "jump-statement:\n    break ;\n    continue ;\n    return expr-or-braced-init-list_opt ;\n    coroutine-return-statement\n    goto identifier ;"),
  ("coroutine-return-statement", "coroutine-return-statement:\n    co_return expr-or-braced-init-list_opt ;"),
  ("declaration-statement", "declaration-statement:\n    block-declaration"),
  ("declaration-seq", "declaration-seq:\n    declaration\n    declaration-seq declaration"),
  ("declaration", "declaration:\n    name-declaration\n    special-declaration"),
  ("name-declaration", "name-declaration:\n    block-declaration\n    nodeclspec-function-declaration\n    function-definition\n    template-declaration\n    deduction-guide\n    linkage-specification\n    namespace-definition\n    empty-declaration\n    attribute-declaration\n    module-import-declaration"),
  ("special-declaration", "special-declaration:\n    explicit-instantiation\n    explicit-specialization\n    export-declaration"),
  ("block-declaration", "block-declaration:\n    simple-declaration\n    asm-declaration\n    namespace-alias-definition\n    using-declaration\n    using-enum-declaration\n    using-directive\n    static_assert-declaration\n    alias-declaration\n    opaque-enum-declaration"),
  ("nodeclspec-function-declaration", "nodeclspec-function-declaration:\n    attribute-specifier-seq_opt declarator ;"),
  ("alias-declaration", "alias-declaration:\n    using identifier attribute-specifier-seq_opt = defining-type-id ;"),
  ("simple-declaration", "simple-declaration:\n    decl-specifier-seq init-declarator-list_opt ;\n    attribute-specifier-seq decl-specifier-seq init-declarator-list ;\n    attribute-specifier-seq_opt decl-specifier-seq ref-qualifier_opt [ identifier-list ] initializer ;"),
  ("static_assert-declaration", "static_assert-declaration:\n    static_assert ( constant-expression ) ;\n    static_assert ( constant-expression , string-literal ) ;"),
  ("empty-declaration", "empty-declaration:\n    ;"),
  ("attribute-declaration", "attribute-declaration:\n    attribute-specifier-seq ;"),
  ("decl-specifier", "decl-specifier:\n    storage-class-specifier\n    defining-type-specifier\n    function-specifier\n    friend\n    typedef\n    constexpr\n    consteval\n    constinit\n    inline"),
  ("decl-specifier-seq", "decl-specifier-seq:\n    decl-specifier attribute-specifier-seq_opt\n    decl-specifier decl-specifier-seq"),
  ("storage-class-specifier", "storage-class-specifier:\n    static\n    thread_local\n    extern\n    mutable"),
  ("function-specifier", "function-specifier:\n    virtual\n    explicit-specifier"),
  ("explicit-specifier", "explicit-specifier:\n    explicit ( constant-expression )\n    explicit"),
  ("type-specifier", "type-specifier:\n    simple-type-specifier\n    elaborated-type-specifier\n    typename-specifier\n    cv-qualifier"),
  ("type-specifier-seq", "type-specifier-seq:\n    type-specifier attribute-specifier-seq_opt\n    type-specifier type-specifier-seq"),
  ("defining-type-specifier", "defining-type-specifier:\n    type-specifier\n    class-specifier\n    enum-specifier"),
  ("defining-type-specifier-seq", "defining-type-specifier-seq:\n    defining-type-specifier attribute-specifier-seq_opt\n    defining-type-specifier defining-type-specifier-seq"),
  ("simple-type-specifier", "simple-type-specifier:\n    nested-name-specifier_opt type-name\n    nested-name-specifier template simple-template-id\n    decltype-specifier\n    placeholder-type-specifier\n    nested-name-specifier_opt template-name\n    char\n    char8_t\n    char16_t\n    char32_t\n    wchar_t\n    bool\n    short\n    int\n    long\n    signed\n    unsigned\n    float\n    double\n    void"),
  ("type-name", "type-name:\n    class-name\n    enum-name\n    typedef-name"),
  ("elaborated-type-specifier", "elaborated-type-specifier:\n    class-key attribute-specifier-seq_opt nested-name-specifier_opt identifier\n    class-key simple-template-id\n    class-key nested-name-specifier template_opt simple-template-id\n    enum nested-name-specifier_opt identifier"),
  ("decltype-specifier", "decltype-specifier:\n    decltype ( expression )"),
  ("placeholder-type-specifier", "placeholder-type-specifier:\n    type-constraint_opt auto\n    type-constraint_opt decltype ( auto )"),
  ("init-declarator-list", "init-declarator-list:\n    init-declarator\n    init-declarator-list , init-declarator"),
  ("init-declarator", "init-declarator:\n    declarator initializer_opt\n    declarator requires-clause"),
  ("declarator", "declarator:\n    ptr-declarator\n    noptr-declarator parameters-and-qualifiers trailing-return-type"),
  ("ptr-declarator", "ptr-declarator:\n    noptr-declarator\n    ptr-operator ptr-declarator"),
  ("noptr-declarator", "noptr-declarator:\n    declarator-id attribute-specifier-seq_opt\n    noptr-declarator parameters-and-qualifiers\n    noptr-declarator [ constant-expression_opt ] attribute-specifier-seq_opt\n    ( ptr-declarator )"),
  ("parameters-and-qualifiers", "parameters-and-qualifiers:\n    ( parameter-declaration-clause ) cv-qualifier-seq_opt\n        ref-qualifier_opt noexcept-specifier_opt attribute-specifier-seq_opt"),
  ("trailing-return-type", "trailing-return-type:\n    -> type-id"),
  ("ptr-operator", "ptr-operator:\n    * attribute-specifier-seq_opt cv-qualifier-seq_opt\n    & attribute-specifier-seq_opt\n    && attribute-specifier-seq_opt\n    nested-name-specifier * attribute-specifier-seq_opt cv-qualifier-seq_opt"),
  ("cv-qualifier-seq", "cv-qualifier-seq:\n    cv-qualifier cv-qualifier-seq_opt"),
  ("cv-qualifier", "cv-qualifier:\n    const\n    volatile")
]

def ebnfChunk5 : List (String × String) := [
  ("ref-qualifier", "ref-qualifier:\n    &\n    &&"),
  ("declarator-id", "declarator-id:\n    ..._opt id-expression"),
  ("type-id", "type-id:\n    type-specifier-seq abstract-declarator_opt"),
  ("defining-type-id", "defining-type-id:\n    defining-type-specifier-seq abstract-declarator_opt"),
  ("abstract-declarator", "abstract-declarator:\n    ptr-abstract-declarator\n    noptr-abstract-declarator_opt parameters-and-qualifiers trailing-return-type\n    abstract-pack-declarator"),
  ("ptr-abstract-declarator", "ptr-abstract-declarator:\n    noptr-abstract-declarator\n    ptr-operator ptr-abstract-declarator_opt"),
  ("noptr-abstract-declarator", "noptr-abstract-declarator:\n    noptr-abstract-declarator_opt parameters-and-qualifiers\n    noptr-abstract-declarator_opt [ constant-expression_opt ] attribute-specifier-seq_opt\n    ( ptr-abstract-declarator )"),
  ("abstract-pack-declarator", "abstract-pack-declarator:\n    noptr-abstract-pack-declarator\n    ptr-operator abstract-pack-declarator"),
  ("noptr-abstract-pack-declarator", "noptr-abstract-pack-declarator:\n    noptr-abstract-pack-declarator parameters-and-qualifiers\n    noptr-abstract-pack-declarator [ constant-expression_opt ] attribute-specifier-seq_opt\n    ..."),
  ("parameter-declaration-clause", "parameter-declaration-clause:\n    parameter-declaration-list_opt ..._opt\n    parameter-declaration-list , ..."),
  ("parameter-declaration-list", "parameter-declaration-list:\n    parameter-declaration\n    parameter-declaration-list , parameter-declaration"),
  ("parameter-declaration", "parameter-declaration:\n    attribute-specifier-seq_opt this_opt decl-specifier-seq declarator\n    attribute-specifier-seq_opt decl-specifier-seq declarator = initializer-clause\n    attribute-specifier-seq_opt this_opt decl-specifier-seq abstract-declarator_opt\n    attribute-specifier-seq_opt decl-specifier-seq abstract-declarator_opt = initializer-clause"),
  ("initializer", "initializer:\n    brace-or-equal-initializer\n    ( expression-list )"),
  ("brace-or-equal-initializer", "brace-or-equal-initializer:\n    = initializer-clause\n    braced-init-list"),
  ("initializer-clause", "initializer-clause:\n    assignment-expression\n    braced-init-list"),
  ("braced-init-list", "braced-init-list:\n    \x7b initializer-list ,_opt \x7d\n    \x7b designated-initializer-list ,_opt \x7d\n    \x7b \x7d"),
  ("initializer-list", "initializer-list:\n    initializer-clause ..._opt\n    initializer-list , initializer-clause ..._opt"),
  ("designated-initializer-list", "designated-initializer-list:\n    designated-initializer-clause\n    designated-initializer-list , designated-initializer-clause"),
  ("designated-initializer-clause", "designated-initializer-clause:\n    designator brace-or-equal-initializer"),
  ("designator", "designator:\n    . identifier"),
  ("expr-or-braced-init-list", "expr-or-braced-init-list:\n    expression\n    braced-init-list"),
  ("function-definition", "function-definition:\n    attribute-specifier-seq_opt decl-specifier-seq_opt declarator virt-specifier-seq_opt function-body\n    attribute-specifier-seq_opt decl-specifier-seq_opt declarator requires-clause function-body"),
  ("function-body", "function-body:\n    ctor-initializer_opt compound-statement\n    function-try-block\n    = default ;\n    = delete ;"),
  ("enum-specifier", "enum-specifier:\n    enum-head \x7b enumerator-list_opt \x7d\n    enum-head \x7b enumerator-list , \x7d"),
  ("enum-head", "enum-head:\n    enum-key attribute-specifier-seq_opt enum-head-name_opt enum-base_opt"),
  ("enum-head-name", "enum-head-name:\n    nested-name-specifier_opt identifier"),
  ("opaque-enum-declaration", "opaque-enum-declaration:\n    enum-key attribute-specifier-seq_opt enum-head-name enum-base_opt ;"),
  ("enum-key", "enum-key:\n    enum\n    enum class\n    enum struct"),
  ("enum-base", "enum-base:\n    : type-specifier-seq"),
  ("enumerator-list", "enumerator-list:\n    enumerator-definition\n    enumerator-list , enumerator-definition"),
  ("enumerator-definition", "enumerator-definition:\n    enumerator\n    enumerator = constant-expression"),
  ("enumerator", "enumerator:\n    identifier attribute-specifier-seq_opt"),
  ("using-enum-declaration", "using-enum-declaration:\n    using enum using-enum-declarator ;"),
  ("using-enum-declarator", "using-enum-declarator:\n    nested-name-specifier_opt identifier\n    nested-name-specifier_opt simple-template-id"),
  ("namespace-definition", "namespace-definition:\n    named-namespace-definition\n    unnamed-namespace-definition\n    nested-namespace-definition"),
  ("named-namespace-definition", "named-namespace-definition:\n    inline_opt namespace attribute-specifier-seq_opt identifier \x7b namespace-body \x7d"),
  ("unnamed-namespace-definition", "unnamed-namespace-definition:\n    inline_opt namespace attribute-specifier-seq_opt \x7b namespace-body \x7d"),
  ("nested-namespace-definition", "nested-namespace-definition:\n    namespace enclosing-namespace-specifier :: inline_opt identifier \x7b namespace-body \x7d"),
  ("enclosing-namespace-specifier", "enclosing-namespace-specifier:\n    identifier\n    enclosing-namespace-specifier :: inline_opt identifier"),
  ("namespace-body", "namespace-body:\n    declaration-seq_opt")
]

def ebnfChunk6 : List (String × String) := [
  ("namespace-alias-definition", "namespace-alias-definition:\n    namespace identifier = qualified-namespace-specifier ;"),
  ("qualified-namespace-specifier", "qualified-namespace-specifier:\n    nested-name-specifier_opt namespace-name"),
  ("using-directive", "using-directive:\n    attribute-specifier-seq_opt using namespace nested-name-specifier_opt namespace-name ;"),
  ("using-declaration", "using-declaration:\n    using using-declarator-list ;"),
  ("using-declarator-list", "using-declarator-list:\n    using-declarator ..._opt\n    using-declarator-list , using-declarator ..._opt"),
  ("using-declarator", "using-declarator:\n    typename_opt nested-name-specifier unqualified-id"),
  ("asm-declaration", "asm-declaration:\n    attribute-specifier-seq_opt asm ( string-literal ) ;"),
  ("linkage-specification", "linkage-specification:\n    extern string-literal \x7b declaration-seq_opt \x7d\n    extern string-literal name-declaration"),
  ("attribute-specifier-seq", "attribute-specifier-seq:\n    attribute-specifier-seq_opt attribute-specifier"),
  ("attribute-specifier", "attribute-specifier:\n    [ [ attribute-using-prefix_opt attribute-list ] ]\n    alignment-specifier"),
  ("alignment-specifier", "alignment-specifier:\n    alignas ( type-id ..._opt )\n    alignas ( constant-expression ..._opt )"),
  ("attribute-using-prefix", "attribute-using-prefix:\n    using attribute-namespace :"),
  ("attribute-list", "attribute-list:\n    attribute_opt\n    attribute-list , attribute_opt\n    attribute ...\n    attribute-list , attribute ..."),
  ("attribute", "attribute:\n    attribute-token attribute-argument-clause_opt"),
  ("attribute-token", "attribute-token:\n    identifier\n    attribute-scoped-token"),
  ("attribute-scoped-token", "attribute-scoped-token:\n    attribute-namespace :: identifier"),
  ("attribute-namespace", "attribute-namespace:\n    identifier"),
  ("attribute-argument-clause", "attribute-argument-clause:\n    ( balanced-token-seq_opt )"),
  ("balanced-token-seq", "balanced-token-seq:\n    balanced-token\n    balanced-token-seq balanced-token"),
  ("balanced-token", "balanced-token:\n    ( balanced-token-seq_opt )\n    [ balanced-token-seq_opt ]\n    \x7b balanced-token-seq_opt \x7d\n    any token other than a parenthesis, a bracket, or a brace"),
  ("module-declaration", "module-declaration:\n    export-keyword_opt module-keyword module-name module-partition_opt attribute-specifier-seq_opt ;"),
  ("module-name", "module-name:\n    module-name-qualifier_opt identifier"),
  ("module-partition", "module-partition:\n    : module-name-qualifier_opt identifier"),
  ("module-name-qualifier", "module-name-qualifier:\n    identifier .\n    module-name-qualifier identifier ."),
  ("export-declaration", "export-declaration:\n    export name-declaration\n    export \x7b declaration-seq_opt \x7d\n    export-keyword module-import-declaration"),
  ("module-import-declaration", "module-import-declaration:\n    import-keyword module-name attribute-specifier-seq_opt ;\n    import-keyword module-partition attribute-specifier-seq_opt ;\n    import-keyword header-name attribute-specifier-seq_opt ;"),
  ("global-module-fragment", "global-module-fragment:\n    module-keyword ; declaration-seq_opt"),
  ("private-module-fragment", "private-module-fragment:\n    module-keyword : private ; declaration-seq_opt"),
  ("class-specifier", "class-specifier:\n    class-head \x7b member-specification_opt \x7d"),
  ("class-head", "class-head:\n    class-key attribute-specifier-seq_opt class-head-name class-virt-specifier_opt base-clause_opt\n    class-key attribute-specifier-seq_opt base-clause_opt"),
  ("class-head-name", "class-head-name:\n    nested-name-specifier_opt class-name"),
  ("class-virt-specifier", "class-virt-specifier:\n    final"),
  ("class-key", "class-key:\n    class\n    struct\n    union"),
  ("member-specification", "member-specification:\n    member-declaration member-specification_opt\n    access-specifier : member-specification_opt"),
  ("member-declaration", "member-declaration:\n    attribute-specifier-seq_opt decl-specifier-seq_opt member-declarator-list_opt ;\n    function-definition\n    using-declaration\n    using-enum-declaration\n    static_assert-declaration\n    template-declaration\n    explicit-specialization\n    deduction-guide\n    alias-declaration\n    opaque-enum-declaration\n    empty-declaration"),
  ("member-declarator-list", "member-declarator-list:\n    member-declarator\n    member-declarator-list , member-declarator"),
  ("member-declarator", "member-declarator:\n    declarator virt-specifier-seq_opt pure-specifier_opt\n    declarator requires-clause\n    declarator brace-or-equal-initializer_opt\n    identifier_opt attribute-specifier-seq_opt : constant-expression brace-or-equal-initializer_opt"),
  ("virt-specifier-seq", "virt-specifier-seq:\n    virt-specifier\n    virt-specifier-seq virt-specifier"),
  ("virt-specifier", "virt-specifier:\n    override\n    final"),
  ("pure-specifier", "pure-specifier:\n    = 0")
]

def ebnfChunk7 : List (String × String) := [
  ("conversion-function-id", "conversion-function-id:\n    operator conversion-type-id"),
  ("conversion-type-id", "conversion-type-id:\n    type-specifier-seq conversion-declarator_opt"),
  ("conversion-declarator", "conversion-declarator:\n    ptr-operator conversion-declarator_opt"),
  ("base-clause", "base-clause:\n    : base-specifier-list"),
  ("base-specifier-list", "base-specifier-list:\n    base-specifier ..._opt\n    base-specifier-list , base-specifier ..._opt"),
  ("base-specifier", "base-specifier:\n    attribute-specifier-seq_opt class-or-decltype\n    attribute-specifier-seq_opt virtual access-specifier_opt class-or-decltype\n    attribute-specifier-seq_opt access-specifier virtual_opt class-or-decltype"),
  ("class-or-decltype", "class-or-decltype:\n    nested-name-specifier_opt type-name\n    nested-name-specifier template simple-template-id\n    decltype-specifier"),
  ("access-specifier", "access-specifier:\n    private\n    protected\n    public"),
  ("ctor-initializer", "ctor-initializer:\n    : mem-initializer-list"),
  ("mem-initializer-list", "mem-initializer-list:\n    mem-initializer ..._opt\n    mem-initializer-list , mem-initializer ..._opt"),
  ("mem-initializer", "mem-initializer:\n    mem-initializer-id ( expression-list_opt )\n    mem-initializer-id braced-init-list"),
  ("mem-initializer-id", "mem-initializer-id:\n    class-or-decltype\n    identifier"),
  ("operator-function-id", "operator-function-id:\n    operator operator"),
  ("operator", "operator: one of\n    new delete new[] delete[] co_await ( ) [ ] -> ->*\n    ~ ! + - * / % ^ &\n    | = += -= *= /= %= ^= &=\n    |= == != < > <= >= <=> &&\n    || << >> <<= >>= ++ -- ,"),
  ("literal-operator-id", "literal-operator-id:\n    operator string-literal identifier\n    operator user-defined-string-literal"),
  ("template-declaration", "template-declaration:\n    template-head declaration\n    template-head concept-definition"),
  ("template-head", "template-head:\n    template < template-parameter-list > requires-clause_opt"),
  ("template-parameter-list", "template-parameter-list:\n    template-parameter\n    template-parameter-list , template-parameter"),
  ("requires-clause", "requires-clause:\n    requires constraint-logical-or-expression"),
  ("constraint-logical-or-expression", "constraint-logical-or-expression:\n    constraint-logical-and-expression\n    constraint-logical-or-expression || constraint-logical-and-expression"),
  ("constraint-logical-and-expression", "constraint-logical-and-expression:\n    primary-expression\n    constraint-logical-and-expression && primary-expression"),
  ("template-parameter", "template-parameter:\n    type-parameter\n    parameter-declaration"),
  ("type-parameter", "type-parameter:\n    type-parameter-key ..._opt identifier_opt\n    type-parameter-key identifier_opt = type-id\n    type-constraint ..._opt identifier_opt\n    type-constraint identifier_opt = type-id\n    template-head type-parameter-key ..._opt identifier_opt\n    template-head type-parameter-key identifier_opt = id-expression"),
  ("type-parameter-key", "type-parameter-key:\n    class\n    typename"),
  ("type-constraint", "type-constraint:\n    nested-name-specifier_opt concept-name\n    nested-name-specifier_opt concept-name < template-argument-list_opt >"),
  ("simple-template-id", "simple-template-id:\n    template-name < template-argument-list_opt >"),
  ("template-id", "template-id:\n    simple-template-id\n    operator-function-id < template-argument-list_opt >\n    literal-operator-id < template-argument-list_opt >"),
  ("template-argument-list", "template-argument-list:\n    template-argument ..._opt\n    template-argument-list , template-argument ..._opt"),
  ("template-argument", "template-argument:\n    constant-expression\n    type-id\n    id-expression"),
  ("constraint-expression", "constraint-expression:\n    logical-or-expression"),
  ("deduction-guide", "deduction-guide:\n    explicit-specifier_opt template-name ( parameter-declaration-clause ) -> simple-template-id ;"),
  ("concept-definition", "concept-definition:\n    concept concept-name attribute-specifier-seq_opt = constraint-expression ;"),
  ("concept-name", "concept-name:\n    identifier"),
  ("typename-specifier", "typename-specifier:\n    typename nested-name-specifier identifier\n    typename nested-name-specifier template_opt simple-template-id"),
  ("explicit-instantiation", "explicit-instantiation:\n    extern_opt template declaration"),
  ("explicit-specialization", "explicit-specialization:\n    template < > declaration"),
  ("try-block", "try-block:\n    try compound-statement handler-seq"),
  ("function-try-block", "function-try-block:\n    try ctor-initializer_opt compound-statement handler-seq"),
  ("handler-seq", "handler-seq:\n    handler handler-seq_opt"),
  ("handler", "handler:\n    catch ( exception-declaration ) compound-statement")
]

def ebnfChunk8 : List (String × String) := [
  ("exception-declaration", "exception-declaration:\n    attribute-specifier-seq_opt type-specifier-seq declarator\n    attribute-specifier-seq_opt type-specifier-seq abstract-declarator_opt\n    ..."),
  ("noexcept-specifier", "noexcept-specifier:\n    noexcept ( constant-expression )\n    noexcept"),
  ("preprocessing-file", "preprocessing-file:\n    group_opt\n    module-file"),
  ("module-file", "module-file:\n    pp-global-module-fragment_opt pp-module group_opt pp-private-module-fragment_opt"),
  ("pp-global-module-fragment", "pp-global-module-fragment:\n    module ; new-line group_opt"),
  ("pp-private-module-fragment", "pp-private-module-fragment:\n    module : private ; new-line group_opt"),
  ("group", "group:\n    group-part\n    group group-part"),
  ("group-part", "group-part:\n    control-line\n    if-section\n    text-line\n    # conditionally-supported-directive"),
  ("control-line", "control-line:\n    # include pp-tokens new-line\n    pp-import\n    # define identifier replacement-list new-line\n    # define identifier lparen identifier-list_opt ) replacement-list new-line\n    # define identifier lparen ... ) replacement-list new-line\n    # define identifier lparen identifier-list , ... ) replacement-list new-line\n    # undef identifier new-line\n    # line pp-tokens new-line\n    # error pp-tokens_opt new-line\n    # warning pp-tokens_opt new-line\n    # pragma pp-tokens_opt new-line\n    # new-line"),
  ("if-section", "if-section:\n    if-group elif-groups_opt else-group_opt endif-line"),
  ("if-group", "if-group:\n    # if constant-expression new-line group_opt\n    # ifdef identifier new-line group_opt\n    # ifndef identifier new-line group_opt"),
  ("elif-groups", "elif-groups:\n    elif-group\n    elif-groups elif-group"),
  ("elif-group", "elif-group:\n    # elif constant-expression new-line group_opt\n    # elifdef identifier new-line group_opt\n    # elifndef identifier new-line group_opt"),
  ("else-group", "else-group:\n    # else new-line group_opt"),
  ("endif-line", "endif-line:\n    # endif new-line"),
  ("text-line", "text-line:\n    pp-tokens_opt new-line"),
  ("conditionally-supported-directive", "conditionally-supported-directive:\n    pp-tokens new-line"),
  ("lparen", "lparen:\n    a ( character not immediately preceded by whitespace"),
  ("identifier-list", "identifier-list:\n    identifier\n    identifier-list , identifier"),
  ("replacement-list", "replacement-list:\n    pp-tokens_opt"),
  ("pp-tokens", "pp-tokens:\n    preprocessing-token\n    pp-tokens preprocessing-token"),
  ("new-line", "new-line:\n    the new-line character"),
  ("defined-macro-expression", "defined-macro-expression:\n    defined identifier\n    defined ( identifier )"),
  ("h-preprocessing-token", "h-preprocessing-token:\n    any preprocessing-token other than >"),
  ("h-pp-tokens", "h-pp-tokens:\n    h-preprocessing-token\n    h-pp-tokens h-preprocessing-token"),
  ("header-name-tokens", "header-name-tokens:\n    string-literal\n    < h-pp-tokens >"),
  ("has-include-expression", "has-include-expression:\n    __has_include ( header-name )\n    __has_include ( header-name-tokens )"),
  ("has-attribute-expression", "has-attribute-expression:\n    __has_cpp_attribute ( pp-tokens )"),
  ("pp-module", "pp-module:\n    export_opt module pp-tokens_opt ; new-line"),
  ("pp-import", "pp-import:\n    export_opt import header-name pp-tokens_opt ; new-line\n    export_opt import header-name-tokens pp-tokens_opt ; new-line\n    export_opt import pp-tokens ; new-line"),
  ("va-opt-replacement", "va-opt-replacement:\n    __VA_OPT__ ( pp-tokens_opt )")
]

/-- EBNF_DEFINITIONS: the authored EBNF production text keyed by rule name. -/
def EBNF_DEFINITIONS : List (String × String) :=
  ebnfChunk0 ++ ebnfChunk1 ++ ebnfChunk2 ++ ebnfChunk3 ++ ebnfChunk4 ++ ebnfChunk5 ++ ebnfChunk6 ++ ebnfChunk7 ++ ebnfChunk8

/-- What a JavaScript object-property read can observe on the
`EBNF_DEFINITIONS` object literal: an own data property (an authored
EBNF string), an inherited `Object.prototype` member (a method or
accessor, not a string), or `undefined`. -/
inductive JsPropValue where
  | str (s : String)
  | protoMember (key : String)
  | jsUndefined
deriving DecidableEq

/-- The property keys every object literal inherits from
`Object.prototype`, so that `obj[key]` on them is not `undefined`. -/
def objectPrototypeKeys : List String :=
  ["constructor", "hasOwnProperty", "isPrototypeOf", "propertyIsEnumerable",
   "toLocaleString", "toString", "valueOf", "__proto__",
   "__defineGetter__", "__defineSetter__", "__lookupGetter__",
   "__lookupSetter__"]

/-- `getEbnfDefinition`: plain property access `EBNF_DEFINITIONS[name]`.
An own key yields its authored string; an unregistered key naming an
`Object.prototype` member yields that inherited member via the
prototype chain; any other key yields `undefined`. -/
def getEbnfDefinition (name : String) : JsPropValue :=
  match mapGet EBNF_DEFINITIONS name with
  | some s => .str s
  | none => if name ∈ objectPrototypeKeys then .protoMember name else .jsUndefined

/-- `getEbnfRuleNames`: `Object.keys(EBNF_DEFINITIONS)` in insertion order. -/
def getEbnfRuleNames : List String :=
  EBNF_DEFINITIONS.map Prod.fst

end Ebnf

namespace Grammar2

/-!
Embedding of the second grammar catalog that ships inside
`src/features/grammar/ebnfDefinitions.ts`: its `rules` map (including the
`chain` precedence helper), `SECTION_RULES`, `createRuleDiagram`
(returning `undefined`, modelled as `none`), and `getRuleNames`.
-/

/-- The `chain` precedence-chain helper of the second catalog. -/
def chain (base : String) (ops : List String) : DiagramNode :=
  .sequence [.nonTerminal base,
    .zeroOrMore (.sequence [.choice 0 (ops.map DiagramNode.terminal), .nonTerminal base])]

def rulesChunk0 : List (String × (Unit → DiagramNode)) := [
  ("typedef-name", fun _ => .diagram [.choice 0 [.nonTerminal "identifier", .nonTerminal "simple-template-id"]]),
  ("namespace-name", fun _ => .diagram [.choice 0 [.nonTerminal "identifier", .nonTerminal "namespace-alias"]]),
  ("namespace-alias", fun _ => .diagram [.nonTerminal "identifier"]),
  ("class-name", fun _ => .diagram [.choice 0 [.nonTerminal "identifier", .nonTerminal "simple-template-id"]]),
  ("enum-name", fun _ => .diagram [.nonTerminal "identifier"]),
  ("template-name", fun _ => .diagram [.nonTerminal "identifier"]),
  ("n-char", fun _ => .diagram [.comment "any member of the translation character set except \x7d or new-line"]),
  ("n-char-sequence", fun _ => .diagram [.oneOrMore (.nonTerminal "n-char")]),
  ("named-universal-character", fun _ => .diagram [.sequence [.terminal "\\N\x7b", .nonTerminal "n-char-sequence", .terminal "\x7d"]]),
  ("hex-quad", fun _ => .diagram [.sequence [.nonTerminal "hexadecimal-digit", .nonTerminal "hexadecimal-digit", .nonTerminal "hexadecimal-digit", .nonTerminal "hexadecimal-digit"]]),
  ("simple-hexadecimal-digit-sequence", fun _ => .diagram [.oneOrMore (.nonTerminal "hexadecimal-digit")]),
  ("universal-character-name", fun _ => .diagram [.choice 0 [.sequence [.terminal "\\u", .nonTerminal "hex-quad"], .sequence [.terminal "\\U", .nonTerminal "hex-quad", .nonTerminal "hex-quad"], .sequence [.terminal "\\u\x7b", .nonTerminal "simple-hexadecimal-digit-sequence", .terminal "\x7d"], .nonTerminal "named-universal-character"]]),
  ("preprocessing-token", fun _ => .diagram [.choice 0 [.nonTerminal "header-name", .nonTerminal "import-keyword", .nonTerminal "module-keyword", .nonTerminal "export-keyword", .nonTerminal "identifier", .nonTerminal "pp-number", .nonTerminal "character-literal", .nonTerminal "user-defined-character-literal", .nonTerminal "string-literal", .nonTerminal "user-defined-string-literal", .nonTerminal "preprocessing-op-or-punc", .comment "other non-whitespace"]]),
  ("token", fun _ => .diagram [.choice 0 [.nonTerminal "identifier", .nonTerminal "keyword", .nonTerminal "literal", .nonTerminal "operator-or-punctuator"]]),
  ("header-name", fun _ => .diagram [.choice 0 [.sequence [.terminal "<", .nonTerminal "h-char-sequence", .terminal ">"], .sequence [.terminal "\"", .nonTerminal "q-char-sequence", .terminal "\""]]]),
  ("h-char-sequence", fun _ => .diagram [.oneOrMore (.nonTerminal "h-char")]),
  ("h-char", fun _ => .diagram [.comment "any character except new-line and >"]),
  ("q-char-sequence", fun _ => .diagram [.oneOrMore (.nonTerminal "q-char")]),
  ("q-char", fun _ => .diagram [.comment "any character except new-line and \""]),
  ("pp-number", fun _ => .diagram [.choice 0 [.nonTerminal "digit", .sequence [.terminal ".", .nonTerminal "digit"]], .zeroOrMore (.choice 0 [.nonTerminal "identifier-continue", .sequence [.terminal "\x27", .nonTerminal "digit"], .sequence [.terminal "\x27", .nonTerminal "nondigit"], .sequence [.choice 0 [.terminal "e", .terminal "E", .terminal "p", .terminal "P"], .nonTerminal "sign"], .terminal "."])]),
  ("identifier", fun _ => .diagram [.sequence [.nonTerminal "identifier-start", .zeroOrMore (.nonTerminal "identifier-continue")]]),
  ("identifier-start", fun _ => .diagram [.choice 0 [.nonTerminal "nondigit", .comment "XID_Start character"]]),
  ("identifier-continue", fun _ => .diagram [.choice 0 [.nonTerminal "digit", .nonTerminal "nondigit", .comment "XID_Continue character"]]),
  ("nondigit", fun _ => .diagram [.choice 0 [.terminal "a-z", .terminal "A-Z", .terminal "_"]]),
  ("digit", fun _ => .diagram [.terminal "0-9"]),
  ("keyword", fun _ => .diagram [.choice 0 [.comment "any identifier listed in Table 5", .nonTerminal "import-keyword", .nonTerminal "module-keyword", .nonTerminal "export-keyword"]]),
  ("preprocessing-op-or-punc", fun _ => .diagram [.choice 0 [.nonTerminal "preprocessing-operator", .nonTerminal "operator-or-punctuator"]]),
  ("preprocessing-operator", fun _ => .diagram [.choice 0 [.terminal "#", .terminal "##", .terminal "%:", .terminal "%:%:"]]),
  ("operator-or-punctuator", fun _ => .diagram [.stack [.choice 0 [.terminal "\x7b", .terminal "\x7d", .terminal "[", .terminal "]", .terminal "(", .terminal ")", .terminal "<:", .terminal ":>", .terminal "<%", .terminal "%>"], .choice 0 [.terminal ";", .terminal ":", .terminal "...", .terminal "?", .terminal "::", .terminal ".", .terminal ".*", .terminal "->", .terminal "->*", .terminal "~"], .choice 0 [.terminal "!", .terminal "+", .terminal "-", .terminal "*", .terminal "/", .terminal "%", .terminal "^", .terminal "&", .terminal "|"], .choice 0 [.terminal "=", .terminal "+=", .terminal "-=", .terminal "*=", .terminal "/=", .terminal "%=", .terminal "^=", .terminal "&=", .terminal "|="], .choice 0 [.terminal "==", .terminal "!=", .terminal "<", .terminal ">", .terminal "<=", .terminal ">=", .terminal "<=>", .terminal "&&", .terminal "||"], .choice 0 [.terminal "<<", .terminal ">>", .terminal "<<=", .terminal ">>=", .terminal "++", .terminal "--", .terminal ","]]]),
  ("literal", fun _ => .diagram [.choice 0 [.nonTerminal "integer-literal", .nonTerminal "character-literal", .nonTerminal "floating-point-literal", .nonTerminal "string-literal", .nonTerminal "boolean-literal", .nonTerminal "pointer-literal", .nonTerminal "user-defined-literal"]]),
  ("integer-literal", fun _ => .diagram [.choice 0 [.nonTerminal "binary-literal", .nonTerminal "octal-literal", .nonTerminal "decimal-literal", .nonTerminal "hexadecimal-literal"], .optional (.nonTerminal "integer-suffix")]),
  ("binary-literal", fun _ => .diagram [.choice 0 [.terminal "0b", .terminal "0B"], .nonTerminal "binary-digit", .zeroOrMore (.sequence [.optional (.terminal "\x27"), .nonTerminal "binary-digit"])]),
  ("octal-literal", fun _ => .diagram [.terminal "0", .zeroOrMore (.sequence [.optional (.terminal "\x27"), .nonTerminal "octal-digit"])]),
  ("decimal-literal", fun _ => .diagram [.nonTerminal "nonzero-digit", .zeroOrMore (.sequence [.optional (.terminal "\x27"), .nonTerminal "digit"])]),
  ("hexadecimal-literal", fun _ => .diagram [.nonTerminal "hexadecimal-prefix", .nonTerminal "hexadecimal-digit-sequence"]),
  ("binary-digit", fun _ => .diagram [.choice 0 [.terminal "0", .terminal "1"]]),
  ("octal-digit", fun _ => .diagram [.terminal "0-7"]),
  ("nonzero-digit", fun _ => .diagram [.terminal "1-9"]),
  ("hexadecimal-prefix", fun _ => .diagram [.choice 0 [.terminal "0x", .terminal "0X"]]),
  ("hexadecimal-digit-sequence", fun _ => .diagram [.nonTerminal "hexadecimal-digit", .zeroOrMore (.sequence [.optional (.terminal "\x27"), .nonTerminal "hexadecimal-digit"])])
]

def rulesChunk1 : List (String × (Unit → DiagramNode)) := [
  ("hexadecimal-digit", fun _ => .diagram [.choice 0 [.terminal "0-9", .terminal "a-f", .terminal "A-F"]]),
  ("integer-suffix", fun _ => .diagram [.choice 0 [.sequence [.nonTerminal "unsigned-suffix", .optional (.choice 0 [.nonTerminal "long-suffix", .nonTerminal "long-long-suffix", .nonTerminal "size-suffix"])], .sequence [.nonTerminal "long-suffix", .optional (.nonTerminal "unsigned-suffix")], .sequence [.nonTerminal "long-long-suffix", .optional (.nonTerminal "unsigned-suffix")], .sequence [.nonTerminal "size-suffix", .optional (.nonTerminal "unsigned-suffix")]]]),
  ("unsigned-suffix", fun _ => .diagram [.choice 0 [.terminal "u", .terminal "U"]]),
  ("long-suffix", fun _ => .diagram [.choice 0 [.terminal "l", .terminal "L"]]),
  ("long-long-suffix", fun _ => .diagram [.choice 0 [.terminal "ll", .terminal "LL"]]),
  ("size-suffix", fun _ => .diagram [.choice 0 [.terminal "z", .terminal "Z"]]),
  ("character-literal", fun _ => .diagram [.optional (.nonTerminal "encoding-prefix"), .terminal "\x27", .nonTerminal "c-char-sequence", .terminal "\x27"]),
  ("encoding-prefix", fun _ => .diagram [.choice 0 [.terminal "u8", .terminal "u", .terminal "U", .terminal "L"]]),
  ("c-char-sequence", fun _ => .diagram [.oneOrMore (.nonTerminal "c-char")]),
  ("c-char", fun _ => .diagram [.choice 0 [.nonTerminal "basic-c-char", .nonTerminal "escape-sequence", .nonTerminal "universal-character-name"]]),
  ("basic-c-char", fun _ => .diagram [.comment "any character except \x27, \\, or new-line"]),
  ("escape-sequence", fun _ => .diagram [.choice 0 [.nonTerminal "simple-escape-sequence", .nonTerminal "numeric-escape-sequence", .nonTerminal "conditional-escape-sequence"]]),
  ("simple-escape-sequence", fun _ => .diagram [.terminal "\\", .nonTerminal "simple-escape-sequence-char"]),
  ("simple-escape-sequence-char", fun _ => .diagram [.choice 0 [.terminal "\x27", .terminal "\"", .terminal "?", .terminal "\\", .terminal "a", .terminal "b", .terminal "f", .terminal "n", .terminal "r", .terminal "t", .terminal "v"]]),
  ("numeric-escape-sequence", fun _ => .diagram [.choice 0 [.nonTerminal "octal-escape-sequence", .nonTerminal "hexadecimal-escape-sequence"]]),
  ("simple-octal-digit-sequence", fun _ => .diagram [.oneOrMore (.nonTerminal "octal-digit")]),
  ("octal-escape-sequence", fun _ => .diagram [.choice 0 [.sequence [.terminal "\\", .nonTerminal "octal-digit", .optional (.nonTerminal "octal-digit"), .optional (.nonTerminal "octal-digit")], .sequence [.terminal "\\o\x7b", .nonTerminal "simple-octal-digit-sequence", .terminal "\x7d"]]]),
  ("hexadecimal-escape-sequence", fun _ => .diagram [.choice 0 [.sequence [.terminal "\\x", .nonTerminal "simple-hexadecimal-digit-sequence"], .sequence [.terminal "\\x\x7b", .nonTerminal "simple-hexadecimal-digit-sequence", .terminal "\x7d"]]]),
  ("conditional-escape-sequence", fun _ => .diagram [.terminal "\\", .nonTerminal "conditional-escape-sequence-char"]),
  ("conditional-escape-sequence-char", fun _ => .diagram [.comment "any basic char not octal-digit, escape-char, N, o, u, U, x"]),
  ("floating-point-literal", fun _ => .diagram [.choice 0 [.nonTerminal "decimal-floating-point-literal", .nonTerminal "hexadecimal-floating-point-literal"]]),
  ("decimal-floating-point-literal", fun _ => .diagram [.choice 0 [.sequence [.nonTerminal "fractional-constant", .optional (.nonTerminal "exponent-part")], .sequence [.nonTerminal "digit-sequence", .nonTerminal "exponent-part"]], .optional (.nonTerminal "floating-point-suffix")]),
  ("hexadecimal-floating-point-literal", fun _ => .diagram [.nonTerminal "hexadecimal-prefix", .choice 0 [.nonTerminal "hexadecimal-fractional-constant", .nonTerminal "hexadecimal-digit-sequence"], .nonTerminal "binary-exponent-part", .optional (.nonTerminal "floating-point-suffix")]),
  ("fractional-constant", fun _ => .diagram [.choice 0 [.sequence [.optional (.nonTerminal "digit-sequence"), .terminal ".", .nonTerminal "digit-sequence"], .sequence [.nonTerminal "digit-sequence", .terminal "."]]]),
  ("hexadecimal-fractional-constant", fun _ => .diagram [.choice 0 [.sequence [.optional (.nonTerminal "hexadecimal-digit-sequence"), .terminal ".", .nonTerminal "hexadecimal-digit-sequence"], .sequence [.nonTerminal "hexadecimal-digit-sequence", .terminal "."]]]),
  ("exponent-part", fun _ => .diagram [.choice 0 [.terminal "e", .terminal "E"], .optional (.nonTerminal "sign"), .nonTerminal "digit-sequence"]),
  ("binary-exponent-part", fun _ => .diagram [.choice 0 [.terminal "p", .terminal "P"], .optional (.nonTerminal "sign"), .nonTerminal "digit-sequence"]),
  ("sign", fun _ => .diagram [.choice 0 [.terminal "+", .terminal "-"]]),
  ("digit-sequence", fun _ => .diagram [.nonTerminal "digit", .zeroOrMore (.sequence [.optional (.terminal "\x27"), .nonTerminal "digit"])]),
  ("floating-point-suffix", fun _ => .diagram [.choice 0 [.terminal "f", .terminal "l", .terminal "f16", .terminal "f32", .terminal "f64", .terminal "f128", .terminal "bf16", .terminal "F", .terminal "L", .terminal "F16", .terminal "F32", .terminal "F64", .terminal "F128", .terminal "BF16"]]),
  ("string-literal", fun _ => .diagram [.optional (.nonTerminal "encoding-prefix"), .choice 0 [.sequence [.terminal "\"", .optional (.nonTerminal "s-char-sequence"), .terminal "\""], .sequence [.terminal "R", .nonTerminal "raw-string"]]]),
  ("s-char-sequence", fun _ => .diagram [.oneOrMore (.nonTerminal "s-char")]),
  ("s-char", fun _ => .diagram [.choice 0 [.nonTerminal "basic-s-char", .nonTerminal "escape-sequence", .nonTerminal "universal-character-name"]]),
  ("basic-s-char", fun _ => .diagram [.comment "any character except \", \\, or new-line"]),
  ("raw-string", fun _ => .diagram [.terminal "\"", .optional (.nonTerminal "d-char-sequence"), .terminal "(", .optional (.nonTerminal "r-char-sequence"), .terminal ")", .optional (.nonTerminal "d-char-sequence"), .terminal "\""]),
  ("r-char-sequence", fun _ => .diagram [.oneOrMore (.nonTerminal "r-char")]),
  ("r-char", fun _ => .diagram [.comment "any character except ) followed by d-char-sequence and \""]),
  ("d-char-sequence", fun _ => .diagram [.oneOrMore (.nonTerminal "d-char")]),
  ("d-char", fun _ => .diagram [.comment "any basic char except space, (, ), \\, tab, newline"]),
  ("boolean-literal", fun _ => .diagram [.choice 0 [.terminal "false", .terminal "true"]])
]

def rulesChunk2 : List (String × (Unit → DiagramNode)) := [
  ("pointer-literal", fun _ => .diagram [.terminal "nullptr"]),
  ("user-defined-literal", fun _ => .diagram [.choice 0 [.nonTerminal "user-defined-integer-literal", .nonTerminal "user-defined-floating-point-literal", .nonTerminal "user-defined-string-literal", .nonTerminal "user-defined-character-literal"]]),
  ("user-defined-integer-literal", fun _ => .diagram [.choice 0 [.nonTerminal "decimal-literal", .nonTerminal "octal-literal", .nonTerminal "hexadecimal-literal", .nonTerminal "binary-literal"], .nonTerminal "ud-suffix"]),
  ("user-defined-floating-point-literal", fun _ => .diagram [.choice 0 [.sequence [.nonTerminal "fractional-constant", .optional (.nonTerminal "exponent-part")], .sequence [.nonTerminal "digit-sequence", .nonTerminal "exponent-part"], .sequence [.nonTerminal "hexadecimal-prefix", .nonTerminal "hexadecimal-fractional-constant", .nonTerminal "binary-exponent-part"], .sequence [.nonTerminal "hexadecimal-prefix", .nonTerminal "hexadecimal-digit-sequence", .nonTerminal "binary-exponent-part"]], .nonTerminal "ud-suffix"]),
  ("user-defined-string-literal", fun _ => .diagram [.nonTerminal "string-literal", .nonTerminal "ud-suffix"]),
  ("user-defined-character-literal", fun _ => .diagram [.nonTerminal "character-literal", .nonTerminal "ud-suffix"]),
  ("ud-suffix", fun _ => .diagram [.nonTerminal "identifier"]),
  ("translation-unit", fun _ => .diagram [.choice 0 [.optional (.nonTerminal "declaration-seq"), .sequence [.optional (.nonTerminal "global-module-fragment"), .nonTerminal "module-declaration", .optional (.nonTerminal "declaration-seq"), .optional (.nonTerminal "private-module-fragment")]]]),
  ("primary-expression", fun _ => .diagram [.choice 0 [.nonTerminal "literal", .terminal "this", .sequence [.terminal "(", .nonTerminal "expression", .terminal ")"], .nonTerminal "id-expression", .nonTerminal "lambda-expression", .nonTerminal "fold-expression", .nonTerminal "requires-expression"]]),
  ("id-expression", fun _ => .diagram [.choice 0 [.nonTerminal "unqualified-id", .nonTerminal "qualified-id"]]),
  ("unqualified-id", fun _ => .diagram [.choice 0 [.nonTerminal "identifier", .nonTerminal "operator-function-id", .nonTerminal "conversion-function-id", .nonTerminal "literal-operator-id", .sequence [.terminal "~", .nonTerminal "type-name"], .sequence [.terminal "~", .nonTerminal "decltype-specifier"], .nonTerminal "template-id"]]),
  ("qualified-id", fun _ => .diagram [.nonTerminal "nested-name-specifier", .optional (.terminal "template"), .nonTerminal "unqualified-id"]),
  ("nested-name-specifier", fun _ => .diagram [.choice 0 [.terminal "::", .sequence [.nonTerminal "type-name", .terminal "::"], .sequence [.nonTerminal "namespace-name", .terminal "::"], .sequence [.nonTerminal "decltype-specifier", .terminal "::"]], .zeroOrMore (.choice 0 [.sequence [.nonTerminal "identifier", .terminal "::"], .sequence [.optional (.terminal "template"), .nonTerminal "simple-template-id", .terminal "::"]])]),
  ("lambda-expression", fun _ => .diagram [.nonTerminal "lambda-introducer", .optional (.sequence [.terminal "<", .nonTerminal "template-parameter-list", .terminal ">", .optional (.nonTerminal "requires-clause")]), .optional (.nonTerminal "attribute-specifier-seq"), .nonTerminal "lambda-declarator", .nonTerminal "compound-statement"]),
  ("lambda-introducer", fun _ => .diagram [.terminal "[", .optional (.nonTerminal "lambda-capture"), .terminal "]"]),
  ("lambda-declarator", fun _ => .diagram [.choice 0 [.sequence [.optional (.nonTerminal "lambda-specifier-seq"), .optional (.nonTerminal "noexcept-specifier"), .optional (.nonTerminal "attribute-specifier-seq"), .optional (.nonTerminal "trailing-return-type")], .sequence [.terminal "(", .nonTerminal "parameter-declaration-clause", .terminal ")", .optional (.nonTerminal "lambda-specifier-seq"), .optional (.nonTerminal "noexcept-specifier"), .optional (.nonTerminal "attribute-specifier-seq"), .optional (.nonTerminal "trailing-return-type"), .optional (.nonTerminal "requires-clause")]]]),
  ("lambda-specifier", fun _ => .diagram [.choice 0 [.terminal "consteval", .terminal "constexpr", .terminal "mutable", .terminal "static"]]),
  ("lambda-specifier-seq", fun _ => .diagram [.oneOrMore (.nonTerminal "lambda-specifier")]),
  ("lambda-capture", fun _ => .diagram [.choice 0 [.nonTerminal "capture-default", .nonTerminal "capture-list", .sequence [.nonTerminal "capture-default", .terminal ",", .nonTerminal "capture-list"]]]),
  ("capture-default", fun _ => .diagram [.choice 0 [.terminal "&", .terminal "="]]),
  ("capture-list", fun _ => .diagram [.nonTerminal "capture", .zeroOrMore (.sequence [.terminal ",", .nonTerminal "capture"])]),
  ("capture", fun _ => .diagram [.choice 0 [.nonTerminal "simple-capture", .nonTerminal "init-capture"]]),
  ("simple-capture", fun _ => .diagram [.choice 0 [.sequence [.nonTerminal "identifier", .optional (.terminal "...")], .sequence [.terminal "&", .nonTerminal "identifier", .optional (.terminal "...")], .terminal "this", .sequence [.terminal "*", .terminal "this"]]]),
  ("init-capture", fun _ => .diagram [.optional (.terminal "..."), .optional (.terminal "&"), .nonTerminal "identifier", .nonTerminal "initializer"]),
  ("fold-expression", fun _ => .diagram [.terminal "(", .choice 0 [.sequence [.nonTerminal "cast-expression", .nonTerminal "fold-operator", .terminal "..."], .sequence [.terminal "...", .nonTerminal "fold-operator", .nonTerminal "cast-expression"], .sequence [.nonTerminal "cast-expression", .nonTerminal "fold-operator", .terminal "...", .nonTerminal "fold-operator", .nonTerminal "cast-expression"]], .terminal ")"]),
  ("fold-operator", fun _ => .diagram [.choice 0 [.terminal "+", .terminal "-", .terminal "*", .terminal "/", .terminal "%", .terminal "^", .terminal "&", .terminal "|", .terminal "<<", .terminal ">>", .terminal "+=", .terminal "-=", .terminal "*=", .terminal "/=", .terminal "%=", .terminal "^=", .terminal "&=", .terminal "|=", .terminal "<<=", .terminal ">>=", .terminal "=", .terminal "==", .terminal "!=", .terminal "<", .terminal ">", .terminal "<=", .terminal ">=", .terminal "&&", .terminal "||", .terminal ",", .terminal ".*", .terminal "->*"]]),
  ("requires-expression", fun _ => .diagram [.terminal "requires", .optional (.nonTerminal "requirement-parameter-list"), .nonTerminal "requirement-body"]),
  ("requirement-parameter-list", fun _ => .diagram [.terminal "(", .nonTerminal "parameter-declaration-clause", .terminal ")"]),
  ("requirement-body", fun _ => .diagram [.terminal "\x7b", .nonTerminal "requirement-seq", .terminal "\x7d"]),
  ("requirement-seq", fun _ => .diagram [.oneOrMore (.nonTerminal "requirement")]),
  ("requirement", fun _ => .diagram [.choice 0 [.nonTerminal "simple-requirement", .nonTerminal "type-requirement", .nonTerminal "compound-requirement", .nonTerminal "nested-requirement"]]),
  ("simple-requirement", fun _ => .diagram [.nonTerminal "expression", .terminal ";"]),
  ("type-requirement", fun _ => .diagram [.terminal "typename", .optional (.nonTerminal "nested-name-specifier"), .nonTerminal "type-name", .terminal ";"]),
  ("compound-requirement", fun _ => .diagram [.terminal "\x7b", .nonTerminal "expression", .terminal "\x7d", .optional (.terminal "noexcept"), .optional (.nonTerminal "return-type-requirement"), .terminal ";"]),
  ("return-type-requirement", fun _ => .diagram [.terminal "->", .nonTerminal "type-constraint"]),
  ("nested-requirement", fun _ => .diagram [.terminal "requires", .nonTerminal "constraint-expression", .terminal ";"]),
  ("postfix-expression", fun _ => let postfixSuffix : DiagramNode := .choice 0 [.sequence [.terminal "[", .optional (.nonTerminal "expression-list"), .terminal "]"], .sequence [.terminal "(", .optional (.nonTerminal "expression-list"), .terminal ")"], .sequence [.terminal ".", .optional (.terminal "template"), .nonTerminal "id-expression"], .sequence [.terminal "->", .optional (.terminal "template"), .nonTerminal "id-expression"], .terminal "++", .terminal "--"]; .diagram [.choice 0 [.nonTerminal "primary-expression", .sequence [.nonTerminal "simple-type-specifier", .terminal "(", .optional (.nonTerminal "expression-list"), .terminal ")"], .sequence [.nonTerminal "typename-specifier", .terminal "(", .optional (.nonTerminal "expression-list"), .terminal ")"], .sequence [.nonTerminal "simple-type-specifier", .nonTerminal "braced-init-list"], .sequence [.nonTerminal "typename-specifier", .nonTerminal "braced-init-list"], .sequence [.terminal "dynamic_cast", .terminal "<", .nonTerminal "type-id", .terminal ">", .terminal "(", .nonTerminal "expression", .terminal ")"], .sequence [.terminal "static_cast", .terminal "<", .nonTerminal "type-id", .terminal ">", .terminal "(", .nonTerminal "expression", .terminal ")"], .sequence [.terminal "reinterpret_cast", .terminal "<", .nonTerminal "type-id", .terminal ">", .terminal "(", .nonTerminal "expression", .terminal ")"], .sequence [.terminal "const_cast", .terminal "<", .nonTerminal "type-id", .terminal ">", .terminal "(", .nonTerminal "expression", .terminal ")"], .sequence [.terminal "typeid", .terminal "(", .choice 0 [.nonTerminal "expression", .nonTerminal "type-id"], .terminal ")"]], .zeroOrMore (postfixSuffix)]),
  ("expression-list", fun _ => .diagram [.nonTerminal "initializer-list"]),
  ("unary-expression", fun _ => .diagram [.choice 0 [.nonTerminal "postfix-expression", .sequence [.nonTerminal "unary-operator", .nonTerminal "cast-expression"], .sequence [.terminal "++", .nonTerminal "cast-expression"], .sequence [.terminal "--", .nonTerminal "cast-expression"], .nonTerminal "await-expression", .sequence [.terminal "sizeof", .nonTerminal "unary-expression"], .sequence [.terminal "sizeof", .terminal "(", .nonTerminal "type-id", .terminal ")"], .sequence [.terminal "sizeof", .terminal "...", .terminal "(", .nonTerminal "identifier", .terminal ")"], .sequence [.terminal "alignof", .terminal "(", .nonTerminal "type-id", .terminal ")"], .nonTerminal "noexcept-expression", .nonTerminal "new-expression", .nonTerminal "delete-expression"]]),
  ("unary-operator", fun _ => .diagram [.choice 0 [.terminal "*", .terminal "&", .terminal "+", .terminal "-", .terminal "!", .terminal "~"]])
]

def rulesChunk3 : List (String × (Unit → DiagramNode)) := [
  ("await-expression", fun _ => .diagram [.terminal "co_await", .nonTerminal "cast-expression"]),
  ("noexcept-expression", fun _ => .diagram [.terminal "noexcept", .terminal "(", .nonTerminal "expression", .terminal ")"]),
  ("new-expression", fun _ => .diagram [.optional (.terminal "::"), .terminal "new", .optional (.nonTerminal "new-placement"), .choice 0 [.nonTerminal "new-type-id", .sequence [.terminal "(", .nonTerminal "type-id", .terminal ")"]], .optional (.nonTerminal "new-initializer")]),
  ("new-placement", fun _ => .diagram [.terminal "(", .nonTerminal "expression-list", .terminal ")"]),
  ("new-type-id", fun _ => .diagram [.nonTerminal "type-specifier-seq", .optional (.nonTerminal "new-declarator")]),
  ("new-declarator", fun _ => .diagram [.choice 0 [.sequence [.nonTerminal "ptr-operator", .optional (.nonTerminal "new-declarator")], .nonTerminal "noptr-new-declarator"]]),
  ("noptr-new-declarator", fun _ => .diagram [.terminal "[", .optional (.nonTerminal "expression"), .terminal "]", .optional (.nonTerminal "attribute-specifier-seq"), .zeroOrMore (.sequence [.terminal "[", .nonTerminal "constant-expression", .terminal "]", .optional (.nonTerminal "attribute-specifier-seq")])]),
  ("new-initializer", fun _ => .diagram [.choice 0 [.sequence [.terminal "(", .optional (.nonTerminal "expression-list"), .terminal ")"], .nonTerminal "braced-init-list"]]),
  ("delete-expression", fun _ => .diagram [.optional (.terminal "::"), .terminal "delete", .optional (.sequence [.terminal "[", .terminal "]"]), .nonTerminal "cast-expression"]),
  ("cast-expression", fun _ => .diagram [.zeroOrMore (.sequence [.terminal "(", .nonTerminal "type-id", .terminal ")"]), .nonTerminal "unary-expression"]),
  ("pm-expression", fun _ => .diagram [.nonTerminal "cast-expression", .zeroOrMore (.sequence [.choice 0 [.terminal ".*", .terminal "->*"], .nonTerminal "cast-expression"])]),
  ("multiplicative-expression", fun _ => .diagram [chain "pm-expression" ["*", "/", "%"]]),
  ("additive-expression", fun _ => .diagram [chain "multiplicative-expression" ["+", "-"]]),
  ("shift-expression", fun _ => .diagram [chain "additive-expression" ["<<", ">>"]]),
  ("compare-expression", fun _ => .diagram [chain "shift-expression" ["<=>"]]),
  ("relational-expression", fun _ => .diagram [chain "compare-expression" ["<", ">", "<=", ">="]]),
  ("equality-expression", fun _ => .diagram [chain "relational-expression" ["==", "!="]]),
  ("and-expression", fun _ => .diagram [chain "equality-expression" ["&"]]),
  ("exclusive-or-expression", fun _ => .diagram [chain "and-expression" ["^"]]),
  ("inclusive-or-expression", fun _ => .diagram [chain "exclusive-or-expression" ["|"]]),
  ("logical-and-expression", fun _ => .diagram [chain "inclusive-or-expression" ["&&"]]),
  ("logical-or-expression", fun _ => .diagram [chain "logical-and-expression" ["||"]]),
  ("conditional-expression", fun _ => .diagram [.nonTerminal "logical-or-expression", .optional (.sequence [.terminal "?", .nonTerminal "expression", .terminal ":", .nonTerminal "assignment-expression"])]),
  ("yield-expression", fun _ => .diagram [.terminal "co_yield", .choice 0 [.nonTerminal "assignment-expression", .nonTerminal "braced-init-list"]]),
  ("throw-expression", fun _ => .diagram [.terminal "throw", .optional (.nonTerminal "assignment-expression")]),
  ("assignment-expression", fun _ => .diagram [.choice 0 [.nonTerminal "conditional-expression", .nonTerminal "yield-expression", .nonTerminal "throw-expression", .sequence [.nonTerminal "logical-or-expression", .nonTerminal "assignment-operator", .nonTerminal "initializer-clause"]]]),
  ("assignment-operator", fun _ => .diagram [.choice 0 [.terminal "=", .terminal "*=", .terminal "/=", .terminal "%=", .terminal "+=", .terminal "-=", .terminal ">>=", .terminal "<<=", .terminal "&=", .terminal "^=", .terminal "|="]]),
  ("expression", fun _ => .diagram [.nonTerminal "assignment-expression", .zeroOrMore (.sequence [.terminal ",", .nonTerminal "assignment-expression"])]),
  ("constant-expression", fun _ => .diagram [.nonTerminal "conditional-expression"]),
  ("statement", fun _ => .diagram [.choice 0 [.nonTerminal "labeled-statement", .sequence [.optional (.nonTerminal "attribute-specifier-seq"), .nonTerminal "expression-statement"], .sequence [.optional (.nonTerminal "attribute-specifier-seq"), .nonTerminal "compound-statement"], .sequence [.optional (.nonTerminal "attribute-specifier-seq"), .nonTerminal "selection-statement"], .sequence [.optional (.nonTerminal "attribute-specifier-seq"), .nonTerminal "iteration-statement"], .sequence [.optional (.nonTerminal "attribute-specifier-seq"), .nonTerminal "jump-statement"], .nonTerminal "declaration-statement", .sequence [.optional (.nonTerminal "attribute-specifier-seq"), .nonTerminal "try-block"]]]),
  ("init-statement", fun _ => .diagram [.choice 0 [.nonTerminal "expression-statement", .nonTerminal "simple-declaration", .nonTerminal "alias-declaration"]]),
  ("condition", fun _ => .diagram [.choice 0 [.nonTerminal "expression", .sequence [.optional (.nonTerminal "attribute-specifier-seq"), .nonTerminal "decl-specifier-seq", .nonTerminal "declarator", .nonTerminal "brace-or-equal-initializer"]]]),
  ("label", fun _ => .diagram [.optional (.nonTerminal "attribute-specifier-seq"), .choice 0 [.sequence [.nonTerminal "identifier", .terminal ":"], .sequence [.terminal "case", .nonTerminal "constant-expression", .terminal ":"], .sequence [.terminal "default", .terminal ":"]]]),
  ("labeled-statement", fun _ => .diagram [.nonTerminal "label", .nonTerminal "statement"]),
  ("expression-statement", fun _ => .diagram [.optional (.nonTerminal "expression"), .terminal ";"]),
  ("compound-statement", fun _ => .diagram [.terminal "\x7b", .optional (.nonTerminal "statement-seq"), .optional (.nonTerminal "label-seq"), .terminal "\x7d"]),
  ("statement-seq", fun _ => .diagram [.oneOrMore (.nonTerminal "statement")]),
  ("label-seq", fun _ => .diagram [.oneOrMore (.nonTerminal "label")]),
  ("selection-statement", fun _ => .diagram [.choice 0 [.sequence [.terminal "if", .optional (.terminal "constexpr"), .terminal "(", .optional (.nonTerminal "init-statement"), .nonTerminal "condition", .terminal ")", .nonTerminal "statement", .optional (.sequence [.terminal "else", .nonTerminal "statement"])], .sequence [.terminal "if", .optional (.terminal "!"), .terminal "consteval", .nonTerminal "compound-statement", .optional (.sequence [.terminal "else", .nonTerminal "statement"])], .sequence [.terminal "switch", .terminal "(", .optional (.nonTerminal "init-statement"), .nonTerminal "condition", .terminal ")", .nonTerminal "statement"]]]),
  ("iteration-statement", fun _ => .diagram [.choice 0 [.sequence [.terminal "while", .terminal "(", .nonTerminal "condition", .terminal ")", .nonTerminal "statement"], .sequence [.terminal "do", .nonTerminal "statement", .terminal "while", .terminal "(", .nonTerminal "expression", .terminal ")", .terminal ";"], .sequence [.terminal "for", .terminal "(", .nonTerminal "init-statement", .optional (.nonTerminal "condition"), .terminal ";", .optional (.nonTerminal "expression"), .terminal ")", .nonTerminal "statement"], .sequence [.terminal "for", .terminal "(", .optional (.nonTerminal "init-statement"), .nonTerminal "for-range-declaration", .terminal ":", .nonTerminal "for-range-initializer", .terminal ")", .nonTerminal "statement"]]])
]

def rulesChunk4 : List (String × (Unit → DiagramNode)) := [
  ("for-range-declaration", fun _ => .diagram [.optional (.nonTerminal "attribute-specifier-seq"), .nonTerminal "decl-specifier-seq", .choice 0 [.nonTerminal "declarator", .sequence [.optional (.nonTerminal "ref-qualifier"), .terminal "[", .nonTerminal "identifier-list", .terminal "]"]]]),
  ("for-range-initializer", fun _ => .diagram [.nonTerminal "expr-or-braced-init-list"]),
  ("jump-statement", fun _ => .diagram [.choice 0 [.sequence [.terminal "break", .terminal ";"], .sequence [.terminal "continue", .terminal ";"], .sequence [.terminal "return", .optional (.nonTerminal "expr-or-braced-init-list"), .terminal ";"], .nonTerminal "coroutine-return-statement", .sequence [.terminal "goto", .nonTerminal "identifier", .terminal ";"]]]),
  ("coroutine-return-statement", fun _ => .diagram [.terminal "co_return", .optional (.nonTerminal "expr-or-braced-init-list"), .terminal ";"]),
  ("declaration-statement", fun _ => .diagram [.nonTerminal "block-declaration"]),
  ("declaration-seq", fun _ => .diagram [.oneOrMore (.nonTerminal "declaration")]),
  ("declaration", fun _ => .diagram [.choice 0 [.nonTerminal "name-declaration", .nonTerminal "special-declaration"]]),
  ("name-declaration", fun _ => .diagram [.choice 0 [.nonTerminal "block-declaration", .nonTerminal "nodeclspec-function-declaration", .nonTerminal "function-definition", .nonTerminal "template-declaration", .nonTerminal "deduction-guide", .nonTerminal "linkage-specification", .nonTerminal "namespace-definition", .nonTerminal "empty-declaration", .nonTerminal "attribute-declaration", .nonTerminal "module-import-declaration"]]),
  ("special-declaration", fun _ => .diagram [.choice 0 [.nonTerminal "explicit-instantiation", .nonTerminal "explicit-specialization", .nonTerminal "export-declaration"]]),
  ("block-declaration", fun _ => .diagram [.choice 0 [.nonTerminal "simple-declaration", .nonTerminal "asm-declaration", .nonTerminal "namespace-alias-definition", .nonTerminal "using-declaration", .nonTerminal "using-enum-declaration", .nonTerminal "using-directive", .nonTerminal "static_assert-declaration", .nonTerminal "alias-declaration", .nonTerminal "opaque-enum-declaration"]]),
  ("nodeclspec-function-declaration", fun _ => .diagram [.optional (.nonTerminal "attribute-specifier-seq"), .nonTerminal "declarator", .terminal ";"]),
  ("alias-declaration", fun _ => .diagram [.terminal "using", .nonTerminal "identifier", .optional (.nonTerminal "attribute-specifier-seq"), .terminal "=", .nonTerminal "defining-type-id", .terminal ";"]),
  ("simple-declaration", fun _ => .diagram [.choice 0 [.sequence [.nonTerminal "decl-specifier-seq", .optional (.nonTerminal "init-declarator-list"), .terminal ";"], .sequence [.nonTerminal "attribute-specifier-seq", .nonTerminal "decl-specifier-seq", .nonTerminal "init-declarator-list", .terminal ";"], .sequence [.optional (.nonTerminal "attribute-specifier-seq"), .nonTerminal "decl-specifier-seq", .optional (.nonTerminal "ref-qualifier"), .terminal "[", .nonTerminal "identifier-list", .terminal "]", .nonTerminal "initializer", .terminal ";"]]]),
  ("static_assert-declaration", fun _ => .diagram [.terminal "static_assert", .terminal "(", .nonTerminal "constant-expression", .optional (.sequence [.terminal ",", .nonTerminal "string-literal"]), .terminal ")", .terminal ";"]),
  ("empty-declaration", fun _ => .diagram [.terminal ";"]),
  ("attribute-declaration", fun _ => .diagram [.nonTerminal "attribute-specifier-seq", .terminal ";"]),
  ("decl-specifier", fun _ => .diagram [.choice 0 [.nonTerminal "storage-class-specifier", .nonTerminal "defining-type-specifier", .nonTerminal "function-specifier", .terminal "friend", .terminal "typedef", .terminal "constexpr", .terminal "consteval", .terminal "constinit", .terminal "inline"]]),
  ("decl-specifier-seq", fun _ => .diagram [.nonTerminal "decl-specifier", .choice 0 [.optional (.nonTerminal "attribute-specifier-seq"), .nonTerminal "decl-specifier-seq"]]),
  ("storage-class-specifier", fun _ => .diagram [.choice 0 [.terminal "static", .terminal "thread_local", .terminal "extern", .terminal "mutable"]]),
  ("function-specifier", fun _ => .diagram [.choice 0 [.terminal "virtual", .nonTerminal "explicit-specifier"]]),
  ("explicit-specifier", fun _ => .diagram [.terminal "explicit", .optional (.sequence [.terminal "(", .nonTerminal "constant-expression", .terminal ")"])]),
  ("type-specifier", fun _ => .diagram [.choice 0 [.nonTerminal "simple-type-specifier", .nonTerminal "elaborated-type-specifier", .nonTerminal "typename-specifier", .nonTerminal "cv-qualifier"]]),
  ("type-specifier-seq", fun _ => .diagram [.nonTerminal "type-specifier", .choice 0 [.optional (.nonTerminal "attribute-specifier-seq"), .nonTerminal "type-specifier-seq"]]),
  ("defining-type-specifier", fun _ => .diagram [.choice 0 [.nonTerminal "type-specifier", .nonTerminal "class-specifier", .nonTerminal "enum-specifier"]]),
  ("defining-type-specifier-seq", fun _ => .diagram [.nonTerminal "defining-type-specifier", .choice 0 [.optional (.nonTerminal "attribute-specifier-seq"), .nonTerminal "defining-type-specifier-seq"]]),
  ("simple-type-specifier", fun _ => .diagram [.choice 0 [.sequence [.optional (.nonTerminal "nested-name-specifier"), .nonTerminal "type-name"], .sequence [.nonTerminal "nested-name-specifier", .terminal "template", .nonTerminal "simple-template-id"], .nonTerminal "decltype-specifier", .nonTerminal "placeholder-type-specifier", .sequence [.optional (.nonTerminal "nested-name-specifier"), .nonTerminal "template-name"], .terminal "char", .terminal "char8_t", .terminal "char16_t", .terminal "char32_t", .terminal "wchar_t", .terminal "bool", .terminal "short", .terminal "int", .terminal "long", .terminal "signed", .terminal "unsigned", .terminal "float", .terminal "double", .terminal "void"]]),
  ("type-name", fun _ => .diagram [.choice 0 [.nonTerminal "class-name", .nonTerminal "enum-name", .nonTerminal "typedef-name"]]),
  ("elaborated-type-specifier", fun _ => .diagram [.choice 0 [.sequence [.nonTerminal "class-key", .optional (.nonTerminal "attribute-specifier-seq"), .optional (.nonTerminal "nested-name-specifier"), .nonTerminal "identifier"], .sequence [.nonTerminal "class-key", .nonTerminal "simple-template-id"], .sequence [.nonTerminal "class-key", .nonTerminal "nested-name-specifier", .optional (.terminal "template"), .nonTerminal "simple-template-id"], .sequence [.terminal "enum", .optional (.nonTerminal "nested-name-specifier"), .nonTerminal "identifier"]]]),
  ("decltype-specifier", fun _ => .diagram [.terminal "decltype", .terminal "(", .nonTerminal "expression", .terminal ")"]),
  ("placeholder-type-specifier", fun _ => .diagram [.optional (.nonTerminal "type-constraint"), .choice 0 [.terminal "auto", .sequence [.terminal "decltype", .terminal "(", .terminal "auto", .terminal ")"]]]),
  ("init-declarator-list", fun _ => .diagram [.nonTerminal "init-declarator", .zeroOrMore (.sequence [.terminal ",", .nonTerminal "init-declarator"])]),
  ("init-declarator", fun _ => .diagram [.nonTerminal "declarator", .choice 0 [.optional (.nonTerminal "initializer"), .nonTerminal "requires-clause"]]),
  ("declarator", fun _ => .diagram [.choice 0 [.nonTerminal "ptr-declarator", .sequence [.nonTerminal "noptr-declarator", .nonTerminal "parameters-and-qualifiers", .nonTerminal "trailing-return-type"]]]),
  ("ptr-declarator", fun _ => .diagram [.zeroOrMore (.nonTerminal "ptr-operator"), .nonTerminal "noptr-declarator"]),
  ("noptr-declarator", fun _ => .diagram [.choice 0 [.sequence [.nonTerminal "declarator-id", .optional (.nonTerminal "attribute-specifier-seq")], .sequence [.terminal "(", .nonTerminal "ptr-declarator", .terminal ")"]], .zeroOrMore (.choice 0 [.nonTerminal "parameters-and-qualifiers", .sequence [.terminal "[", .optional (.nonTerminal "constant-expression"), .terminal "]", .optional (.nonTerminal "attribute-specifier-seq")]])]),
  ("parameters-and-qualifiers", fun _ => .diagram [.terminal "(", .nonTerminal "parameter-declaration-clause", .terminal ")", .optional (.nonTerminal "cv-qualifier-seq"), .optional (.nonTerminal "ref-qualifier"), .optional (.nonTerminal "noexcept-specifier"), .optional (.nonTerminal "attribute-specifier-seq")]),
  ("trailing-return-type", fun _ => .diagram [.terminal "->", .nonTerminal "type-id"]),
  ("ptr-operator", fun _ => .diagram [.choice 0 [.sequence [.terminal "*", .optional (.nonTerminal "attribute-specifier-seq"), .optional (.nonTerminal "cv-qualifier-seq")], .sequence [.terminal "&", .optional (.nonTerminal "attribute-specifier-seq")], .sequence [.terminal "&&", .optional (.nonTerminal "attribute-specifier-seq")], .sequence [.nonTerminal "nested-name-specifier", .terminal "*", .optional (.nonTerminal "attribute-specifier-seq"), .optional (.nonTerminal "cv-qualifier-seq")]]]),
  ("cv-qualifier-seq", fun _ => .diagram [.oneOrMore (.nonTerminal "cv-qualifier")]),
  ("cv-qualifier", fun _ => .diagram [.choice 0 [.terminal "const", .terminal "volatile"]])
]

def rulesChunk5 : List (String × (Unit → DiagramNode)) := [
  ("ref-qualifier", fun _ => .diagram [.choice 0 [.terminal "&", .terminal "&&"]]),
  ("declarator-id", fun _ => .diagram [.optional (.terminal "..."), .nonTerminal "id-expression"]),
  ("type-id", fun _ => .diagram [.nonTerminal "type-specifier-seq", .optional (.nonTerminal "abstract-declarator")]),
  ("defining-type-id", fun _ => .diagram [.nonTerminal "defining-type-specifier-seq", .optional (.nonTerminal "abstract-declarator")]),
  ("abstract-declarator", fun _ => .diagram [.choice 0 [.nonTerminal "ptr-abstract-declarator", .sequence [.optional (.nonTerminal "noptr-abstract-declarator"), .nonTerminal "parameters-and-qualifiers", .nonTerminal "trailing-return-type"], .nonTerminal "abstract-pack-declarator"]]),
  ("ptr-abstract-declarator", fun _ => .diagram [.zeroOrMore (.nonTerminal "ptr-operator"), .optional (.nonTerminal "noptr-abstract-declarator")]),
  ("noptr-abstract-declarator", fun _ => .diagram [.optional (.sequence [.terminal "(", .nonTerminal "ptr-abstract-declarator", .terminal ")"]), .zeroOrMore (.choice 0 [.nonTerminal "parameters-and-qualifiers", .sequence [.terminal "[", .optional (.nonTerminal "constant-expression"), .terminal "]", .optional (.nonTerminal "attribute-specifier-seq")]])]),
  ("abstract-pack-declarator", fun _ => .diagram [.zeroOrMore (.nonTerminal "ptr-operator"), .nonTerminal "noptr-abstract-pack-declarator"]),
  ("noptr-abstract-pack-declarator", fun _ => .diagram [.terminal "...", .zeroOrMore (.choice 0 [.nonTerminal "parameters-and-qualifiers", .sequence [.terminal "[", .optional (.nonTerminal "constant-expression"), .terminal "]", .optional (.nonTerminal "attribute-specifier-seq")]])]),
  ("parameter-declaration-clause", fun _ => .diagram [.choice 0 [.sequence [.optional (.nonTerminal "parameter-declaration-list"), .optional (.terminal "...")], .sequence [.nonTerminal "parameter-declaration-list", .terminal ",", .terminal "..."]]]),
  ("parameter-declaration-list", fun _ => .diagram [.nonTerminal "parameter-declaration", .zeroOrMore (.sequence [.terminal ",", .nonTerminal "parameter-declaration"])]),
  ("parameter-declaration", fun _ => .diagram [.optional (.nonTerminal "attribute-specifier-seq"), .optional (.terminal "this"), .nonTerminal "decl-specifier-seq", .choice 0 [.sequence [.nonTerminal "declarator", .optional (.sequence [.terminal "=", .nonTerminal "initializer-clause"])], .sequence [.optional (.nonTerminal "abstract-declarator"), .optional (.sequence [.terminal "=", .nonTerminal "initializer-clause"])]]]),
  ("initializer", fun _ => .diagram [.choice 0 [.nonTerminal "brace-or-equal-initializer", .sequence [.terminal "(", .nonTerminal "expression-list", .terminal ")"]]]),
  ("brace-or-equal-initializer", fun _ => .diagram [.choice 0 [.sequence [.terminal "=", .nonTerminal "initializer-clause"], .nonTerminal "braced-init-list"]]),
  ("initializer-clause", fun _ => .diagram [.choice 0 [.nonTerminal "assignment-expression", .nonTerminal "braced-init-list"]]),
  ("braced-init-list", fun _ => .diagram [.terminal "\x7b", .choice 0 [.sequence [.nonTerminal "initializer-list", .optional (.terminal ",")], .sequence [.nonTerminal "designated-initializer-list", .optional (.terminal ",")], .comment "empty"], .terminal "\x7d"]),
  ("initializer-list", fun _ => .diagram [.nonTerminal "initializer-clause", .optional (.terminal "..."), .zeroOrMore (.sequence [.terminal ",", .nonTerminal "initializer-clause", .optional (.terminal "...")])]),
  ("designated-initializer-list", fun _ => .diagram [.nonTerminal "designated-initializer-clause", .zeroOrMore (.sequence [.terminal ",", .nonTerminal "designated-initializer-clause"])]),
  ("designated-initializer-clause", fun _ => .diagram [.nonTerminal "designator", .nonTerminal "brace-or-equal-initializer"]),
  ("designator", fun _ => .diagram [.terminal ".", .nonTerminal "identifier"]),
  ("expr-or-braced-init-list", fun _ => .diagram [.choice 0 [.nonTerminal "expression", .nonTerminal "braced-init-list"]]),
  ("function-definition", fun _ => .diagram [.optional (.nonTerminal "attribute-specifier-seq"), .optional (.nonTerminal "decl-specifier-seq"), .nonTerminal "declarator", .choice 0 [.sequence [.optional (.nonTerminal "virt-specifier-seq"), .nonTerminal "function-body"], .sequence [.nonTerminal "requires-clause", .nonTerminal "function-body"]]]),
  ("function-body", fun _ => .diagram [.choice 0 [.sequence [.optional (.nonTerminal "ctor-initializer"), .nonTerminal "compound-statement"], .nonTerminal "function-try-block", .sequence [.terminal "=", .terminal "default", .terminal ";"], .sequence [.terminal "=", .terminal "delete", .terminal ";"]]]),
  ("enum-specifier", fun _ => .diagram [.nonTerminal "enum-head", .terminal "\x7b", .choice 0 [.optional (.nonTerminal "enumerator-list"), .sequence [.nonTerminal "enumerator-list", .terminal ","]], .terminal "\x7d"]),
  ("enum-head", fun _ => .diagram [.nonTerminal "enum-key", .optional (.nonTerminal "attribute-specifier-seq"), .optional (.nonTerminal "enum-head-name"), .optional (.nonTerminal "enum-base")]),
  ("enum-head-name", fun _ => .diagram [.optional (.nonTerminal "nested-name-specifier"), .nonTerminal "identifier"]),
  ("opaque-enum-declaration", fun _ => .diagram [.nonTerminal "enum-key", .optional (.nonTerminal "attribute-specifier-seq"), .nonTerminal "enum-head-name", .optional (.nonTerminal "enum-base"), .terminal ";"]),
  ("enum-key", fun _ => .diagram [.choice 0 [.terminal "enum", .sequence [.terminal "enum", .terminal "class"], .sequence [.terminal "enum", .terminal "struct"]]]),
  ("enum-base", fun _ => .diagram [.terminal ":", .nonTerminal "type-specifier-seq"]),
  ("enumerator-list", fun _ => .diagram [.nonTerminal "enumerator-definition", .zeroOrMore (.sequence [.terminal ",", .nonTerminal "enumerator-definition"])]),
  ("enumerator-definition", fun _ => .diagram [.nonTerminal "enumerator", .optional (.sequence [.terminal "=", .nonTerminal "constant-expression"])]),
  ("enumerator", fun _ => .diagram [.nonTerminal "identifier", .optional (.nonTerminal "attribute-specifier-seq")]),
  ("using-enum-declaration", fun _ => .diagram [.terminal "using", .terminal "enum", .nonTerminal "using-enum-declarator", .terminal ";"]),
  ("using-enum-declarator", fun _ => .diagram [.optional (.nonTerminal "nested-name-specifier"), .choice 0 [.nonTerminal "identifier", .nonTerminal "simple-template-id"]]),
  ("namespace-definition", fun _ => .diagram [.choice 0 [.nonTerminal "named-namespace-definition", .nonTerminal "unnamed-namespace-definition", .nonTerminal "nested-namespace-definition"]]),
  ("named-namespace-definition", fun _ => .diagram [.optional (.terminal "inline"), .terminal "namespace", .optional (.nonTerminal "attribute-specifier-seq"), .nonTerminal "identifier", .terminal "\x7b", .nonTerminal "namespace-body", .terminal "\x7d"]),
  ("unnamed-namespace-definition", fun _ => .diagram [.optional (.terminal "inline"), .terminal "namespace", .optional (.nonTerminal "attribute-specifier-seq"), .terminal "\x7b", .nonTerminal "namespace-body", .terminal "\x7d"]),
  ("nested-namespace-definition", fun _ => .diagram [.terminal "namespace", .nonTerminal "enclosing-namespace-specifier", .terminal "::", .optional (.terminal "inline"), .nonTerminal "identifier", .terminal "\x7b", .nonTerminal "namespace-body", .terminal "\x7d"]),
  ("enclosing-namespace-specifier", fun _ => .diagram [.nonTerminal "identifier", .zeroOrMore (.sequence [.terminal "::", .optional (.terminal "inline"), .nonTerminal "identifier"])]),
  ("namespace-body", fun _ => .diagram [.optional (.nonTerminal "declaration-seq")])
]

def rulesChunk6 : List (String × (Unit → DiagramNode)) := [
  ("namespace-alias-definition", fun _ => .diagram [.terminal "namespace", .nonTerminal "identifier", .terminal "=", .nonTerminal "qualified-namespace-specifier", .terminal ";"]),
  ("qualified-namespace-specifier", fun _ => .diagram [.optional (.nonTerminal "nested-name-specifier"), .nonTerminal "namespace-name"]),
  ("using-directive", fun _ => .diagram [.optional (.nonTerminal "attribute-specifier-seq"), .terminal "using", .terminal "namespace", .optional (.nonTerminal "nested-name-specifier"), .nonTerminal "namespace-name", .terminal ";"]),
  ("using-declaration", fun _ => .diagram [.terminal "using", .nonTerminal "using-declarator-list", .terminal ";"]),
  ("using-declarator-list", fun _ => .diagram [.nonTerminal "using-declarator", .optional (.terminal "..."), .zeroOrMore (.sequence [.terminal ",", .nonTerminal "using-declarator", .optional (.terminal "...")])]),
  ("using-declarator", fun _ => .diagram [.optional (.terminal "typename"), .nonTerminal "nested-name-specifier", .nonTerminal "unqualified-id"]),
  ("asm-declaration", fun _ => .diagram [.optional (.nonTerminal "attribute-specifier-seq"), .terminal "asm", .terminal "(", .nonTerminal "string-literal", .terminal ")", .terminal ";"]),
  ("linkage-specification", fun _ => .diagram [.terminal "extern", .nonTerminal "string-literal", .choice 0 [.sequence [.terminal "\x7b", .optional (.nonTerminal "declaration-seq"), .terminal "\x7d"], .nonTerminal "name-declaration"]]),
  ("attribute-specifier-seq", fun _ => .diagram [.oneOrMore (.nonTerminal "attribute-specifier")]),
  ("attribute-specifier", fun _ => .diagram [.choice 0 [.sequence [.terminal "[", .terminal "[", .optional (.nonTerminal "attribute-using-prefix"), .nonTerminal "attribute-list", .terminal "]", .terminal "]"], .nonTerminal "alignment-specifier"]]),
  ("alignment-specifier", fun _ => .diagram [.terminal "alignas", .terminal "(", .choice 0 [.nonTerminal "type-id", .nonTerminal "constant-expression"], .optional (.terminal "..."), .terminal ")"]),
  ("attribute-using-prefix", fun _ => .diagram [.terminal "using", .nonTerminal "attribute-namespace", .terminal ":"]),
  ("attribute-list", fun _ => .diagram [.optional (.nonTerminal "attribute"), .zeroOrMore (.sequence [.terminal ",", .choice 0 [.optional (.nonTerminal "attribute"), .sequence [.nonTerminal "attribute", .terminal "..."]]])]),
  ("attribute", fun _ => .diagram [.nonTerminal "attribute-token", .optional (.nonTerminal "attribute-argument-clause")]),
  ("attribute-token", fun _ => .diagram [.choice 0 [.nonTerminal "identifier", .nonTerminal "attribute-scoped-token"]]),
  ("attribute-scoped-token", fun _ => .diagram [.nonTerminal "attribute-namespace", .terminal "::", .nonTerminal "identifier"]),
  ("attribute-namespace", fun _ => .diagram [.nonTerminal "identifier"]),
  ("attribute-argument-clause", fun _ => .diagram [.terminal "(", .optional (.nonTerminal "balanced-token-seq"), .terminal ")"]),
  ("balanced-token-seq", fun _ => .diagram [.oneOrMore (.nonTerminal "balanced-token")]),
  ("balanced-token", fun _ => .diagram [.choice 0 [.sequence [.terminal "(", .optional (.nonTerminal "balanced-token-seq"), .terminal ")"], .sequence [.terminal "[", .optional (.nonTerminal "balanced-token-seq"), .terminal "]"], .sequence [.terminal "\x7b", .optional (.nonTerminal "balanced-token-seq"), .terminal "\x7d"], .comment "any token except ( ) [ ] \x7b \x7d"]]),
  ("module-declaration", fun _ => .diagram [.optional (.terminal "export"), .terminal "module", .nonTerminal "module-name", .optional (.nonTerminal "module-partition"), .optional (.nonTerminal "attribute-specifier-seq"), .terminal ";"]),
  ("module-name", fun _ => .diagram [.optional (.nonTerminal "module-name-qualifier"), .nonTerminal "identifier"]),
  ("module-partition", fun _ => .diagram [.terminal ":", .optional (.nonTerminal "module-name-qualifier"), .nonTerminal "identifier"]),
  ("module-name-qualifier", fun _ => .diagram [.nonTerminal "identifier", .terminal ".", .zeroOrMore (.sequence [.nonTerminal "identifier", .terminal "."])]),
  ("export-declaration", fun _ => .diagram [.choice 0 [.sequence [.terminal "export", .nonTerminal "name-declaration"], .sequence [.terminal "export", .terminal "\x7b", .optional (.nonTerminal "declaration-seq"), .terminal "\x7d"], .sequence [.terminal "export", .nonTerminal "module-import-declaration"]]]),
  ("module-import-declaration", fun _ => .diagram [.terminal "import", .choice 0 [.nonTerminal "module-name", .nonTerminal "module-partition", .nonTerminal "header-name"], .optional (.nonTerminal "attribute-specifier-seq"), .terminal ";"]),
  ("global-module-fragment", fun _ => .diagram [.terminal "module", .terminal ";", .optional (.nonTerminal "declaration-seq")]),
  ("private-module-fragment", fun _ => .diagram [.terminal "module", .terminal ":", .terminal "private", .terminal ";", .optional (.nonTerminal "declaration-seq")]),
  ("class-specifier", fun _ => .diagram [.nonTerminal "class-head", .terminal "\x7b", .optional (.nonTerminal "member-specification"), .terminal "\x7d"]),
  ("class-head", fun _ => .diagram [.nonTerminal "class-key", .optional (.nonTerminal "attribute-specifier-seq"), .optional (.sequence [.nonTerminal "class-head-name", .optional (.nonTerminal "class-virt-specifier")]), .optional (.nonTerminal "base-clause")]),
  ("class-head-name", fun _ => .diagram [.optional (.nonTerminal "nested-name-specifier"), .nonTerminal "class-name"]),
  ("class-virt-specifier", fun _ => .diagram [.terminal "final"]),
  ("class-key", fun _ => .diagram [.choice 0 [.terminal "class", .terminal "struct", .terminal "union"]]),
  ("member-specification", fun _ => .diagram [.oneOrMore (.choice 0 [.nonTerminal "member-declaration", .sequence [.nonTerminal "access-specifier", .terminal ":"]])]),
  ("member-declaration", fun _ => .diagram [.choice 0 [.sequence [.optional (.nonTerminal "attribute-specifier-seq"), .optional (.nonTerminal "decl-specifier-seq"), .optional (.nonTerminal "member-declarator-list"), .terminal ";"], .nonTerminal "function-definition", .nonTerminal "using-declaration", .nonTerminal "using-enum-declaration", .nonTerminal "static_assert-declaration", .nonTerminal "template-declaration", .nonTerminal "explicit-specialization", .nonTerminal "deduction-guide", .nonTerminal "alias-declaration", .nonTerminal "opaque-enum-declaration", .nonTerminal "empty-declaration"]]),
  ("member-declarator-list", fun _ => .diagram [.nonTerminal "member-declarator", .zeroOrMore (.sequence [.terminal ",", .nonTerminal "member-declarator"])]),
  ("member-declarator", fun _ => .diagram [.choice 0 [.sequence [.nonTerminal "declarator", .choice 0 [.sequence [.optional (.nonTerminal "virt-specifier-seq"), .optional (.nonTerminal "pure-specifier")], .nonTerminal "requires-clause", .optional (.nonTerminal "brace-or-equal-initializer")]], .sequence [.optional (.nonTerminal "identifier"), .optional (.nonTerminal "attribute-specifier-seq"), .terminal ":", .nonTerminal "constant-expression", .optional (.nonTerminal "brace-or-equal-initializer")]]]),
  ("virt-specifier-seq", fun _ => .diagram [.oneOrMore (.nonTerminal "virt-specifier")]),
  ("virt-specifier", fun _ => .diagram [.choice 0 [.terminal "override", .terminal "final"]]),
  ("pure-specifier", fun _ => .diagram [.terminal "=", .terminal "0"])
]

def rulesChunk7 : List (String × (Unit → DiagramNode)) := [
  ("conversion-function-id", fun _ => .diagram [.terminal "operator", .nonTerminal "conversion-type-id"]),
  ("conversion-type-id", fun _ => .diagram [.nonTerminal "type-specifier-seq", .optional (.nonTerminal "conversion-declarator")]),
  ("conversion-declarator", fun _ => .diagram [.nonTerminal "ptr-operator", .optional (.nonTerminal "conversion-declarator")]),
  ("base-clause", fun _ => .diagram [.terminal ":", .nonTerminal "base-specifier-list"]),
  ("base-specifier-list", fun _ => .diagram [.nonTerminal "base-specifier", .optional (.terminal "..."), .zeroOrMore (.sequence [.terminal ",", .nonTerminal "base-specifier", .optional (.terminal "...")])]),
  ("base-specifier", fun _ => .diagram [.optional (.nonTerminal "attribute-specifier-seq"), .choice 0 [.nonTerminal "class-or-decltype", .sequence [.terminal "virtual", .optional (.nonTerminal "access-specifier"), .nonTerminal "class-or-decltype"], .sequence [.nonTerminal "access-specifier", .optional (.terminal "virtual"), .nonTerminal "class-or-decltype"]]]),
  ("class-or-decltype", fun _ => .diagram [.choice 0 [.sequence [.optional (.nonTerminal "nested-name-specifier"), .nonTerminal "type-name"], .sequence [.nonTerminal "nested-name-specifier", .terminal "template", .nonTerminal "simple-template-id"], .nonTerminal "decltype-specifier"]]),
  ("access-specifier", fun _ => .diagram [.choice 0 [.terminal "private", .terminal "protected", .terminal "public"]]),
  ("ctor-initializer", fun _ => .diagram [.terminal ":", .nonTerminal "mem-initializer-list"]),
  ("mem-initializer-list", fun _ => .diagram [.nonTerminal "mem-initializer", .optional (.terminal "..."), .zeroOrMore (.sequence [.terminal ",", .nonTerminal "mem-initializer", .optional (.terminal "...")])]),
  ("mem-initializer", fun _ => .diagram [.nonTerminal "mem-initializer-id", .choice 0 [.sequence [.terminal "(", .optional (.nonTerminal "expression-list"), .terminal ")"], .nonTerminal "braced-init-list"]]),
  ("mem-initializer-id", fun _ => .diagram [.choice 0 [.nonTerminal "class-or-decltype", .nonTerminal "identifier"]]),
  ("operator-function-id", fun _ => .diagram [.terminal "operator", .nonTerminal "operator"]),
  ("operator", fun _ => .diagram [.choice 0 [.terminal "new", .terminal "delete", .terminal "new[]", .terminal "delete[]", .terminal "co_await", .terminal "()", .terminal "[]", .terminal "->", .terminal "->*", .terminal "~", .terminal "!", .terminal "+", .terminal "-", .terminal "*", .terminal "/", .terminal "%", .terminal "^", .terminal "&", .terminal "|", .terminal "=", .terminal "+=", .terminal "-=", .terminal "*=", .terminal "/=", .terminal "%=", .terminal "^=", .terminal "&=", .terminal "|=", .terminal "==", .terminal "!=", .terminal "<", .terminal ">", .terminal "<=", .terminal ">=", .terminal "<=>", .terminal "&&", .terminal "||", .terminal "<<", .terminal ">>", .terminal "<<=", .terminal ">>=", .terminal "++", .terminal "--", .terminal ","]]),
  ("literal-operator-id", fun _ => .diagram [.terminal "operator", .choice 0 [.sequence [.nonTerminal "string-literal", .nonTerminal "identifier"], .nonTerminal "user-defined-string-literal"]]),
  ("template-declaration", fun _ => .diagram [.nonTerminal "template-head", .choice 0 [.nonTerminal "declaration", .nonTerminal "concept-definition"]]),
  ("template-head", fun _ => .diagram [.terminal "template", .terminal "<", .nonTerminal "template-parameter-list", .terminal ">", .optional (.nonTerminal "requires-clause")]),
  ("template-parameter-list", fun _ => .diagram [.nonTerminal "template-parameter", .zeroOrMore (.sequence [.terminal ",", .nonTerminal "template-parameter"])]),
  ("requires-clause", fun _ => .diagram [.terminal "requires", .nonTerminal "constraint-logical-or-expression"]),
  ("constraint-logical-or-expression", fun _ => .diagram [.nonTerminal "constraint-logical-and-expression", .zeroOrMore (.sequence [.terminal "||", .nonTerminal "constraint-logical-and-expression"])]),
  ("constraint-logical-and-expression", fun _ => .diagram [.nonTerminal "primary-expression", .zeroOrMore (.sequence [.terminal "&&", .nonTerminal "primary-expression"])]),
  ("template-parameter", fun _ => .diagram [.choice 0 [.nonTerminal "type-parameter", .nonTerminal "parameter-declaration"]]),
  ("type-parameter", fun _ => .diagram [.choice 0 [.sequence [.nonTerminal "type-parameter-key", .optional (.terminal "..."), .optional (.nonTerminal "identifier")], .sequence [.nonTerminal "type-parameter-key", .optional (.nonTerminal "identifier"), .terminal "=", .nonTerminal "type-id"], .sequence [.nonTerminal "type-constraint", .optional (.terminal "..."), .optional (.nonTerminal "identifier")], .sequence [.nonTerminal "type-constraint", .optional (.nonTerminal "identifier"), .terminal "=", .nonTerminal "type-id"], .sequence [.nonTerminal "template-head", .nonTerminal "type-parameter-key", .optional (.terminal "..."), .optional (.nonTerminal "identifier")], .sequence [.nonTerminal "template-head", .nonTerminal "type-parameter-key", .optional (.nonTerminal "identifier"), .terminal "=", .nonTerminal "id-expression"]]]),
  ("type-parameter-key", fun _ => .diagram [.choice 0 [.terminal "class", .terminal "typename"]]),
  ("type-constraint", fun _ => .diagram [.optional (.nonTerminal "nested-name-specifier"), .nonTerminal "concept-name", .optional (.sequence [.terminal "<", .optional (.nonTerminal "template-argument-list"), .terminal ">"])]),
  ("simple-template-id", fun _ => .diagram [.nonTerminal "template-name", .terminal "<", .optional (.nonTerminal "template-argument-list"), .terminal ">"]),
  ("template-id", fun _ => .diagram [.choice 0 [.nonTerminal "simple-template-id", .sequence [.nonTerminal "operator-function-id", .terminal "<", .optional (.nonTerminal "template-argument-list"), .terminal ">"], .sequence [.nonTerminal "literal-operator-id", .terminal "<", .optional (.nonTerminal "template-argument-list"), .terminal ">"]]]),
  ("template-argument-list", fun _ => .diagram [.nonTerminal "template-argument", .optional (.terminal "..."), .zeroOrMore (.sequence [.terminal ",", .nonTerminal "template-argument", .optional (.terminal "...")])]),
  ("template-argument", fun _ => .diagram [.choice 0 [.nonTerminal "constant-expression", .nonTerminal "type-id", .nonTerminal "id-expression"]]),
  ("constraint-expression", fun _ => .diagram [.nonTerminal "logical-or-expression"]),
  ("deduction-guide", fun _ => .diagram [.optional (.nonTerminal "explicit-specifier"), .nonTerminal "template-name", .terminal "(", .nonTerminal "parameter-declaration-clause", .terminal ")", .terminal "->", .nonTerminal "simple-template-id", .terminal ";"]),
  ("concept-definition", fun _ => .diagram [.terminal "concept", .nonTerminal "concept-name", .optional (.nonTerminal "attribute-specifier-seq"), .terminal "=", .nonTerminal "constraint-expression", .terminal ";"]),
  ("concept-name", fun _ => .diagram [.nonTerminal "identifier"]),
  ("typename-specifier", fun _ => .diagram [.terminal "typename", .nonTerminal "nested-name-specifier", .choice 0 [.nonTerminal "identifier", .sequence [.optional (.terminal "template"), .nonTerminal "simple-template-id"]]]),
  ("explicit-instantiation", fun _ => .diagram [.optional (.terminal "extern"), .terminal "template", .nonTerminal "declaration"]),
  ("explicit-specialization", fun _ => .diagram [.terminal "template", .terminal "<", .terminal ">", .nonTerminal "declaration"]),
  ("try-block", fun _ => .diagram [.terminal "try", .nonTerminal "compound-statement", .nonTerminal "handler-seq"]),
  ("function-try-block", fun _ => .diagram [.terminal "try", .optional (.nonTerminal "ctor-initializer"), .nonTerminal "compound-statement", .nonTerminal "handler-seq"]),
  ("handler-seq", fun _ => .diagram [.oneOrMore (.nonTerminal "handler")]),
  ("handler", fun _ => .diagram [.terminal "catch", .terminal "(", .nonTerminal "exception-declaration", .terminal ")", .nonTerminal "compound-statement"])
]

def rulesChunk8 : List (String × (Unit → DiagramNode)) := [
  ("exception-declaration", fun _ => .diagram [.choice 0 [.sequence [.optional (.nonTerminal "attribute-specifier-seq"), .nonTerminal "type-specifier-seq", .choice 0 [.nonTerminal "declarator", .optional (.nonTerminal "abstract-declarator")]], .terminal "..."]]),
  ("noexcept-specifier", fun _ => .diagram [.terminal "noexcept", .optional (.sequence [.terminal "(", .nonTerminal "constant-expression", .terminal ")"])]),
  ("preprocessing-file", fun _ => .diagram [.choice 0 [.optional (.nonTerminal "group"), .nonTerminal "module-file"]]),
  ("module-file", fun _ => .diagram [.optional (.nonTerminal "pp-global-module-fragment"), .nonTerminal "pp-module", .optional (.nonTerminal "group"), .optional (.nonTerminal "pp-private-module-fragment")]),
  ("pp-global-module-fragment", fun _ => .diagram [.terminal "module", .terminal ";", .nonTerminal "new-line", .optional (.nonTerminal "group")]),
  ("pp-private-module-fragment", fun _ => .diagram [.terminal "module", .terminal ":", .terminal "private", .terminal ";", .nonTerminal "new-line", .optional (.nonTerminal "group")]),
  ("group", fun _ => .diagram [.oneOrMore (.nonTerminal "group-part")]),
  ("group-part", fun _ => .diagram [.choice 0 [.nonTerminal "control-line", .nonTerminal "if-section", .nonTerminal "text-line", .sequence [.terminal "#", .nonTerminal "conditionally-supported-directive"]]]),
  ("control-line", fun _ => .diagram [.choice 0 [.sequence [.terminal "#", .terminal "include", .nonTerminal "pp-tokens", .nonTerminal "new-line"], .nonTerminal "pp-import", .sequence [.terminal "#", .terminal "define", .nonTerminal "identifier", .nonTerminal "replacement-list", .nonTerminal "new-line"], .sequence [.terminal "#", .terminal "define", .nonTerminal "identifier", .nonTerminal "lparen", .optional (.nonTerminal "identifier-list"), .terminal ")", .nonTerminal "replacement-list", .nonTerminal "new-line"], .sequence [.terminal "#", .terminal "define", .nonTerminal "identifier", .nonTerminal "lparen", .terminal "...", .terminal ")", .nonTerminal "replacement-list", .nonTerminal "new-line"], .sequence [.terminal "#", .terminal "define", .nonTerminal "identifier", .nonTerminal "lparen", .nonTerminal "identifier-list", .terminal ",", .terminal "...", .terminal ")", .nonTerminal "replacement-list", .nonTerminal "new-line"], .sequence [.terminal "#", .terminal "undef", .nonTerminal "identifier", .nonTerminal "new-line"], .sequence [.terminal "#", .terminal "line", .nonTerminal "pp-tokens", .nonTerminal "new-line"], .sequence [.terminal "#", .terminal "error", .optional (.nonTerminal "pp-tokens"), .nonTerminal "new-line"], .sequence [.terminal "#", .terminal "warning", .optional (.nonTerminal "pp-tokens"), .nonTerminal "new-line"], .sequence [.terminal "#", .terminal "pragma", .optional (.nonTerminal "pp-tokens"), .nonTerminal "new-line"], .sequence [.terminal "#", .nonTerminal "new-line"]]]),
  ("if-section", fun _ => .diagram [.nonTerminal "if-group", .optional (.nonTerminal "elif-groups"), .optional (.nonTerminal "else-group"), .nonTerminal "endif-line"]),
  ("if-group", fun _ => .diagram [.terminal "#", .choice 0 [.sequence [.terminal "if", .nonTerminal "constant-expression"], .sequence [.terminal "ifdef", .nonTerminal "identifier"], .sequence [.terminal "ifndef", .nonTerminal "identifier"]], .nonTerminal "new-line", .optional (.nonTerminal "group")]),
  ("elif-groups", fun _ => .diagram [.oneOrMore (.nonTerminal "elif-group")]),
  ("elif-group", fun _ => .diagram [.terminal "#", .choice 0 [.sequence [.terminal "elif", .nonTerminal "constant-expression"], .sequence [.terminal "elifdef", .nonTerminal "identifier"], .sequence [.terminal "elifndef", .nonTerminal "identifier"]], .nonTerminal "new-line", .optional (.nonTerminal "group")]),
  ("else-group", fun _ => .diagram [.terminal "#", .terminal "else", .nonTerminal "new-line", .optional (.nonTerminal "group")]),
  ("endif-line", fun _ => .diagram [.terminal "#", .terminal "endif", .nonTerminal "new-line"]),
  ("text-line", fun _ => .diagram [.optional (.nonTerminal "pp-tokens"), .nonTerminal "new-line"]),
  ("conditionally-supported-directive", fun _ => .diagram [.nonTerminal "pp-tokens", .nonTerminal "new-line"]),
  ("lparen", fun _ => .diagram [.comment "( not preceded by whitespace"]),
  ("identifier-list", fun _ => .diagram [.nonTerminal "identifier", .zeroOrMore (.sequence [.terminal ",", .nonTerminal "identifier"])]),
  ("replacement-list", fun _ => .diagram [.optional (.nonTerminal "pp-tokens")]),
  ("pp-tokens", fun _ => .diagram [.oneOrMore (.nonTerminal "preprocessing-token")]),
  ("new-line", fun _ => .diagram [.comment "the new-line character"]),
  ("defined-macro-expression", fun _ => .diagram [.terminal "defined", .choice 0 [.nonTerminal "identifier", .sequence [.terminal "(", .nonTerminal "identifier", .terminal ")"]]]),
  ("h-preprocessing-token", fun _ => .diagram [.comment "any preprocessing-token other than >"]),
  ("h-pp-tokens", fun _ => .diagram [.oneOrMore (.nonTerminal "h-preprocessing-token")]),
  ("header-name-tokens", fun _ => .diagram [.choice 0 [.nonTerminal "string-literal", .sequence [.terminal "<", .nonTerminal "h-pp-tokens", .terminal ">"]]]),
  ("has-include-expression", fun _ => .diagram [.terminal "__has_include", .terminal "(", .choice 0 [.nonTerminal "header-name", .nonTerminal "header-name-tokens"], .terminal ")"]),
  ("has-attribute-expression", fun _ => .diagram [.terminal "__has_cpp_attribute", .terminal "(", .nonTerminal "pp-tokens", .terminal ")"]),
  ("pp-module", fun _ => .diagram [.optional (.terminal "export"), .terminal "module", .optional (.nonTerminal "pp-tokens"), .terminal ";", .nonTerminal "new-line"]),
  ("pp-import", fun _ => .diagram [.optional (.terminal "export"), .terminal "import", .choice 0 [.nonTerminal "header-name", .nonTerminal "header-name-tokens", .nonTerminal "pp-tokens"], .optional (.nonTerminal "pp-tokens"), .terminal ";", .nonTerminal "new-line"]),
  ("va-opt-replacement", fun _ => .diagram [.terminal "__VA_OPT__", .terminal "(", .optional (.nonTerminal "pp-tokens"), .terminal ")"])
]

/-- The `rules` map of the catalog: insertion-ordered name/factory bindings. -/
def rules : List (String × (Unit → DiagramNode)) :=
  rulesChunk0 ++ rulesChunk1 ++ rulesChunk2 ++ rulesChunk3 ++ rulesChunk4 ++ rulesChunk5 ++ rulesChunk6 ++ rulesChunk7 ++ rulesChunk8

/-- SECTION_RULES: rule names listed per section, in source order. -/
def SECTION_RULES : List (String × List String) := [
  ("keywords", ["typedef-name", "namespace-name", "namespace-alias", "class-name", "enum-name", "template-name"]),
  ("lexical", ["n-char", "n-char-sequence", "named-universal-character", "hex-quad", "simple-hexadecimal-digit-sequence", "universal-character-name", "preprocessing-token", "token", "header-name", "h-char-sequence", "h-char", "q-char-sequence", "q-char", "pp-number", "identifier", "identifier-start", "identifier-continue", "nondigit", "digit", "keyword", "preprocessing-op-or-punc", "preprocessing-operator", "operator-or-punctuator"]),
  ("literals", ["literal", "integer-literal", "binary-literal", "octal-literal", "decimal-literal", "hexadecimal-literal", "binary-digit", "octal-digit", "nonzero-digit", "hexadecimal-prefix", "hexadecimal-digit-sequence", "hexadecimal-digit", "integer-suffix", "unsigned-suffix", "long-suffix", "long-long-suffix", "size-suffix", "character-literal", "encoding-prefix", "c-char-sequence", "c-char", "basic-c-char", "escape-sequence", "simple-escape-sequence", "simple-escape-sequence-char", "numeric-escape-sequence", "simple-octal-digit-sequence", "octal-escape-sequence", "hexadecimal-escape-sequence", "conditional-escape-sequence", "conditional-escape-sequence-char", "floating-point-literal", "decimal-floating-point-literal", "hexadecimal-floating-point-literal", "fractional-constant", "hexadecimal-fractional-constant", "exponent-part", "binary-exponent-part", "sign", "digit-sequence", "floating-point-suffix", "string-literal", "s-char-sequence", "s-char", "basic-s-char", "raw-string", "r-char-sequence", "r-char", "d-char-sequence", "d-char", "boolean-literal", "pointer-literal", "user-defined-literal", "user-defined-integer-literal", "user-defined-floating-point-literal", "user-defined-string-literal", "user-defined-character-literal", "ud-suffix"]),
  ("basics", ["translation-unit"]),
  ("expressions", ["primary-expression", "id-expression", "unqualified-id", "qualified-id", "nested-name-specifier", "lambda-expression", "lambda-introducer", "lambda-declarator", "lambda-specifier", "lambda-specifier-seq", "lambda-capture", "capture-default", "capture-list", "capture", "simple-capture", "init-capture", "fold-expression", "fold-operator", "requires-expression", "requirement-parameter-list", "requirement-body", "requirement-seq", "requirement", "simple-requirement", "type-requirement", "compound-requirement", "return-type-requirement", "nested-requirement", "postfix-expression", "expression-list", "unary-expression", "unary-operator", "await-expression", "noexcept-expression", "new-expression", "new-placement", "new-type-id", "new-declarator", "noptr-new-declarator", "new-initializer", "delete-expression", "cast-expression", "pm-expression", "multiplicative-expression", "additive-expression", "shift-expression", "compare-expression", "relational-expression", "equality-expression", "and-expression", "exclusive-or-expression", "inclusive-or-expression", "logical-and-expression", "logical-or-expression", "conditional-expression", "yield-expression", "throw-expression", "assignment-expression", "assignment-operator", "expression", "constant-expression"]),
  ("statements", ["statement", "init-statement", "condition", "label", "labeled-statement", "expression-statement", "compound-statement", "statement-seq", "label-seq", "selection-statement", "iteration-statement", "for-range-declaration", "for-range-initializer", "jump-statement", "coroutine-return-statement", "declaration-statement"]),
  ("declarations", ["declaration-seq", "declaration", "name-declaration", "special-declaration", "block-declaration", "nodeclspec-function-declaration", "alias-declaration", "simple-declaration", "static_assert-declaration", "empty-declaration", "attribute-declaration", "decl-specifier", "decl-specifier-seq", "storage-class-specifier", "function-specifier", "explicit-specifier", "type-specifier", "type-specifier-seq", "defining-type-specifier", "defining-type-specifier-seq", "simple-type-specifier", "type-name", "elaborated-type-specifier", "decltype-specifier", "placeholder-type-specifier", "init-declarator-list", "init-declarator", "declarator", "ptr-declarator", "noptr-declarator", "parameters-and-qualifiers", "trailing-return-type", "ptr-operator", "cv-qualifier-seq", "cv-qualifier", "ref-qualifier", "declarator-id", "type-id", "defining-type-id", "abstract-declarator", "ptr-abstract-declarator", "noptr-abstract-declarator", "abstract-pack-declarator", "noptr-abstract-pack-declarator", "parameter-declaration-clause", "parameter-declaration-list", "parameter-declaration", "initializer", "brace-or-equal-initializer", "initializer-clause", "braced-init-list", "initializer-list", "designated-initializer-list", "designated-initializer-clause", "designator", "expr-or-braced-init-list", "function-definition", "function-body", "enum-specifier", "enum-head", "enum-head-name", "opaque-enum-declaration", "enum-key", "enum-base", "enumerator-list", "enumerator-definition", "enumerator", "using-enum-declaration", "using-enum-declarator", "namespace-definition", "named-namespace-definition", "unnamed-namespace-definition", "nested-namespace-definition", "enclosing-namespace-specifier", "namespace-body", "namespace-alias-definition", "qualified-namespace-specifier", "using-directive", "using-declaration", "using-declarator-list", "using-declarator", "asm-declaration", "linkage-specification", "attribute-specifier-seq", "attribute-specifier", "alignment-specifier", "attribute-using-prefix", "attribute-list", "attribute", "attribute-token", "attribute-scoped-token", "attribute-namespace", "attribute-argument-clause", "balanced-token-seq", "balanced-token"]),
  ("modules", ["module-declaration", "module-name", "module-partition", "module-name-qualifier", "export-declaration", "module-import-declaration", "global-module-fragment", "private-module-fragment"]),
  ("classes", ["class-specifier", "class-head", "class-head-name", "class-virt-specifier", "class-key", "member-specification", "member-declaration", "member-declarator-list", "member-declarator", "virt-specifier-seq", "virt-specifier", "pure-specifier", "conversion-function-id", "conversion-type-id", "conversion-declarator", "base-clause", "base-specifier-list", "base-specifier", "class-or-decltype", "access-specifier", "ctor-initializer", "mem-initializer-list", "mem-initializer", "mem-initializer-id"]),
  ("overloading", ["operator-function-id", "operator", "literal-operator-id"]),
  ("templates", ["template-declaration", "template-head", "template-parameter-list", "requires-clause", "constraint-logical-or-expression", "constraint-logical-and-expression", "template-parameter", "type-parameter", "type-parameter-key", "type-constraint", "simple-template-id", "template-id", "template-argument-list", "template-argument", "constraint-expression", "deduction-guide", "concept-definition", "concept-name", "typename-specifier", "explicit-instantiation", "explicit-specialization"]),
  ("exceptions", ["try-block", "function-try-block", "handler-seq", "handler", "exception-declaration", "noexcept-specifier"]),
  ("preprocessing", ["preprocessing-file", "module-file", "pp-global-module-fragment", "pp-private-module-fragment", "group", "group-part", "control-line", "if-section", "if-group", "elif-groups", "elif-group", "else-group", "endif-line", "text-line", "conditionally-supported-directive", "lparen", "identifier-list", "replacement-list", "pp-tokens", "new-line", "defined-macro-expression", "h-preprocessing-token", "h-pp-tokens", "header-name-tokens", "has-include-expression", "has-attribute-expression", "pp-module", "pp-import", "va-opt-replacement"])
]

/-- `createRuleDiagram`: `factory ? factory() : undefined`. -/
def createRuleDiagram (name : String) : Option DiagramNode :=
  (mapGet rules name).map (fun factory => factory ())

/-- `getRuleNames`: `Array.from(rules.keys())` in insertion order. -/
def getRuleNames : List String :=
  rules.map Prod.fst

end Grammar2


namespace App

/-!
Embedding of the search filter in `App.tsx`.  Query and names are
JavaScript strings; `trim`, `toLowerCase` and `includes` are modelled on
the character lists underlying Lean strings.
-/

/-- JS `String.prototype.trim`: drop leading and trailing whitespace. -/
def jsTrim (s : List Char) : List Char :=
  ((s.dropWhile Char.isWhitespace).reverse.dropWhile Char.isWhitespace).reverse

/-- JS `String.prototype.includes`: substring (infix) containment. -/
def jsIncludes (haystack needle : List Char) : Bool :=
  decide (needle <:+: haystack)

/-- `filterNames` from `App.tsx`:

```ts
const q = query.trim().toLowerCase();
if (!q) return names;
return names.filter((n) => n.toLowerCase().includes(q));
```
-/
def filterNames (query : String) (names : List String) : List String :=
  let q : List Char := (jsTrim query.data).map Char.toLower
  if q.isEmpty then names
  else names.filter (fun n => jsIncludes (n.data.map Char.toLower) q)

/-- `jsTrim` agrees with dropping a whitespace prefix and then a
whitespace suffix, phrased with Mathlib's `rdropWhile`. -/
theorem jsTrim_eq (l : List Char) :
    jsTrim l = (l.dropWhile Char.isWhitespace).rdropWhile Char.isWhitespace := rfl

/-- The first element surviving `dropWhile p` does not satisfy `p`. -/
theorem head?_dropWhile_not {α : Type} (p : α → Bool) (l : List α) :
    ∀ a, (l.dropWhile p).head? = some a → p a = false := by
  induction l with
  | nil => intro a h; simp at h
  | cons x xs ih =>
    intro a h
    rw [List.dropWhile_cons] at h
    by_cases hx : p x
    · rw [if_pos hx] at h
      exact ih a h
    · rw [if_neg hx] at h
      simp only [List.head?_cons, Option.some.injEq] at h
      rw [← h]
      exact Bool.of_not_eq_true hx

/-- A trimmed list has no leading whitespace left to drop. -/
theorem dropWhile_jsTrim (l : List Char) :
    (jsTrim l).dropWhile Char.isWhitespace = jsTrim l := by
  rw [jsTrim_eq]
  rcases hB : (l.dropWhile Char.isWhitespace).rdropWhile Char.isWhitespace
    with _ | ⟨b, B⟩
  · rfl
  · rw [List.dropWhile_eq_self_iff]
    intro hl
    show ¬Char.isWhitespace b = true
    obtain ⟨t, ht⟩ := List.rdropWhile_prefix Char.isWhitespace
      (l.dropWhile Char.isWhitespace)
    rw [hB] at ht
    have hb := head?_dropWhile_not Char.isWhitespace l b (by rw [← ht]; rfl)
    simp [hb]

/-- JS `trim` is idempotent. -/
theorem jsTrim_idem (l : List Char) : jsTrim (jsTrim l) = jsTrim l := by
  rw [jsTrim_eq (jsTrim l), dropWhile_jsTrim, jsTrim_eq l,
    List.rdropWhile_idempotent]

end App

namespace Svg

/-!
Embedding of `diagramToSvgString`.  The function receives an arbitrary
JavaScript value; `JsDiagram` reifies the shapes that its runtime tests
distinguish, and what calling `toSVG()` / `toString()` on that value
would produce.
-/

/-- A thrown JavaScript exception as observed by the catch block:
`e?.message` (absent when the thrown value has no `message` property)
and the coercion `String(e)`. -/
structure JsError where
  message : Option String
  asString : String

/-- What `diagram.toSVG()` comes back with: a string; a DOM element
(with its optional `outerHTML` and its `XMLSerializer` serialization);
some other value; or a thrown exception. -/
inductive SvgOutcome where
  | str (s : String)
  | element (outerHTML : Option String) (serialized : String)
  | other
  | throwsErr (e : JsError)

/-- The runtime shapes `diagramToSvgString` distinguishes in its
argument: the falsy `null`/`undefined`, an object with a callable
`toSVG`, an object with only a callable `toString` (which may itself
throw), and an object with neither method. -/
inductive JsDiagram where
  | jsNull
  | jsUndefined
  | withToSVG (outcome : SvgOutcome)
  | toStringOnly (outcome : Except JsError String)
  | noMethods

/-- The `<!-- Render error: ... -->` marker built in the catch block. -/
def renderErrorMarker (e : JsError) : String :=
  "<!-- Render error: " ++ (e.message.getD e.asString) ++ " -->"

/-- Shallow embedding of `diagramToSvgString` from the renderer glue. -/
def diagramToSvgString : JsDiagram → String
  | .jsNull => "<!-- empty diagram -->"
  | .jsUndefined => "<!-- empty diagram -->"
  | .withToSVG (.str s) => s
  | .withToSVG (.element outerHTML serialized) => outerHTML.getD serialized
  | .withToSVG .other => "<!-- toSVG() returned unexpected value -->"
  | .withToSVG (.throwsErr e) => renderErrorMarker e
  | .toStringOnly (.ok s) => s
  | .toStringOnly (.error e) => renderErrorMarker e
  | .noMethods => "<!-- Diagram does not support toSVG/toString -->"

end Svg

/-- Shape of a diagram tree: the variant kind together with the shapes
of the children, forgetting all text labels and the choice index. -/
inductive NodeShape where
  | mk (kind : String) (children : List NodeShape)

/-- Extract the shape (variant kinds and child counts) of a tree. -/
def nodeShape : DiagramNode → NodeShape
  | .terminal _ => .mk "Terminal" []
  | .nonTerminal _ => .mk "NonTerminal" []
  | .sequence cs => .mk "Sequence" (cs.attach.map (fun c => nodeShape c.1))
  | .choice _ alts => .mk "Choice" (alts.attach.map (fun c => nodeShape c.1))
  | .optional inner => .mk "Optional" [nodeShape inner]
  | .zeroOrMore inner => .mk "ZeroOrMore" [nodeShape inner]
  | .oneOrMore inner => .mk "OneOrMore" [nodeShape inner]
  | .stack rows => .mk "Stack" (rows.attach.map (fun c => nodeShape c.1))
  | .comment _ => .mk "Comment" []
  | .diagram items => .mk "Diagram" (items.attach.map (fun c => nodeShape c.1))
decreasing_by
  all_goals simp_wf
  all_goals (have hlt := List.sizeOf_lt_of_mem c.2; omega)

/-- Recognizer for the `No factory defined for ...` placeholder diagram
that `Grammar1.createRuleDiagram` builds for unknown names. -/
def isNoFactoryPlaceholder : DiagramNode → Bool
  | .diagram [.comment s] => "No factory defined for ".data.isPrefixOf s.data
  | _ => false

/-- A key absent from the key list is absent from the map. -/
theorem mapGet_eq_none_of_not_mem_keys {α : Type} (m : List (String × α))
    (k : String) (h : k ∉ m.map Prod.fst) : mapGet m k = none := by
  rw [mapGet_eq_none_iff]
  intro v hv
  exact h (List.mem_map.2 ⟨(k, v), hv, rfl⟩)

/-!
Concrete facts about the shipped catalogs, established by evaluation.
-/

/-- Numeric encoding of a string, used to make duplicate-freeness checks
cheap to evaluate (distinctness of the encodings on the concrete key
lists is what is checked, so no injectivity assumption is needed). -/
def strCode (s : String) : Nat :=
  s.data.foldl (fun acc c => acc * 128 + c.toNat) 0

/-- Precomputed `strCode` values, for cheap duplicate checking. -/
def g1KeyCodes : List Nat := [
  17673316322746770411517669, 274239653437684786543277405925, 35102675640023652677536041300211, 920951167689231464165, 7340259821672232677, 2259158735019052724771124965,
  3791860150514, 34973736879918076729575924806117, 41441924703738311965488206880656459882175452338270962, 58995133340545252, 3122690258712317329214035975407681933918662291368880482269364213232101, 344522237278123973140890845869803077845939129972453,
  9604201271193275550543649719014550860526, 31373062894, 123720135460082148734693, 33072260979575732627330869998053, 3585701720306, 35924474830089248780698452210149,
  3894939365618, 8133702650332492530, 975717169018087043826, 4291249491024269604572701746821492, 8999402452600529049768841585007890512613, 62416484675745012,
  27065447668, 474094042347876, 329997842911813963077610964509130602691345491261283, 20141469904285520207373716095527992811839109106, 19960276508416656599246104355427071225161922546, 478628147933420,
  33550434216184220722919924084972, 244683981384503214089868980460, 2162150563756434777087717612, 31943259828877995644872749265132, 8915094596085285418246863599969136062700, 14934325035675242852906228,
  131967197494897435866356, 2144614285941050787745101044, 69649176531916292330053622014582306040, 5018752087612801744659540956323458149025429355178471909, 544134191655596033828543918748857588, 262112767313939224641521956088,
  37353367278600809185781401367800, 128535673854655760807160, 4416452124592231095220442383365368, 136745338532685059568888, 518287154861243191790980690513539308, 32282456295785193430453552002296,
  31487697729290445875459990991333, 3413903028466, 14924926987253779952972018, 32294833594683392126175749583333, 20664230728120215991012124248137920367671620069, 710017561394196761902826428681927655012815230921827037426,
  2532982470055936754392473527544354925875920876005, 710017561394196869443352633792248930914018181004593443301, 155799367572036006300201007582674826437571045, 642400267214438623316421242750995509528851110439841149413, 612225528695324026330473148238655880566322918904477495781, 21035908988181809929699400479129496080243511165359927938791272755442,
  18349155124550681007263407311334520704787591404, 1295772559850351345449493540900778097097863616692235541193470188, 361639200506206605298013608170342636093028633385675413625226044915888364, 8753474057980049029753328880684554024820, 172443008664229681633955768670345849601422981723557124650992957300, 1971891269830957697521449332,
  1076131530651150311122636340435255387781492, 242906094, 249634693189295281040615256549, 143352774410552195369245369619801186716202232, 286987327533910566384963465452, 36558300130203363481446803812837,
  3963658842354, 14924926987254329708785906, 1058521191762422822759, 36241387480146306131072628011493, 3929299103986, 31804610379347503225834166792677,
  3448262766834, 31334425887209548063358649676012, 35771087251107178897138373144812, 1283868019593959781440562428871767486148844, 92512440554180062862979235207408980622839499511692879769836, 52079874100867561697013916544376278182394280992285788458855303821681012972,
  722753441829531741117025275082757221335904931922252181740, 1515723826039686149947051789606785579187883279466236796454351084, 8487235392865154296, 4741889375737471599187074542712052, 75032983697707669688562394440448767982, 2046161016591734442114578414,
  291822893744231281960050980068, 17215108930550286173041892, 154427276591552239659570174716956275549827826, 564737636248967330969472657893521390, 564737636248967367144637004321977074, 564737636248967320369661458899613682,
  4412012783195058277452829182030578, 1184340663334794605654624719968485307642609, 269287889599307685311037667685, 31616696786951162917164813219444, 15076015847659665561909748, 438769809193317,
  286773809256571578408735963493, 15997993299237219025647973, 32602017183997137395836037789678, 1989869212896044217704200178, 9765764980222795791748858385661649647598, 5497636940739902322682624831468252486096491888542120436,
  4656679620849034762978701002666617, 36380309537883084085771101860593, 135527214176517293176692, 76980258256644830392629159420094936948, 4744144717832750849682167700223860, 1087530403090655528521882715286479505553268,
  2621481757807348060078326291182205184643392173940, 73636663718963742085020850732412794740, 75017814685917852597588578834904152046, 32307467007761750279445712370164, 4781186622548153444247591425046510, 291820472567641912555824035826,
  3972742277411703481677324563937262, 9432066565479487692324698628429803321326, 274318469605741643397030639598, 2143113044580668237908899700, 130805239555437194081508, 274318469595141832198036731890,
  1207311810956883756435818365508014802024434, 35112764114164559857034492556018, 523361211482597574690703923801126894, 31616754730269410764742251411438, 2182920749935639367503214574, 41126220197898956742295730342890192342210604594526190,
  8318832323638006365817048192062397773806, 4698175082404496981266010973304814, 66377588044541869101788463187239794670, 160001854847485017054688235721677177135724526, 8667842614524251352329118346113504147438, 242303242703524678106521171950,
  2327980158710436405135734328356409467355847620590, 2417539951427735387672141772939365287163864971246, 19423685840743601770619603849997147719576745966, 151747545630809389104305086915880612794103790, 17818107988432865424852153177236011648919697390, 4941871120417086844436695393925102,
  4738762359071172665820940758317038, 136460360318183214259941111983163793120851950, 8328879413951612198482739479628346111986, 940271042280415721454, 8496336589672110539761835239015095891950, 8352356132542052212,
  262111122215866148094935136116, 7196676504105416686, 29196071660, 564734157792868322543575008517126004, 1110076113719485564879506075614686467422068, 66377588079263643098339874510835644276,
  2242068527113322224800297713, 7837260809557046001, 9850808959535183119449037168675365943156, 9010036432832038480873295811453925291892, 143385662158914794560104430067453201252775918, 143385662158914794560110416472788887043748594,
  264723001726777071557242615668, 4783023888281782966916190013231187330610974419765000052, 140487944375906147805494742039821814106519412, 31943260268214123199298851894001, 118997917578421992060910, 4493142471330796419306075769698286,
  9858083288158834220710191233267922532334, 513261517103686189111903068278650862, 182442585511904438889837102984726013582673081527763066808392382446, 508067313972233366908421761660516334, 76980258256644813863332561324793821166, 43367912513827976954439715055851213490797489923192814,
  528879331771908751692299107649091566, 136471340415942783698743280418500160899413998, 249556720365887927242930680562, 66989872029281612594350920013147075313, 2646986807213920851863048872968830105424638931698, 68402620311194431992191279268972098290,
  67753667158378206305046459268441207538, 289559614125612306126138405618, 77728067056992780674181556431277060849, 2301758630477466945753344817172851534087390393074, 617873627574154337308226379523031032373048184014934700785, 161439302563439224686008887836882643262796530,
  8427293916618323685, 38106503416655715541598801485999311360127918552019698, 66989872205185154554222021236148040434, 5404427800542698151328156483981432963012898257435783922, 1152776906578253467702378303464379233499636, 33550223643491436602267736553458,
  929671231081421813746, 279559616370353605156328519666, 4497586976576071212765085125392370, 42190327021397168553588311600137223480404492861143411, 1272891210631286685860370057095338096752741, 17062964872595488487847922,
  4053426412367242305947083327992561, 15100190089520969636541170, 2220464227055576763013427954, 1949661881604865919541802212, 514361200964836, 4088744685897202205910163316765924,
  8317581425654113165228790003101444421618, 2578482348007045847627177598291430288298830804978, 41482917953073693670304610099751836094162976265549810, 285789921640011771624118627435514603760807973828594, 1425342207608822215935044053891727262971126611501356283682699250, 88479528693577114820576467523257126738691517283787903695333,
  5400361858738837574498075410355049239422089677984397812, 157171215941746415759497188565875672485623790, 124984322914107783033586, 4736205867846578518628921549582619943866889421985854194, 70359918762891194551280215749807667685, 4011722415109521889268015163931124,
  4294428635430370761186536624650740, 617878491292625689732927130025047014380538602464596359668, 10123321201338379300584278098330370283610744462779638286744037, 929680225291621709810, 297983787170870703126849163845485956384602086603252, 8755535399832887294861341121852049356782,
  1990778264333331957196518009, 252209407026168948026941010674, 7340259821659713764, 252209407025370104469120382693, 2554909808693096096892758403239412081171071924206, 57345779856765689,
  7340259821647067621, 32282804165452460368995861297652, 141981274228521871695435002149384289773058030, 939553259099264989170, 21034936887150074133834136099170124344271206382, 164335444430859954170579188274766596439619570,
  1206118751007979655331868214024835945887726, 5304566362078426604985361871548333032690474794692016110, 92482215484373275695381078368229805709321884063841981724654, 679178345032768736474532706147595164027159767897576470510, 10230718635521669737045227018377248388305147105352671179731698, 274239653437684786543252468345,
  5304566364847759006396015961162756108870747522068019182, 11441402370487181694913273659438696107524923078284531522499314, 37365554005841573784745213066085, 612197236831708306918845295596566510, 164335444430859614626748191916945597284383220, 4782790912747721147803478871848946,
  31027368550405261273513638655982, 151682808229587253233305932785113179438610414, 2235946441374806568120501713125158750420289254129, 8329549585934007794113836113829757088498, 8324175114083900524335811095928709477106, 17468331573240676313441725444704813884445930744,
  242421798929979785872661969396, 7055402935074519653, 31029990263037412591702892016366, 17468331573240676313441404379267439848882631406, 8329549585934007794113467416866062889445, 36633746495484830812080600633312153909442873416055269,
  65640236604017328659789886626633413361, 244528936609690370633415455470, 73023364551631659765611443942283966446, 129715553057308723934949, 4456992465309550408746509226637294, 153141095016183463223703517595663227342713586,
  67753668131718819688531136957820598254, 41108499673008532069476691061723617062772481873049582, 18527561158594794004653519815197210331632465780, 2578113786826191789647646239258764295430754367348, 262092831946331175402394614116, 272033231525241091964186392932,
  252402082576300307937949907300, 31643641171506456936697768342258, 920951167689218945252, 31643641171505658093139947714277, 1087267231663842170992160026365282072818418, 7194930997572072185,
  1195569981489137909207189397817916015671278, 72971800627999122155788631939925833710, 19588218576718030723488824454410182252262226420, 570092192406243141842098687030671346, 78974304186369304767570826951932048113, 294202209213261696575473349362,
  279579024790328831317057893106, 17818109517035079733222393851211033016808469732, 66377630520742683608913460435465499876, 139203980601836560415799932356767099610019826, 116600989600483781736933, 8401986773092009454718093396526115748340,
  244529998543788954112623276786, 518449416953957082496437429984983141, 3966408898730475837673783514788594, 4052956003624257786335999307985650, 1195569706458544604175388142103316387232244, 34795658035976364165992363766514,
  72971783841463904063439217657673118948, 1218278595484415075626986633487647123404004, 62983527179565042, 9258014816496675004716860565410068264164, 1271793304650325870471004137458885251987438, 2259158735019052724758606052,
  2667143872434040199939642712429728209934235630068, 36380309537883087216800222247397, 21035910503304595976003542966705108743531693667522906291765419603950, 2692596544422988284928453499738253919172022057995656769775255640766446, 77624103067036491118477503548775805682, 289559614125387746201680294642,
  77728067056932500828460317858535764729, 37063630607930734311261488183156, 76980258256644832753521368343031543012, 137888106385440229782756, 20837061503390939061740872659476008679476197876, 606438305211222586854735641375766388,
  139203978685873315170311402247395323043018734, 31943280973448987751055298818661, 66377624499363727076752772613789087726, 15092524449611057018205925, 77728067217576361300713721266460848882, 18187486539331478029763507716824303658652563438,
  2327998277034429187834524338548049988968687237102, 8423390939440738795, 68402620311194431992264548866554851819, 123684178751015257699057, 460759471174386, 142088628055572362615387122737060978177505262,
  73688020042808497597290961858650075890, 75032822431197465238622263429771720293, 129715553057308707288677, 42232597458213677610322043545587532969686353971869556, 5405772681237309260179378625830907133641226290198050676, 27889761008,
  958284891393244035444, 15092525681903832128976741, 975829780482026534894, 59559919931357936, 120243501542190071249011, 939402355798359931632,
  939407980899847633648, 939543671373731362661, 8416070617313998693, 2692596350487271671001534528019228976180378193554596105857744649223013, 3741121819374, 33525386648627106285724217539060,
  4656676969657003473786159723346420, 8133702854876166003, 62372798690654053, 294625104700768541986383138286550773524651621119982, 145454454600086395082919971856635110564229870, 123204713999124116633459,
  69648244494531656717292765994985027443, 18690674410590140139098747895446057469869717486, 306228009456518322761989701106033440936933730187246, 8133702614343579237, 8133702476392823156, 78929965420305670620998403775276873588
]

/-- Precomputed `strCode` values, for cheap duplicate checking. -/
def ebnfKeyCodes : List Nat := [
  17673316322746770411517669, 274239653437684786543277405925, 35102675640023652677536041300211, 920951167689231464165, 7340259821672232677, 2259158735019052724771124965,
  3791860150514, 34973736879918076729575924806117, 41441924703738311965488206880656459882175452338270962, 58995133340545252, 3122690258712317329214035975407681933918662291368880482269364213232101, 344522237278123973140890845869803077845939129972453,
  9604201271193275550543649719014550860526, 31373062894, 123720135460082148734693, 33072260979575732627330869998053, 3585701720306, 35924474830089248780698452210149,
  3894939365618, 8133702650332492530, 975717169018087043826, 4291249491024269604572701746821492, 8999402452600529049768841585007890512613, 62416484675745012,
  27065447668, 474094042347876, 329997842911813963077610964509130602691345491261283, 20141469904285520207373716095527992811839109106, 19960276508416656599246104355427071225161922546, 478628147933420,
  33550434216184220722919924084972, 244683981384503214089868980460, 2162150563756434777087717612, 31943259828877995644872749265132, 8915094596085285418246863599969136062700, 14934325035675242852906228,
  131967197494897435866356, 2144614285941050787745101044, 69649176531916292330053622014582306040, 5018752087612801744659540956323458149025429355178471909, 544134191655596033828543918748857588, 262112767313939224641521956088,
  37353367278600809185781401367800, 128535673854655760807160, 4416452124592231095220442383365368, 136745338532685059568888, 518287154861243191790980690513539308, 32282456295785193430453552002296,
  31487697729290445875459990991333, 3413903028466, 14924926987253779952972018, 32294833594683392126175749583333, 20664230728120215991012124248137920367671620069, 710017561394196761902826428681927655012815230921827037426,
  2532982470055936754392473527544354925875920876005, 710017561394196869443352633792248930914018181004593443301, 155799367572036006300201007582674826437571045, 642400267214438623316421242750995509528851110439841149413, 612225528695324026330473148238655880566322918904477495781, 21035908988181809929699400479129496080243511165359927938791272755442,
  18349155124550681007263407311334520704787591404, 1295772559850351345449493540900778097097863616692235541193470188, 361639200506206605298013608170342636093028633385675413625226044915888364, 8753474057980049029753328880684554024820, 172443008664229681633955768670345849601422981723557124650992957300, 1971891269830957697521449332,
  1076131530651150311122636340435255387781492, 242906094, 249634693189295281040615256549, 143352774410552195369245369619801186716202232, 286987327533910566384963465452, 36558300130203363481446803812837,
  3963658842354, 14924926987254329708785906, 1058521191762422822759, 36241387480146306131072628011493, 3929299103986, 31804610379347503225834166792677,
  3448262766834, 31334425887209548063358649676012, 35771087251107178897138373144812, 1283868019593959781440562428871767486148844, 92512440554180062862979235207408980622839499511692879769836, 52079874100867561697013916544376278182394280992285788458855303821681012972,
  722753441829531741117025275082757221335904931922252181740, 1515723826039686149947051789606785579187883279466236796454351084, 8487235392865154296, 4741889375737471599187074542712052, 75032983697707669688562394440448767982, 2046161016591734442114578414,
  291822893744231281960050980068, 17215108930550286173041892, 154427276591552239659570174716956275549827826, 564737636248967330969472657893521390, 564737636248967367144637004321977074, 564737636248967320369661458899613682,
  4412012783195058277452829182030578, 1184340663334794605654624719968485307642609, 269287889599307685311037667685, 31616696786951162917164813219444, 15076015847659665561909748, 438769809193317,
  286773809256571578408735963493, 15997993299237219025647973, 32602017183997137395836037789678, 1989869212896044217704200178, 9765764980222795791748858385661649647598, 5497636940739902322682624831468252486096491888542120436,
  4656679620849034762978701002666617, 36380309537883084085771101860593, 135527214176517293176692, 76980258256644830392629159420094936948, 4744144717832750849682167700223860, 1087530403090655528521882715286479505553268,
  2621481757807348060078326291182205184643392173940, 73636663718963742085020850732412794740, 75017814685917852597588578834904152046, 32307467007761750279445712370164, 4781186622548153444247591425046510, 291820472567641912555824035826,
  3972742277411703481677324563937262, 9432066565479487692324698628429803321326, 274318469605741643397030639598, 2143113044580668237908899700, 130805239555437194081508, 274318469595141832198036731890,
  1207311810956883756435818365508014802024434, 35112764114164559857034492556018, 523361211482597574690703923801126894, 31616754730269410764742251411438, 2182920749935639367503214574, 41126220197898956742295730342890192342210604594526190,
  8318832323638006365817048192062397773806, 4698175082404496981266010973304814, 66377588044541869101788463187239794670, 160001854847485017054688235721677177135724526, 8667842614524251352329118346113504147438, 242303242703524678106521171950,
  2327980158710436405135734328356409467355847620590, 2417539951427735387672141772939365287163864971246, 19423685840743601770619603849997147719576745966, 151747545630809389104305086915880612794103790, 17818107988432865424852153177236011648919697390, 4941871120417086844436695393925102,
  4738762359071172665820940758317038, 136460360318183214259941111983163793120851950, 8328879413951612198482739479628346111986, 940271042280415721454, 8496336589672110539761835239015095891950, 8352356132542052212,
  262111122215866148094935136116, 7196676504105416686, 29196071660, 564734157792868322543575008517126004, 1110076113719485564879506075614686467422068, 66377588079263643098339874510835644276,
  2242068527113322224800297713, 7837260809557046001, 9850808959535183119449037168675365943156, 9010036432832038480873295811453925291892, 143385662158914794560104430067453201252775918, 143385662158914794560110416472788887043748594,
  264723001726777071557242615668, 4783023888281782966916190013231187330610974419765000052, 140487944375906147805494742039821814106519412, 31943260268214123199298851894001, 118997917578421992060910, 4493142471330796419306075769698286,
  9858083288158834220710191233267922532334, 513261517103686189111903068278650862, 182442585511904438889837102984726013582673081527763066808392382446, 508067313972233366908421761660516334, 76980258256644813863332561324793821166, 43367912513827976954439715055851213490797489923192814,
  528879331771908751692299107649091566, 136471340415942783698743280418500160899413998, 249556720365887927242930680562, 66989872029281612594350920013147075313, 2646986807213920851863048872968830105424638931698, 68402620311194431992191279268972098290,
  67753667158378206305046459268441207538, 289559614125612306126138405618, 77728067056992780674181556431277060849, 2301758630477466945753344817172851534087390393074, 617873627574154337308226379523031032373048184014934700785, 161439302563439224686008887836882643262796530,
  8427293916618323685, 38106503416655715541598801485999311360127918552019698, 66989872205185154554222021236148040434, 5404427800542698151328156483981432963012898257435783922, 1152776906578253467702378303464379233499636, 33550223643491436602267736553458,
  929671231081421813746, 279559616370353605156328519666, 4497586976576071212765085125392370, 42190327021397168553588311600137223480404492861143411, 1272891210631286685860370057095338096752741, 17062964872595488487847922,
  4053426412367242305947083327992561, 15100190089520969636541170, 2220464227055576763013427954, 1949661881604865919541802212, 514361200964836, 4088744685897202205910163316765924,
  8317581425654113165228790003101444421618, 2578482348007045847627177598291430288298830804978, 41482917953073693670304610099751836094162976265549810, 285789921640011771624118627435514603760807973828594, 1425342207608822215935044053891727262971126611501356283682699250, 88479528693577114820576467523257126738691517283787903695333,
  5400361858738837574498075410355049239422089677984397812, 157171215941746415759497188565875672485623790, 124984322914107783033586, 4736205867846578518628921549582619943866889421985854194, 70359918762891194551280215749807667685, 4011722415109521889268015163931124,
  4294428635430370761186536624650740, 617878491292625689732927130025047014380538602464596359668, 10123321201338379300584278098330370283610744462779638286744037, 929680225291621709810, 297983787170870703126849163845485956384602086603252, 8755535399832887294861341121852049356782,
  1990778264333331957196518009, 252209407026168948026941010674, 7340259821659713764, 252209407025370104469120382693, 2554909808693096096892758403239412081171071924206, 57345779856765689,
  7340259821647067621, 32282804165452460368995861297652, 141981274228521871695435002149384289773058030, 939553259099264989170, 21034936887150074133834136099170124344271206382, 164335444430859954170579188274766596439619570,
  1206118751007979655331868214024835945887726, 5304566362078426604985361871548333032690474794692016110, 92482215484373275695381078368229805709321884063841981724654, 679178345032768736474532706147595164027159767897576470510, 10230718635521669737045227018377248388305147105352671179731698, 274239653437684786543252468345,
  5304566364847759006396015961162756108870747522068019182, 11441402370487181694913273659438696107524923078284531522499314, 37365554005841573784745213066085, 612197236831708306918845295596566510, 164335444430859614626748191916945597284383220, 4782790912747721147803478871848946,
  31027368550405261273513638655982, 151682808229587253233305932785113179438610414, 2235946441374806568120501713125158750420289254129, 8329549585934007794113836113829757088498, 8324175114083900524335811095928709477106, 17468331573240676313441725444704813884445930744,
  242421798929979785872661969396, 7055402935074519653, 31029990263037412591702892016366, 17468331573240676313441404379267439848882631406, 8329549585934007794113467416866062889445, 36633746495484830812080600633312153909442873416055269,
  65640236604017328659789886626633413361, 244528936609690370633415455470, 73023364551631659765611443942283966446, 129715553057308723934949, 4456992465309550408746509226637294, 153141095016183463223703517595663227342713586,
  67753668131718819688531136957820598254, 41108499673008532069476691061723617062772481873049582, 18527561158594794004653519815197210331632465780, 2578113786826191789647646239258764295430754367348, 31643641171506456936697768342258, 920951167689218945252,
  31643641171505658093139947714277, 1087267231663842170992160026365282072818418, 7194930997572072185, 1195569981489137909207189397817916015671278, 72971800627999122155788631939925833710, 19588218576718030723488824454410182252262226420,
  570092192406243141842098687030671346, 78974304186369304767570826951932048113, 294202209213261696575473349362, 279579024790328831317057893106, 17818109517035079733222393851211033016808469732, 66377630520742683608913460435465499876,
  139203980601836560415799932356767099610019826, 116600989600483781736933, 8401986773092009454718093396526115748340, 244529998543788954112623276786, 518449416953957082496437429984983141, 3966408898730475837673783514788594,
  4052956003624257786335999307985650, 1195569706458544604175388142103316387232244, 34795658035976364165992363766514, 72971783841463904063439217657673118948, 1218278595484415075626986633487647123404004, 62983527179565042,
  9258014816496675004716860565410068264164, 1271793304650325870471004137458885251987438, 2259158735019052724758606052, 2667143872434040199939642712429728209934235630068, 36380309537883087216800222247397, 21035910503304595976003542966705108743531693667522906291765419603950,
  2692596544422988284928453499738253919172022057995656769775255640766446, 77624103067036491118477503548775805682, 289559614125387746201680294642, 77728067056932500828460317858535764729, 37063630607930734311261488183156, 76980258256644832753521368343031543012,
  137888106385440229782756, 20837061503390939061740872659476008679476197876, 606438305211222586854735641375766388, 139203978685873315170311402247395323043018734, 31943280973448987751055298818661, 66377624499363727076752772613789087726,
  15092524449611057018205925, 77728067217576361300713721266460848882, 18187486539331478029763507716824303658652563438, 2327998277034429187834524338548049988968687237102, 8423390939440738795, 68402620311194431992264548866554851819,
  123684178751015257699057, 460759471174386, 142088628055572362615387122737060978177505262, 73688020042808497597290961858650075890, 75032822431197465238622263429771720293, 129715553057308707288677,
  42232597458213677610322043545587532969686353971869556, 5405772681237309260179378625830907133641226290198050676, 27889761008, 958284891393244035444, 15092525681903832128976741, 975829780482026534894,
  59559919931357936, 120243501542190071249011, 939402355798359931632, 939407980899847633648, 939543671373731362661, 8416070617313998693,
  2692596350487271671001534528019228976180378193554596105857744649223013, 3741121819374, 33525386648627106285724217539060, 4656676969657003473786159723346420, 8133702854876166003, 62372798690654053,
  294625104700768541986383138286550773524651621119982, 145454454600086395082919971856635110564229870, 123204713999124116633459, 69648244494531656717292765994985027443, 18690674410590140139098747895446057469869717486, 306228009456518322761989701106033440936933730187246,
  8133702614343579237, 8133702476392823156, 78929965420305670620998403775276873588
]

/-- The EBNF keys hash to the precomputed code list. -/
theorem ebnf_codes_eq : Ebnf.getEbnfRuleNames.map strCode = ebnfKeyCodes := by
  decide

/-- The first catalog's keys hash to the precomputed code list. -/
theorem g1_codes_eq : (Grammar1.rules.map Prod.fst).map strCode = g1KeyCodes := by
  decide

/-- Boolean duplicate check used to evaluate duplicate-freeness. -/
def nodupCheck : List Nat → Bool
  | [] => true
  | x :: xs => xs.all (fun y => x != y) && nodupCheck xs

/-- A list passing `nodupCheck` has no duplicates. -/
theorem nodupCheck_sound : ∀ l : List Nat, nodupCheck l = true → l.Nodup := by
  intro l
  induction l with
  | nil => intro _; exact List.nodup_nil
  | cons x xs ih =>
    intro h
    rw [nodupCheck, Bool.and_eq_true] at h
    refine List.nodup_cons.2 ⟨?_, ih h.2⟩
    intro hmem
    have hx := List.all_eq_true.1 h.1 x hmem
    simp at hx

/-- The precomputed EBNF code list is duplicate-free. -/
theorem ebnfKeyCodes_nodup : ebnfKeyCodes.Nodup :=
  nodupCheck_sound _ (by decide)

/-- The precomputed first-catalog code list is duplicate-free. -/
theorem g1KeyCodes_nodup : g1KeyCodes.Nodup :=
  nodupCheck_sound _ (by decide)

/-- The EBNF table has pairwise distinct keys. -/
theorem ebnf_keys_nodup : Ebnf.getEbnfRuleNames.Nodup :=
  List.Nodup.of_map strCode (by rw [ebnf_codes_eq]; exact ebnfKeyCodes_nodup)

/-- The first catalog's rule map has pairwise distinct keys. -/
theorem g1_keys_nodup : (Grammar1.rules.map Prod.fst).Nodup :=
  List.Nodup.of_map strCode (by rw [g1_codes_eq]; exact g1KeyCodes_nodup)

/-- The second catalog registers exactly the EBNF table's keys, in the
same order. -/
theorem g2_keys_eq_ebnf_keys : Grammar2.getRuleNames = Ebnf.getEbnfRuleNames := by
  decide

/-- Flattening the first catalog's sections lists exactly its registered
rule names, in registration order. -/
theorem g1_flat_sections_eq_keys :
    Grammar1.SECTION_RULES.flatMap Prod.snd = Grammar1.rules.map Prod.fst := by
  decide

/-- Flattening the second catalog's sections lists exactly its registered
rule names, in registration order. -/
theorem g2_flat_sections_eq_keys :
    Grammar2.SECTION_RULES.flatMap Prod.snd = Grammar2.getRuleNames := by
  decide

/-- No registered factory of the first catalog builds a diagram of the
`No factory defined for ...` placeholder shape. -/
theorem g1_factories_not_placeholder :
    Grammar1.rules.all (fun p => !(isNoFactoryPlaceholder (p.2 ()))) = true := by
  decide

/-- The placeholder built for an unknown name is recognized as such. -/
theorem isNoFactoryPlaceholder_placeholder (name : String) :
    isNoFactoryPlaceholder
      (DiagramNode.diagram
        [DiagramNode.comment ("No factory defined for " ++ name)]) = true := by
  show "No factory defined for ".data.isPrefixOf
      ("No factory defined for " ++ name).data = true
  rw [String.data_append, List.isPrefixOf_iff_prefix]
  exact List.prefix_append _ _

/-!
The claim theorems.
-/

/-- C1: for every string `name`, `createRuleDiagram name` returns a value
and never throws; when `name` is not a registered rule the result is the
`No factory defined for ...` placeholder diagram (first catalog) resp.
the `undefined` sentinel (second catalog), and in both catalogs that
result is distinct from the output produced for every registered rule
name. -/
theorem c1_createRuleDiagram_total_placeholder (name : String) :
    (name ∉ Grammar1.rules.map Prod.fst →
      Grammar1.createRuleDiagram name
          = DiagramNode.diagram
              [DiagramNode.comment ("No factory defined for " ++ name)]
        ∧ ∀ r f, mapGet Grammar1.rules r = some f →
            Grammar1.createRuleDiagram name ≠ Grammar1.createRuleDiagram r)
    ∧ (name ∉ Grammar2.getRuleNames →
      Grammar2.createRuleDiagram name = none
        ∧ ∀ r d, Grammar2.createRuleDiagram r = some d →
            Grammar2.createRuleDiagram name ≠ Grammar2.createRuleDiagram r) := by
  constructor
  · intro h1
    have hg1 : mapGet Grammar1.rules name = none :=
      mapGet_eq_none_of_not_mem_keys _ _ h1
    have hp1 : Grammar1.createRuleDiagram name
        = DiagramNode.diagram
            [DiagramNode.comment ("No factory defined for " ++ name)] := by
      unfold Grammar1.createRuleDiagram
      rw [hg1]
    refine ⟨hp1, ?_⟩
    intro r f hf heq
    have hr : Grammar1.createRuleDiagram r = f () := by
      unfold Grammar1.createRuleDiagram
      rw [hf]
    have hmem : (r, f) ∈ Grammar1.rules := mapGet_eq_some_mem _ _ _ hf
    have hall := List.all_eq_true.1 g1_factories_not_placeholder (r, f) hmem
    have hpl : isNoFactoryPlaceholder (f ()) = true := by
      rw [← hr, ← heq, hp1]
      exact isNoFactoryPlaceholder_placeholder name
    simp [hpl] at hall
  · intro h2
    have hg2 : mapGet Grammar2.rules name = none :=
      mapGet_eq_none_of_not_mem_keys _ _ h2
    have hp2 : Grammar2.createRuleDiagram name = none := by
      unfold Grammar2.createRuleDiagram
      rw [hg2]
      rfl
    refine ⟨hp2, ?_⟩
    intro r d hd heq
    rw [hp2, hd] at heq
    exact Option.noConfusion heq

/-- C1 witness: the unregistered name `frobnicate-expression` yields the
placeholder in the first catalog, the `undefined` sentinel in the second,
and differs from the output of the registered rule `enum-name`. -/
theorem c1_witness :
    Grammar1.createRuleDiagram "frobnicate-expression"
        = DiagramNode.diagram
            [DiagramNode.comment
              ("No factory defined for " ++ "frobnicate-expression")]
      ∧ Grammar2.createRuleDiagram "frobnicate-expression" = none
      ∧ Grammar1.createRuleDiagram "frobnicate-expression"
          ≠ Grammar1.createRuleDiagram "enum-name" := by
  have h := c1_createRuleDiagram_total_placeholder "frobnicate-expression"
  have h1 := h.1 (by decide)
  have h2 := h.2 (by decide)
  exact ⟨h1.1, h2.1,
    h1.2 "enum-name" (fun _ => DiagramNode.diagram
      [DiagramNode.nonTerminal "identifier"]) rfl⟩

/-- C2 (amended): the filter returns an order-preserving subsequence of
the input; every surviving name contains the query *stripped of leading
and trailing whitespace* case-insensitively; an empty or whitespace-only
query returns the full list unchanged.  (The claim's original wording —
containment of the raw query — fails for queries with surrounding
whitespace, see the counterexample.) -/
theorem c2_filter_correct (query : String) (names : List String) :
    (App.filterNames query names).Sublist names
      ∧ (∀ n ∈ App.filterNames query names,
          App.jsIncludes (n.data.map Char.toLower)
            ((App.jsTrim query.data).map Char.toLower) = true)
      ∧ (App.jsTrim query.data = [] →
          App.filterNames query names = names) := by
  by_cases hq : ((App.jsTrim query.data).map Char.toLower).isEmpty
  · have hres : App.filterNames query names = names := by
      unfold App.filterNames
      rw [if_pos hq]
    have hnil : (App.jsTrim query.data).map Char.toLower = [] :=
      List.isEmpty_iff.1 hq
    refine ⟨?_, ?_, fun _ => hres⟩
    · rw [hres]
    · intro n _
      rw [hnil]
      exact decide_eq_true List.nil_infix
  · have hres : App.filterNames query names
        = names.filter (fun n => App.jsIncludes (n.data.map Char.toLower)
            ((App.jsTrim query.data).map Char.toLower)) := by
      unfold App.filterNames
      rw [if_neg hq]
    refine ⟨?_, ?_, ?_⟩
    · rw [hres]
      exact List.filter_sublist names
    · intro n hn
      rw [hres] at hn
      exact (List.mem_filter.1 hn).2
    · intro htrim
      exact absurd (by rw [htrim]; rfl) hq

/-- C2 witness: filtering two literal names with the padded query
`" STRING "` keeps `string-literal`, and a whitespace-only query returns
the list unchanged. -/
theorem c2_witness :
    App.jsIncludes ("string-literal".data.map Char.toLower)
        ((App.jsTrim " STRING ".data).map Char.toLower) = true
      ∧ App.filterNames "   " ["digit"] = ["digit"] :=
  ⟨(c2_filter_correct " STRING " ["integer-literal", "string-literal"]).2.1
      "string-literal" (by decide),
   (c2_filter_correct "   " ["digit"]).2.2 (by decide)⟩

/-- C2 counterexample: with query `"digit "` (trailing space) the filter
keeps `digit`, yet `digit` does not contain the raw query `"digit "`
case-insensitively — so the claim's containment of the raw query fails. -/
theorem c2_counterexample :
    App.filterNames "digit " ["digit"] = ["digit"]
      ∧ App.jsIncludes ("digit".data.map Char.toLower)
          ("digit ".data.map Char.toLower) = false := by
  constructor
  · decide
  · decide

/-- C3: rendering is deterministic — the serialized output depends only
on the structural value of the argument. -/
theorem c3_deterministic_rendering (d₁ d₂ : Svg.JsDiagram) (h : d₁ = d₂) :
    Svg.diagramToSvgString d₁ = Svg.diagramToSvgString d₂ :=
  congrArg Svg.diagramToSvgString h

/-- C3 witness: instantiated at a concrete diagram value. -/
theorem c3_witness :
    Svg.diagramToSvgString (Svg.JsDiagram.withToSVG (Svg.SvgOutcome.str "<svg></svg>"))
      = Svg.diagramToSvgString (Svg.JsDiagram.withToSVG (Svg.SvgOutcome.str "<svg></svg>")) :=
  c3_deterministic_rendering _ _ rfl

/-- C4: `diagramToSvgString` applies the documented fallback chain in
order — a string from `toSVG()` is returned directly, a DOM element is
serialized (preferring `outerHTML`), otherwise `toString()` is used,
otherwise a marked placeholder comment — and every exception is caught
and returned as an inline `Render error` marker string. -/
theorem c4_fallback_chain :
    (∀ s, Svg.diagramToSvgString (.withToSVG (.str s)) = s)
      ∧ (∀ html ser,
          Svg.diagramToSvgString (.withToSVG (.element (some html) ser)) = html)
      ∧ (∀ ser, Svg.diagramToSvgString (.withToSVG (.element none ser)) = ser)
      ∧ Svg.diagramToSvgString (.withToSVG .other)
          = "<!-- toSVG() returned unexpected value -->"
      ∧ (∀ s, Svg.diagramToSvgString (.toStringOnly (.ok s)) = s)
      ∧ Svg.diagramToSvgString .noMethods
          = "<!-- Diagram does not support toSVG/toString -->"
      ∧ (∀ e, Svg.diagramToSvgString (.withToSVG (.throwsErr e))
          = "<!-- Render error: " ++ (e.message.getD e.asString) ++ " -->")
      ∧ (∀ e, Svg.diagramToSvgString (.toStringOnly (.error e))
          = "<!-- Render error: " ++ (e.message.getD e.asString) ++ " -->") :=
  ⟨fun _ => rfl, fun _ _ => rfl, fun _ => rfl, rfl, fun _ => rfl, rfl,
   fun _ => rfl, fun _ => rfl⟩

/-- C5 (amended): every registered rule name maps to its exact authored
EBNF string; an unregistered name returns the `undefined` sentinel
without raising, *unless* it names an inherited `Object.prototype`
member, in which case plain property access returns that inherited
member instead.  (The claim's original wording — every unregistered
string returns `undefined` — fails at prototype-member names such as
`toString`, see the counterexample.) -/
theorem c5_getEbnfDefinition_exact (name : String) :
    (∀ s, (name, s) ∈ Ebnf.EBNF_DEFINITIONS →
        Ebnf.getEbnfDefinition name = .str s)
      ∧ (name ∉ Ebnf.getEbnfRuleNames → name ∉ Ebnf.objectPrototypeKeys →
        Ebnf.getEbnfDefinition name = .jsUndefined)
      ∧ (name ∉ Ebnf.getEbnfRuleNames → name ∈ Ebnf.objectPrototypeKeys →
        Ebnf.getEbnfDefinition name = .protoMember name) := by
  refine ⟨?_, ?_, ?_⟩
  · intro s hs
    have hm := mapGet_of_mem_nodup _ ebnf_keys_nodup _ _ hs
    unfold Ebnf.getEbnfDefinition
    rw [hm]
  · intro h hp
    have hm := mapGet_eq_none_of_not_mem_keys _ _ h
    unfold Ebnf.getEbnfDefinition
    rw [hm]
    exact if_neg hp
  · intro h hp
    have hm := mapGet_eq_none_of_not_mem_keys _ _ h
    unfold Ebnf.getEbnfDefinition
    rw [hm]
    exact if_pos hp

/-- C5 counterexample: `toString` is not a registered rule name, yet
property access on the object literal finds the inherited
`Object.prototype.toString` member through the prototype chain, not the
`undefined` sentinel. -/
theorem c5_counterexample :
    "toString" ∉ Ebnf.getEbnfRuleNames
      ∧ Ebnf.getEbnfDefinition "toString"
          = Ebnf.JsPropValue.protoMember "toString"
      ∧ Ebnf.getEbnfDefinition "toString" ≠ Ebnf.JsPropValue.jsUndefined := by
  refine ⟨by decide, by decide, by decide⟩

/-- C5 witness: `namespace-alias` returns its authored production and
`frobnicate-expression` — neither registered nor an `Object.prototype`
member — returns the sentinel. -/
theorem c5_witness :
    Ebnf.getEbnfDefinition "namespace-alias"
        = Ebnf.JsPropValue.str "namespace-alias:\n    identifier"
      ∧ Ebnf.getEbnfDefinition "frobnicate-expression"
          = Ebnf.JsPropValue.jsUndefined :=
  ⟨(c5_getEbnfDefinition_exact "namespace-alias").1 _ (by decide),
   (c5_getEbnfDefinition_exact "frobnicate-expression").2.1
     (by decide) (by decide)⟩

/-- C6: for a registered name, `createRuleDiagram` returns exactly the
tree the rule's factory builds directly — in particular the same shape
(variant kinds and child counts) — and two calls for the same name yield
structurally equal trees. -/
theorem c6_lookup_reproduces_factory (name : String)
    (f : Unit → DiagramNode) (h : Grammar1.getRuleFactory name = some f) :
    Grammar1.createRuleDiagram name = f ()
      ∧ nodeShape (Grammar1.createRuleDiagram name) = nodeShape (f ())
      ∧ Grammar1.createRuleDiagram name = Grammar1.createRuleDiagram name := by
  have h1 : Grammar1.createRuleDiagram name = f () := by
    unfold Grammar1.createRuleDiagram
    unfold Grammar1.getRuleFactory at h
    rw [h]
  exact ⟨h1, congrArg nodeShape h1, rfl⟩

/-- C6 witness: the registered rule `enum-name` reproduces its factory's
tree. -/
theorem c6_witness :
    Grammar1.createRuleDiagram "enum-name"
      = DiagramNode.diagram [DiagramNode.nonTerminal "identifier"] :=
  (c6_lookup_reproduces_factory "enum-name"
    (fun _ => DiagramNode.diagram [DiagramNode.nonTerminal "identifier"]) rfl).1

/-- C7: the set of rule names with a registered diagram factory equals
the set of rule names with a registered EBNF definition. -/
theorem c7_coverage_sets_equal (name : String) :
    name ∈ Grammar2.getRuleNames ↔ name ∈ Ebnf.getEbnfRuleNames := by
  rw [g2_keys_eq_ebnf_keys]

/-- C8: in both shipped catalogs, every registered rule name appears
exactly once across the union of all `SECTION_RULES` lists — no name
occurs twice within one section or in two different sections. -/
theorem c8_each_rule_listed_once :
    ((Grammar1.SECTION_RULES.flatMap Prod.snd).Nodup
      ∧ ∀ name ∈ Grammar1.rules.map Prod.fst,
          (Grammar1.SECTION_RULES.flatMap Prod.snd).count name = 1)
    ∧ ((Grammar2.SECTION_RULES.flatMap Prod.snd).Nodup
      ∧ ∀ name ∈ Grammar2.getRuleNames,
          (Grammar2.SECTION_RULES.flatMap Prod.snd).count name = 1) := by
  have h1 : (Grammar1.SECTION_RULES.flatMap Prod.snd).Nodup := by
    rw [g1_flat_sections_eq_keys]
    exact g1_keys_nodup
  have h2 : (Grammar2.SECTION_RULES.flatMap Prod.snd).Nodup := by
    rw [g2_flat_sections_eq_keys, g2_keys_eq_ebnf_keys]
    exact ebnf_keys_nodup
  refine ⟨⟨h1, ?_⟩, ⟨h2, ?_⟩⟩
  · intro name hname
    exact List.count_eq_one_of_mem h1 (by rw [g1_flat_sections_eq_keys]; exact hname)
  · intro name hname
    exact List.count_eq_one_of_mem h2 (by rw [g2_flat_sections_eq_keys]; exact hname)

/-- C8 witness: the registered name `typedef-name` is listed exactly once
across each catalog's sections. -/
theorem c8_witness :
    (Grammar1.SECTION_RULES.flatMap Prod.snd).count "typedef-name" = 1
      ∧ (Grammar2.SECTION_RULES.flatMap Prod.snd).count "typedef-name" = 1 :=
  ⟨c8_each_rule_listed_once.1.2 "typedef-name" (by decide),
   c8_each_rule_listed_once.2.2 "typedef-name" (by decide)⟩

/-- C9: a `null` or `undefined` diagram yields exactly the
`<!-- empty diagram -->` sentinel. -/
theorem c9_nullish_sentinel :
    Svg.diagramToSvgString .jsNull = "<!-- empty diagram -->"
      ∧ Svg.diagramToSvgString .jsUndefined = "<!-- empty diagram -->" :=
  ⟨rfl, rfl⟩

/-- C10: the filter's output is invariant under trimming the query of
leading and trailing whitespace. -/
theorem c10_filter_trim_invariant (query : String) (names : List String) :
    App.filterNames (String.mk (App.jsTrim query.data)) names
      = App.filterNames query names := by
  unfold App.filterNames
  rw [show (String.mk (App.jsTrim query.data)).data = App.jsTrim query.data from rfl,
    App.jsTrim_idem]

end SyntaxDiagrams
